import Mathlib

/-! ## Loop combinators

Every C `for`/`while` loop with an index is embedded through `cFor`: a
fuel-indexed structural recursion that tests the guard, runs the body on the
current index and advances it.  The fuel passed at each call site is at least
the number of iterations the C loop performs, so the `0`-fuel branch is never
reached (the characterization lemmas below make this precise).  `applyN` is
plain `n`-fold application and `applyB` a balanced (logarithmic-depth)
variant used to evaluate long loops on concrete inputs. -/

def cFor {σ : Type} (guard : ℕ → Bool) (step : ℕ) (body : ℕ → σ → σ) :
    ℕ → ℕ → σ → ℕ × σ
  | 0, i, s => (i, s)
  | f + 1, i, s =>
      if guard i then cFor guard step body f (i + step) (body i s) else (i, s)

def applyN {α : Type} (g : α → α) : ℕ → α → α
  | 0, a => a
  | n + 1, a => applyN g n (g a)

def applyB {α : Type} (g : α → α) : ℕ → ℕ → α → α
  | _, 0, a => a
  | _, 1, a => g a
  | 0, _ + 2, a => a
  | f + 1, n + 2, a =>
      applyB g f ((n + 2) - (n + 2) / 2) (applyB g f ((n + 2) / 2) a)

/-- The index-advancing view of a `cFor` body. -/
def cStep {σ : Type} (step : ℕ) (body : ℕ → σ → σ) (p : ℕ × σ) : ℕ × σ :=
  (p.1 + step, body p.1 p.2)

/-! ## Core CRC-32 machinery

`crc32_braid_c.c` includes `crc32_braid_tbl.h` and `crc32_braid_p.h`, which are
not under `src/`.  The definitions below model those missing pieces from the
spec, everything else is translated from the C sources. -/

/-- The reflected IEEE 802.3 generator polynomial (spec §6). -/
def crcPoly : ℕ := 0xEDB88320

/-- One reflected polynomial step: advance the register by one bit position. -/
def sstep (x : ℕ) : ℕ := x >>> 1 ^^^ (if x % 2 = 1 then crcPoly else 0)

/-- Iterate `sstep`. -/
def sstepIter : ℕ → ℕ → ℕ
  | 0, x => x
  | n + 1, x => sstepIter n (sstep x)

/-- Modelled from the spec: the 256-entry base table lives in the missing
header `crc32_braid_tbl.h`; per spec §3, `T[b]` is byte `b` advanced 8 steps
under the polynomial. -/
def crcTable (b : ℕ) : ℕ := sstepIter 8 b

/-- The `DO1` byte update `c = crc_table[(c ^ *buf++) & 0xff] ^ (c >> 8)`
(`crc32_braid_p.h` is not under `src/`; the macro body is as spec §4.1 states).
-/
def byteStep (c b : ℕ) : ℕ := crcTable ((c ^^^ b) % 256) ^^^ c >>> 8

/-- A byte fetched from a buffer; C byte reads always yield values below 256. -/
def readByte (input : ℕ → ℕ) (j : ℕ) : ℕ := input j % 256

/-- `crcRange input n off c` feeds the `n` buffer bytes starting at offset
`off` through `byteStep`.  This embeds the plain byte loops of
`crc32_braid_base` (the `DO8` unrolling of the missing `crc32_braid_p.h` is
eight `DO1` steps, so both residual loops together are this fold). -/
def crcRange (input : ℕ → ℕ) : ℕ → ℕ → ℕ → ℕ
  | 0, _, c => c
  | n + 1, off, c => crcRange input n (off + 1) (byteStep c (readByte input off))

/-- One round of `crc_word`: `data = (data >> 8) ^ crc_table[data & 0xff]`. -/
def wstep (d : ℕ) : ℕ := d >>> 8 ^^^ crcTable (d % 256)

/-- Iterate `wstep`. -/
def wstepIter : ℕ → ℕ → ℕ
  | 0, d => d
  | n + 1, d => wstepIter n (wstep d)

/-- `crc_word` (little-endian branch, `W == 8`): eight `wstep` rounds. -/
def crcWord (d : ℕ) : ℕ := wstepIter 8 d

/-- A little-endian `uint64_t` load of 8 buffer bytes at byte offset `off`. -/
def leW (input : ℕ → ℕ) (off : ℕ) : ℕ :=
  readByte input off ^^^ readByte input (off + 1) <<< 8 ^^^
    readByte input (off + 2) <<< 16 ^^^ readByte input (off + 3) <<< 24 ^^^
    readByte input (off + 4) <<< 32 ^^^ readByte input (off + 5) <<< 40 ^^^
    readByte input (off + 6) <<< 48 ^^^ readByte input (off + 7) <<< 56

/-- Modelled from the spec: the braid tables of the missing
`crc32_braid_tbl.h`.  Per spec §3 an entry is the CRC register contribution of
byte `b` placed `k` byte positions into a braid word, advanced to the end of
the following `N`-word block: byte `b` followed by `N*W - 1 - k = 39 - k` zero
bytes (`N = 5`, `W = 8`). -/
def braidTable (k b : ℕ) : ℕ := wstepIter (39 - k) (crcTable (b % 256))

/-- The unrolled per-braid table combination
`BRAID_TABLE[0][w & 0xff] ^ ... ^ BRAID_TABLE[7][(w >> 56) & 0xff]`. -/
def braidLook (w : ℕ) : ℕ :=
  braidTable 0 (w % 256) ^^^ braidTable 1 (w >>> 8 % 256) ^^^
    braidTable 2 (w >>> 16 % 256) ^^^ braidTable 3 (w >>> 24 % 256) ^^^
    braidTable 4 (w >>> 32 % 256) ^^^ braidTable 5 (w >>> 40 % 256) ^^^
    braidTable 6 (w >>> 48 % 256) ^^^ braidTable 7 (w >>> 56 % 256)

/-- State of the five braids (`crc0 .. crc4`). -/
structure BraidSt where
  c0 : ℕ
  c1 : ℕ
  c2 : ℕ
  c3 : ℕ
  c4 : ℕ

/-- One iteration of the braided block loop: load the five words of the block
starting at byte offset `off` (a word-aligned position of the buffer), XOR
each with its running braid CRC and recompute via the braid tables. -/
def braidBlockStep (input : ℕ → ℕ) (off : ℕ) (s : BraidSt) : BraidSt :=
  let w0 := s.c0 ^^^ leW input off
  let w1 := s.c1 ^^^ leW input (off + 8)
  let w2 := s.c2 ^^^ leW input (off + 16)
  let w3 := s.c3 ^^^ leW input (off + 24)
  let w4 := s.c4 ^^^ leW input (off + 32)
  ⟨braidLook w0, braidLook w1, braidLook w2, braidLook w3, braidLook w4⟩

/-- The `while (--blks)` loop of `crc32_braid_base`: runs the block step
`blks - 1` times (the last block is combined separately). -/
def braidBlocks (input : ℕ → ℕ) : ℕ → ℕ → BraidSt → BraidSt
  | 0, _, s => s
  | 1, _, s => s
  | blks + 2, off, s =>
      braidBlocks input (blks + 1) (off + 40) (braidBlockStep input off s)

/-- The final-block combination of the five braids via `crc_word`. -/
def braidLast (input : ℕ → ℕ) (off : ℕ) (s : BraidSt) : ℕ :=
  let comb := crcWord (s.c0 ^^^ leW input off)
  let comb := crcWord (s.c1 ^^^ leW input (off + 8) ^^^ comb)
  let comb := crcWord (s.c2 ^^^ leW input (off + 16) ^^^ comb)
  let comb := crcWord (s.c3 ^^^ leW input (off + 24) ^^^ comb)
  crcWord (s.c4 ^^^ leW input (off + 32) ^^^ comb)

/-- `crc32_braid_base(c, buf, len)` where `buf` has address `addr` and content
`input` (buffer-relative offsets).  `N = 5`, `W = 8`; `ZSWAPWORD` is the
identity on little-endian. -/
def crc32BraidBase (c : ℕ) (addr : ℕ) (input : ℕ → ℕ) (len : ℕ) : ℕ :=
  if 5 * 8 + 8 - 1 ≤ len then
    -- up-front byte loop to a word boundary; since `len ≥ 47 > 7` the length
    -- test of `while (len && ((uintptr_t)buf & (W - 1)))` never binds, and the
    -- loop consumes exactly `(8 - addr % 8) % 8` bytes
    let pa := (8 - addr % 8) % 8
    let c := crcRange input pa 0 c
    let len1 := len - pa
    let blks := len1 / (5 * 8)
    let len2 := len1 - blks * (5 * 8)
    let s := braidBlocks input blks pa ⟨c, 0, 0, 0, 0⟩
    let c := braidLast input (pa + 40 * (blks - 1)) s
    crcRange input len2 (pa + blks * (5 * 8)) c
  else
    crcRange input len 0 c

/-! ## Dispatcher alignment and selection (`crc32_c.c`, `crc32_braid`) -/

/-- `algn_diff = ((uintptr_t)8 - ((uintptr_t)buf & 0xF)) & 0xF`: the C
expression computes, in wraparound `uintptr_t` arithmetic,
`(8 - addr % 16) mod 16`. -/
def algnDiff (addr : ℕ) : ℕ := (8 + 16 - addr % 16) % 16

/-- The kernels `crc32_c` can hand the (aligned remainder of the) buffer to. -/
inductive KernelSel where
  | braid : KernelSel
  | small : KernelSel
  | mid : KernelSel
  | big : KernelSel
deriving DecidableEq

/-- The branch structure of `crc32_c` (`W == 8` configuration): which kernel
processes the aligned remainder of the buffer. -/
def crc32cSelect (addr len : ℕ) : KernelSel :=
  if algnDiff addr < len then
    let alignedLen := len - algnDiff addr
    if 8 * 64 * 1024 < alignedLen then .big
    else if 8192 < alignedLen ∧ alignedLen ≤ 32768 then .mid
    else if 72 < alignedLen then .small
    else .braid
  else .braid

/-! ## The small Chorba kernel (`chorba_small_nondestructive`) -/

/-- 64-bit left shift (`uint64_t` arithmetic). -/
def shl64 (x k : ℕ) : ℕ := x <<< k % 2 ^ 64

/-- The Chorba shift schedule: `a1 = (in << 17) ^ (in << 55)`. -/
def sprA1 (w : ℕ) : ℕ := shl64 w 17 ^^^ shl64 w 55

/-- `a2 = (in >> 47) ^ (in >> 9) ^ (in << 19)`. -/
def sprA2 (w : ℕ) : ℕ := w >>> 47 ^^^ w >>> 9 ^^^ shl64 w 19

/-- `a3 = (in >> 45) ^ (in << 44)`. -/
def sprA3 (w : ℕ) : ℕ := w >>> 45 ^^^ shl64 w 44

/-- `a4 = (in >> 20)`. -/
def sprA4 (w : ℕ) : ℕ := w >>> 20

/-- The five carry accumulators `next1 .. next5` of the small Chorba kernel
(and `next1_64 .. next5_64` of the large kernel's finishing loop). -/
structure Chorba5 where
  n1 : ℕ
  n2 : ℕ
  n3 : ℕ
  n4 : ℕ
  n5 : ℕ

/-- One four-word Chorba group: the body shared by every `/* 4k..4k+3 */`
sub-block of the unrolled superblock loop, by the second (32-byte-stride) loop
of `chorba_small_nondestructive` (with `m1 = m2 = m3 = m4 = 0`), and by the
finishing loop of `chorba_118960_nondestructive` (with `mk` the scratch words).
`m1 .. m4` are the extra XOR masks applied to `in1 .. in4`; when `first` is
set, the incoming accumulators are not XORed in and `next1` is `out1` alone
(the `/* 0-3 */` sub-block, which runs right after the accumulators were
folded into the `chorba` words). -/
def chorbaQuad (input : ℕ → ℕ) (i : ℕ) (m1 m2 m3 m4 : ℕ) (s : Chorba5)
    (first : Bool) : Chorba5 :=
  let in1 := leW input i ^^^ (if first then 0 else s.n1) ^^^ m1
  let in2 := leW input (i + 8) ^^^ (if first then 0 else s.n2) ^^^ m2
  let a1 := sprA1 in1
  let a2 := sprA2 in1
  let a3 := sprA3 in1
  let a4 := sprA4 in1
  let b1 := sprA1 in2
  let b2 := sprA2 in2
  let b3 := sprA3 in2
  let b4 := sprA4 in2
  let in3 := leW input (i + 16) ^^^ (if first then 0 else s.n3) ^^^ a1 ^^^ m3
  let in4 := leW input (i + 24) ^^^ (if first then 0 else s.n4) ^^^ a2 ^^^ b1 ^^^ m4
  let c1 := sprA1 in3
  let c2 := sprA2 in3
  let c3 := sprA3 in3
  let c4 := sprA4 in3
  let d1 := sprA1 in4
  let d2 := sprA2 in4
  let d3 := sprA3 in4
  let d4 := sprA4 in4
  let out1 := a3 ^^^ b2 ^^^ c1
  let out2 := a4 ^^^ b3 ^^^ c2 ^^^ d1
  let out3 := b4 ^^^ c3 ^^^ d2
  let out4 := c4 ^^^ d3
  let out5 := d4
  ⟨(if first then 0 else s.n5) ^^^ out1, out2, out3, out4, out5⟩

/-- The unrolled 320-byte superblock body of the first loop of
`chorba_small_nondestructive`: reads the eight `chorba1 .. chorba8` words at
byte offset `i`, folds the accumulators into them, and runs the eight
four-word sub-blocks with their fixed `chorba` XOR masks. -/
def chorbaSuperblock (input : ℕ → ℕ) (i : ℕ) (s : Chorba5) : Chorba5 :=
  let ch1 := leW input i ^^^ s.n1
  let ch2 := leW input (i + 8) ^^^ s.n2
  let ch3 := leW input (i + 16) ^^^ s.n3
  let ch4 := leW input (i + 24) ^^^ s.n4
  let ch5 := leW input (i + 32) ^^^ s.n5
  let ch6 := leW input (i + 40)
  let ch7 := leW input (i + 48) ^^^ ch1
  let ch8 := leW input (i + 56) ^^^ ch2
  let s := chorbaQuad input (i + 64) ch3 (ch4 ^^^ ch1) (ch5 ^^^ ch2 ^^^ ch1)
    (ch6 ^^^ ch3 ^^^ ch2) s true
  let s := chorbaQuad input (i + 96) (ch7 ^^^ ch4 ^^^ ch3) (ch8 ^^^ ch5 ^^^ ch4)
    (ch6 ^^^ ch5) (ch7 ^^^ ch6) s false
  let s := chorbaQuad input (i + 128) (ch8 ^^^ ch7 ^^^ ch1) (ch8 ^^^ ch2) ch3 ch4 s false
  let s := chorbaQuad input (i + 160) (ch5 ^^^ ch1) (ch6 ^^^ ch2 ^^^ ch1)
    (ch7 ^^^ ch3 ^^^ ch2 ^^^ ch1) (ch8 ^^^ ch4 ^^^ ch3 ^^^ ch2) s false
  let s := chorbaQuad input (i + 192) (ch5 ^^^ ch4 ^^^ ch3 ^^^ ch1)
    (ch6 ^^^ ch5 ^^^ ch4 ^^^ ch1 ^^^ ch2) (ch7 ^^^ ch6 ^^^ ch5 ^^^ ch2 ^^^ ch3)
    (ch8 ^^^ ch7 ^^^ ch6 ^^^ ch3 ^^^ ch4 ^^^ ch1) s false
  let s := chorbaQuad input (i + 224) (ch8 ^^^ ch7 ^^^ ch4 ^^^ ch5 ^^^ ch2 ^^^ ch1)
    (ch8 ^^^ ch5 ^^^ ch6 ^^^ ch3 ^^^ ch2) (ch7 ^^^ ch6 ^^^ ch4 ^^^ ch3 ^^^ ch1)
    (ch8 ^^^ ch7 ^^^ ch5 ^^^ ch4 ^^^ ch2 ^^^ ch1) s false
  let s := chorbaQuad input (i + 256) (ch8 ^^^ ch6 ^^^ ch5 ^^^ ch3 ^^^ ch2 ^^^ ch1)
    (ch7 ^^^ ch6 ^^^ ch4 ^^^ ch3 ^^^ ch2) (ch8 ^^^ ch7 ^^^ ch5 ^^^ ch4 ^^^ ch3)
    (ch8 ^^^ ch6 ^^^ ch5 ^^^ ch4) s false
  chorbaQuad input (i + 288) (ch7 ^^^ ch6 ^^^ ch5) (ch8 ^^^ ch7 ^^^ ch6)
    (ch8 ^^^ ch7) ch8 s false

/-- The first loop of `chorba_small_nondestructive`:
`for (; (i + 256 + 40 + 32 + 32) < len; i += 32)` whose body advances `i` by
a further 288 bytes, so each iteration consumes 320 bytes. -/
def chorbaSmallLoop1 (input : ℕ → ℕ) (len : ℕ) (f i : ℕ) (s : Chorba5) :
    ℕ × Chorba5 :=
  cFor (fun i => decide (i + 256 + 40 + 32 + 32 < len)) 320
    (chorbaSuperblock input) f i s

/-- The second loop of `chorba_small_nondestructive`:
`for (; (i + 40 + 32) < len; i += 32)`. -/
def chorbaSmallLoop2 (input : ℕ → ℕ) (len : ℕ) (f i : ℕ) (s : Chorba5) :
    ℕ × Chorba5 :=
  cFor (fun i => decide (i + 40 + 32 < len)) 32
    (fun i s => chorbaQuad input i 0 0 0 0 s false) f i s

/-- The zero-initialized 72-byte tail buffer after
`memcpy(final, input + i/8, len - i)`, as a byte function. -/
def tailMem (input : ℕ → ℕ) (i len : ℕ) (j : ℕ) : ℕ :=
  if j < len - i then readByte input (i + j) else 0

/-- Word `k` of the tail buffer after the five accumulators have been XORed
into `final[0] .. final[4]`. -/
def tailWord (input : ℕ → ℕ) (i len : ℕ) (s : Chorba5) (k : ℕ) : ℕ :=
  leW (tailMem input i len) (8 * k) ^^^
    (if k = 0 then s.n1 else if k = 1 then s.n2 else if k = 2 then s.n3
      else if k = 3 then s.n4 else if k = 4 then s.n5 else 0)

/-- The tail buffer reinterpreted as bytes (`(uint8_t*) final`). -/
def tailBytes (input : ℕ → ℕ) (i len : ℕ) (s : Chorba5) (j : ℕ) : ℕ :=
  tailWord input i len s (j / 8) >>> (8 * (j % 8)) % 256

/-- `chorba_small_nondestructive(crc, buf, len)` over an 8-byte-aligned buffer
with content `input`.  The final call hands the stack array `final` (8-byte
aligned, so modelled with address 0) to `crc32_braid_base` with the `crc`
variable, which is 0 at that point. -/
def chorbaSmallNondestructive (crc : ℕ) (input : ℕ → ℕ) (len : ℕ) : ℕ :=
  let s0 : Chorba5 := ⟨crc, 0, 0, 0, 0⟩
  let r1 := chorbaSmallLoop1 input len len 0 s0
  let r2 := chorbaSmallLoop2 input len len r1.1 r1.2
  crc32BraidBase 0 0 (tailBytes input r2.1 len r2.2) (len - r2.1)

/-! ## The large Chorba kernel (`chorba_118960_nondestructive`)

The 128 KiB circular scratch `z_word_t bitbuffer[16384]` is embedded as a
single natural number holding the 16384 64-bit words in little-endian word
order (word `s` at bit position `64*s`); `bbGet`/`bbSet` are the word
accesses, and `bbByte` is the byte view `(const uint8_t*) bitbuffer` used by
the closing loop.  The buffer is a stack array, so its initial content is
indeterminate: the kernel takes it as the parameter `ring0`. -/

/-- `bitbuffersizezwords = (16 * 1024 * sizeof(z_word_t)) / sizeof(z_word_t)`. -/
def bbWords : ℕ := 16 * 1024

/-- Read scratch word `s`. -/
def bbGet (r s : ℕ) : ℕ := r >>> (64 * s) % 2 ^ 64

/-- Write scratch word `s`. -/
def bbSet (r s v : ℕ) : ℕ := r ^^^ (bbGet r s ^^^ v % 2 ^ 64) <<< (64 * s)

/-- Read scratch byte `p` (`bitbufferbytes[p]`). -/
def bbByte (r p : ℕ) : ℕ := r >>> (8 * p) % 256

/-- The 22 carry accumulators and the scratch buffer of the large kernel. -/
structure BigSt where
  n1 : ℕ
  n2 : ℕ
  n3 : ℕ
  n4 : ℕ
  n5 : ℕ
  n6 : ℕ
  n7 : ℕ
  n8 : ℕ
  n9 : ℕ
  n10 : ℕ
  n11 : ℕ
  n12 : ℕ
  n13 : ℕ
  n14 : ℕ
  n15 : ℕ
  n16 : ℕ
  n17 : ℕ
  n18 : ℕ
  n19 : ℕ
  n20 : ℕ
  n21 : ℕ
  n22 : ℕ
  ring : ℕ

/-- The 256-byte stride body shared (up to its scratch reads) by the three
stride loops of `chorba_118960_nondestructive`: `mode = 0` is the first pass
(no scratch reads, lines 250–346), `mode = 1` the intermediate pass (scratch
XORed into `in23 .. in32` only, lines 349–446), `mode = 2` the steady state
(scratch XORed into all 32 words, lines 448–545). -/
def bigStride (input : ℕ → ℕ) (mode i : ℕ) (st : BigSt) : BigSt :=
  let base := i / 8
  let ino := base % bbWords
  let outoffset1 := (base + 14848) % bbWords
  let outoffset2 := (base + 14880) % bbWords
  let rd : ℕ → ℕ := fun t =>
    if mode = 2 ∨ (mode = 1 ∧ 22 ≤ t) then bbGet st.ring (ino + t) else 0
  let in1 := leW input (8 * (base + 0)) ^^^ st.n1 ^^^ rd 0
  let in2 := leW input (8 * (base + 1)) ^^^ st.n2 ^^^ rd 1
  let in3 := leW input (8 * (base + 2)) ^^^ st.n3 ^^^ rd 2
  let in4 := leW input (8 * (base + 3)) ^^^ st.n4 ^^^ rd 3
  let in5 := leW input (8 * (base + 4)) ^^^ st.n5 ^^^ rd 4
  let in6 := leW input (8 * (base + 5)) ^^^ st.n6 ^^^ rd 5
  let in7 := leW input (8 * (base + 6)) ^^^ st.n7 ^^^ rd 6
  let in8 := leW input (8 * (base + 7)) ^^^ st.n8 ^^^ in1 ^^^ rd 7
  let in9 := leW input (8 * (base + 8)) ^^^ st.n9 ^^^ in2 ^^^ rd 8
  let in10 := leW input (8 * (base + 9)) ^^^ st.n10 ^^^ in3 ^^^ rd 9
  let in11 := leW input (8 * (base + 10)) ^^^ st.n11 ^^^ in4 ^^^ rd 10
  let in12 := leW input (8 * (base + 11)) ^^^ st.n12 ^^^ in1 ^^^ in5 ^^^ rd 11
  let in13 := leW input (8 * (base + 12)) ^^^ st.n13 ^^^ in2 ^^^ in6 ^^^ rd 12
  let in14 := leW input (8 * (base + 13)) ^^^ st.n14 ^^^ in3 ^^^ in7 ^^^ rd 13
  let in15 := leW input (8 * (base + 14)) ^^^ st.n15 ^^^ in4 ^^^ in8 ^^^ rd 14
  let in16 := leW input (8 * (base + 15)) ^^^ st.n16 ^^^ in5 ^^^ in9 ^^^ rd 15
  let in17 := leW input (8 * (base + 16)) ^^^ st.n17 ^^^ in6 ^^^ in10 ^^^ rd 16
  let in18 := leW input (8 * (base + 17)) ^^^ st.n18 ^^^ in7 ^^^ in11 ^^^ rd 17
  let in19 := leW input (8 * (base + 18)) ^^^ st.n19 ^^^ in8 ^^^ in12 ^^^ rd 18
  let in20 := leW input (8 * (base + 19)) ^^^ st.n20 ^^^ in9 ^^^ in13 ^^^ rd 19
  let in21 := leW input (8 * (base + 20)) ^^^ st.n21 ^^^ in10 ^^^ in14 ^^^ rd 20
  let in22 := leW input (8 * (base + 21)) ^^^ st.n22 ^^^ in11 ^^^ in15 ^^^ rd 21
  let in23 := leW input (8 * (base + 22)) ^^^ in1 ^^^ in12 ^^^ in16 ^^^ rd 22
  let in24 := leW input (8 * (base + 23)) ^^^ in2 ^^^ in13 ^^^ in17 ^^^ rd 23
  let in25 := leW input (8 * (base + 24)) ^^^ in3 ^^^ in14 ^^^ in18 ^^^ rd 24
  let in26 := leW input (8 * (base + 25)) ^^^ in4 ^^^ in15 ^^^ in19 ^^^ rd 25
  let in27 := leW input (8 * (base + 26)) ^^^ in5 ^^^ in16 ^^^ in20 ^^^ rd 26
  let in28 := leW input (8 * (base + 27)) ^^^ in6 ^^^ in17 ^^^ in21 ^^^ rd 27
  let in29 := leW input (8 * (base + 28)) ^^^ in7 ^^^ in18 ^^^ in22 ^^^ rd 28
  let in30 := leW input (8 * (base + 29)) ^^^ in8 ^^^ in19 ^^^ in23 ^^^ rd 29
  let in31 := leW input (8 * (base + 30)) ^^^ in9 ^^^ in20 ^^^ in24 ^^^ rd 30
  let in32 := leW input (8 * (base + 31)) ^^^ in10 ^^^ in21 ^^^ in25 ^^^ rd 31
  let r := st.ring
  let r := bbSet r (outoffset1 + 22) in1
  let r := bbSet r (outoffset1 + 23) in2
  let r := bbSet r (outoffset1 + 24) in3
  let r := bbSet r (outoffset1 + 25) in4
  let r := bbSet r (outoffset1 + 26) in5
  let r := bbSet r (outoffset1 + 27) in6
  let r := bbSet r (outoffset1 + 28) in7
  let r := bbSet r (outoffset1 + 29) in8
  let r := bbSet r (outoffset1 + 30) in9
  let r := bbSet r (outoffset1 + 31) in10
  let r := bbSet r (outoffset2 + 0) in11
  let r := bbSet r (outoffset2 + 1) in12
  let r := bbSet r (outoffset2 + 2) in13
  let r := bbSet r (outoffset2 + 3) in14
  let r := bbSet r (outoffset2 + 4) in15
  let r := bbSet r (outoffset2 + 5) in16
  let r := bbSet r (outoffset2 + 6) in17
  let r := bbSet r (outoffset2 + 7) in18
  let r := bbSet r (outoffset2 + 8) in19
  let r := bbSet r (outoffset2 + 9) in20
  let r := bbSet r (outoffset2 + 10) in21
  let r := bbSet r (outoffset2 + 11) in22
  let r := bbSet r (outoffset2 + 12) in23
  let r := bbSet r (outoffset2 + 13) in24
  let r := bbSet r (outoffset2 + 14) in25
  let r := bbSet r (outoffset2 + 15) in26
  let r := bbSet r (outoffset2 + 16) in27
  let r := bbSet r (outoffset2 + 17) in28
  let r := bbSet r (outoffset2 + 18) in29
  let r := bbSet r (outoffset2 + 19) in30
  let r := bbSet r (outoffset2 + 20) in31
  let r := bbSet r (outoffset2 + 21) in32
  { n1 := in11 ^^^ in22 ^^^ in26, n2 := in12 ^^^ in23 ^^^ in27
    n3 := in13 ^^^ in24 ^^^ in28, n4 := in14 ^^^ in25 ^^^ in29
    n5 := in15 ^^^ in26 ^^^ in30, n6 := in16 ^^^ in27 ^^^ in31
    n7 := in17 ^^^ in28 ^^^ in32, n8 := in18 ^^^ in29
    n9 := in19 ^^^ in30, n10 := in20 ^^^ in31, n11 := in21 ^^^ in32
    n12 := in22, n13 := in23, n14 := in24, n15 := in25, n16 := in26
    n17 := in27, n18 := in28, n19 := in29, n20 := in30, n21 := in31
    n22 := in32, ring := r }

/-- First pass: `for (; i < 14848 * sizeof(z_word_t); i += 256)`. -/
def bigPhaseA (input : ℕ → ℕ) (f i : ℕ) (st : BigSt) : ℕ × BigSt :=
  cFor (fun i => decide (i < 14848 * 8)) 256 (bigStride input 0) f i st

/-- Intermediate pass: `for (; i < 14880 * sizeof(z_word_t); i += 256)`. -/
def bigPhaseB (input : ℕ → ℕ) (f i : ℕ) (st : BigSt) : ℕ × BigSt :=
  cFor (fun i => decide (i < 14880 * 8)) 256 (bigStride input 1) f i st

/-- Steady state: `for (; (i + (14870 + 64) * sizeof(z_word_t)) < len; i += 256)`.
Returns the exit value of `i` together with the state. -/
def bigPhaseC (input : ℕ → ℕ) (len : ℕ) (f i : ℕ) (st : BigSt) : ℕ × BigSt :=
  cFor (fun i => decide (i + (14870 + 64) * 8 < len)) 256 (bigStride input 2) f i st

/-- The 60-word zeroing loop
`for (int j = 14870; j < 14870 + 60; j++) bitbuffer[(j + i/8) % bbWords] = 0`. -/
def bigZeroLoop (i8 : ℕ) (f j : ℕ) (r : ℕ) : ℕ :=
  (cFor (fun j => decide (j < 14870 + 60)) 1
    (fun j r => bbSet r ((j + i8) % bbWords) 0) f j r).2

/-- `next1 .. next22` of a large-kernel state as a function of the index. -/
def bsN (st : BigSt) (k : ℕ) : ℕ :=
  if k = 1 then st.n1 else if k = 2 then st.n2 else if k = 3 then st.n3
  else if k = 4 then st.n4 else if k = 5 then st.n5 else if k = 6 then st.n6
  else if k = 7 then st.n7 else if k = 8 then st.n8 else if k = 9 then st.n9
  else if k = 10 then st.n10 else if k = 11 then st.n11 else if k = 12 then st.n12
  else if k = 13 then st.n13 else if k = 14 then st.n14 else if k = 15 then st.n15
  else if k = 16 then st.n16 else if k = 17 then st.n17 else if k = 18 then st.n18
  else if k = 19 then st.n19 else if k = 20 then st.n20 else if k = 21 then st.n21
  else if k = 22 then st.n22 else 0

/-- The first `k` of the drain's 22 uniform statements
`bitbuffer[(i/8 + t) % bbWords] ^= next(t+1)`, in source order. -/
def drainAcc (i8 : ℕ) (g : ℕ → ℕ) : ℕ → ℕ → ℕ
  | 0, r => r
  | k + 1, r =>
      let r2 := drainAcc i8 g k r
      bbSet r2 ((i8 + k) % bbWords) (bbGet r2 ((i8 + k) % bbWords) ^^^ g (k + 1))

/-- The drain: XOR the 22 accumulators into the scratch at the current read
position (the 22 uniform `^=` statements, embedded as the 22-step fold
`drainAcc`), then zero the 60 words past the write window. -/
def bigDrain (i : ℕ) (st : BigSt) : ℕ :=
  bigZeroLoop (i / 8) 64 14870 (drainAcc (i / 8) (bsN st) 22 st.ring)

/-- The finishing 32-byte-stride loop `for (; (i + 72 < len); i += 32)`: the
four-word Chorba group with the scratch words XORed in. -/
def bigTailLoop (input : ℕ → ℕ) (len : ℕ) (r : ℕ) (f i : ℕ) (s : Chorba5) :
    ℕ × Chorba5 :=
  cFor (fun i => decide (i + 72 < len)) 32
    (fun i s => chorbaQuad input (8 * (i / 8))
      (bbGet r ((i / 8) % bbWords)) (bbGet r ((i / 8 + 1) % bbWords))
      (bbGet r ((i / 8 + 2) % bbWords)) (bbGet r ((i / 8 + 3) % bbWords)) s false)
    f i s

/-- The closing byte loop
`crc = crc_table[(crc ^ final_bytes[j] ^ bitbufferbytes[(j+i) % bitbuffersizebytes]) & 0xff] ^ (crc >> 8)`. -/
def bigFinalLoop (fb : ℕ → ℕ) (r i len : ℕ) (f j crc : ℕ) : ℕ :=
  (cFor (fun j => decide (j < len - i)) 1
    (fun j crc =>
      crcTable ((crc ^^^ fb j ^^^ bbByte r ((j + i) % (bbWords * 8))) % 256) ^^^ crc >>> 8)
    f j crc).2

/-- `chorba_118960_nondestructive(crc, input, len)` over an 8-byte-aligned
buffer with content `input`; `ring0` is the indeterminate initial content of
the stack scratch buffer. -/
def chorba118960Nondestructive (crc : ℕ) (input : ℕ → ℕ) (len : ℕ) (ring0 : ℕ) : ℕ :=
  let st0 : BigSt :=
    { n1 := crc, n2 := 0, n3 := 0, n4 := 0, n5 := 0, n6 := 0, n7 := 0, n8 := 0
      n9 := 0, n10 := 0, n11 := 0, n12 := 0, n13 := 0, n14 := 0, n15 := 0
      n16 := 0, n17 := 0, n18 := 0, n19 := 0, n20 := 0, n21 := 0, n22 := 0
      ring := ring0 }
  let stA := (bigPhaseA input 465 0 st0).2
  let stB := (bigPhaseB input 2 (14848 * 8) stA).2
  let rC := bigPhaseC input len (len / 256 + 1) (14880 * 8) stB
  let i := rC.1
  let r := bigDrain i rC.2
  let rT := bigTailLoop input len r (len / 32 + 1) i ⟨0, 0, 0, 0, 0⟩
  let i2 := rT.1
  bigFinalLoop (tailBytes input i2 len rT.2) r i2 len 80 0 0

/-! ## The dispatchers (`crc32_c.c` and `crc32_braid`) -/

/-- Modelled from the spec: `crc32_chorba_32768_nondestructive` is called by
`crc32_c.c` for `8192 < aligned_len ≤ 32768` but its definition is not under
`src/`.  Spec §8 requires every kernel to produce the identical bit pattern,
and §9 describes this one as the Chorba transform specialized to mid-size
inputs; we model it by the small-Chorba kernel's function, which realizes
that contract on this length range. -/
def chorba32768Nondestructive (crc : ℕ) (input : ℕ → ℕ) (len : ℕ) : ℕ :=
  chorbaSmallNondestructive crc input len

/-- `crc32_c(crc, buf, len)` (the generic one-shot dispatcher, `W == 8`
configuration) for a buffer at address `addr` with content `input`
(buffer-relative offsets); `ring0` is the indeterminate initial stack scratch
of the large kernel.  `crc32_braid_internal` resolves to `crc32_braid_base`
(`crc32_c.h` is not under `src/`; the spec's §4.1–§4.2 describe the base/braid
kernel as the byte/word kernel used here). -/
def crc32C (crc addr : ℕ) (input : ℕ → ℕ) (len : ℕ) (ring0 : ℕ) : ℕ :=
  let c := crc % 2 ^ 32 ^^^ 0xFFFFFFFF
  let d := algnDiff addr
  let c1 :=
    if d < len then
      let c2 := if d ≠ 0 then crc32BraidBase c addr input d else c
      let alignedLen := len - d
      let aligned : ℕ → ℕ := fun j => input (d + j)
      if 8 * 64 * 1024 < alignedLen then
        chorba118960Nondestructive c2 aligned alignedLen ring0
      else if 8192 < alignedLen ∧ alignedLen ≤ 32768 then
        chorba32768Nondestructive c2 aligned alignedLen
      else if 72 < alignedLen then
        chorbaSmallNondestructive c2 aligned alignedLen
      else
        crc32BraidBase c2 (addr + d) aligned alignedLen
    else crc32BraidBase c addr input len
  c1 ^^^ 0xFFFFFFFF

/-- `crc32_braid(crc, buf, len)` (the dispatcher at the bottom of
`crc32_braid_c.c`, `W == 8` configuration): as `crc32_c` but with no mid-size
branch. -/
def crc32Braid (crc addr : ℕ) (input : ℕ → ℕ) (len : ℕ) (ring0 : ℕ) : ℕ :=
  let c := crc % 2 ^ 32 ^^^ 0xFFFFFFFF
  let d := algnDiff addr
  let c1 :=
    if d < len then
      let c2 := if d ≠ 0 then crc32BraidBase c addr input d else c
      let alignedLen := len - d
      let aligned : ℕ → ℕ := fun j => input (d + j)
      if 8 * 64 * 1024 < alignedLen then
        chorba118960Nondestructive c2 aligned alignedLen ring0
      else if 72 < alignedLen then
        chorbaSmallNondestructive c2 aligned alignedLen
      else
        crc32BraidBase c2 (addr + d) aligned alignedLen
    else crc32BraidBase c addr input len
  c1 ^^^ 0xFFFFFFFF

/-- The ASCII bytes of `"123456789"`. -/
def checkMsg : ℕ → ℕ := fun j =>
  if j = 0 then 0x31 else if j = 1 then 0x32 else if j = 2 then 0x33
  else if j = 3 then 0x34 else if j = 4 then 0x35 else if j = 5 then 0x36
  else if j = 6 then 0x37 else if j = 7 then 0x38 else if j = 8 then 0x39 else 0

/-! ## Claim C3 — the dispatcher's length table -/

/-- The decision table exactly as the claim states it, keyed on the call's
`len` (the rows for `len > 512·1024`, `8192 < len ≤ 32768`, `72 < len ≤ 8192`
and `len ≤ 72`); lengths covered by no row map to `none`. -/
def claimedC3Selection (len : ℕ) : Option KernelSel :=
  if 512 * 1024 < len then some .big
  else if 8192 < len ∧ len ≤ 32768 then some .mid
  else if 72 < len ∧ len ≤ 8192 then some .small
  else if len ≤ 72 then some .braid
  else none

/-! ## Claim C4 — alignment prefix and conditioning -/

/-- The kernel pipeline of `crc32_c` between its conditioning steps, stated
separately so the spec sentence "Pre-condition is `c = ~prior_crc`;
post-condition is `return c ^ 0xFFFFFFFF`" can be compared against the code:
`crc32CRaw` is the claim's "kernel pipeline" applied to an already
pre-conditioned register. -/
def crc32CRaw (c addr : ℕ) (input : ℕ → ℕ) (len ring0 : ℕ) : ℕ :=
  let d := algnDiff addr
  if d < len then
    let c2 := if d ≠ 0 then crc32BraidBase c addr input d else c
    let alignedLen := len - d
    let aligned : ℕ → ℕ := fun j => input (d + j)
    if 8 * 64 * 1024 < alignedLen then
      chorba118960Nondestructive c2 aligned alignedLen ring0
    else if 8192 < alignedLen ∧ alignedLen ≤ 32768 then
      chorba32768Nondestructive c2 aligned alignedLen
    else if 72 < alignedLen then
      chorbaSmallNondestructive c2 aligned alignedLen
    else
      crc32BraidBase c2 (addr + d) aligned alignedLen
  else crc32BraidBase c addr input len

/-! ## Claim C5 — the steady-state phase of the large kernel -/

/-- The byte offsets at which the steady-state loop of
`chorba_118960_nondestructive` runs its stride body (mirrors the control of
`for (; (i + (14870 + 64) * sizeof(z_word_t)) < len; i += 256)`). -/
def bigPhaseCStrides (len : ℕ) : ℕ → ℕ → List ℕ
  | 0, _ => []
  | f + 1, i =>
      if i + (14870 + 64) * 8 < len then i :: bigPhaseCStrides len f (i + 256)
      else []

/-- The 32 derived words `in1 .. in32` a stride computes (the same
expressions as in `bigStride`, exposed as a function of the word number so the
stride body's data flow can be stated). -/
def bigStrideIn (input : ℕ → ℕ) (mode i : ℕ) (st : BigSt) : ℕ → ℕ :=
  let base := i / 8
  let ino := base % bbWords
  let rd : ℕ → ℕ := fun t =>
    if mode = 2 ∨ (mode = 1 ∧ 22 ≤ t) then bbGet st.ring (ino + t) else 0
  let in1 := leW input (8 * (base + 0)) ^^^ st.n1 ^^^ rd 0
  let in2 := leW input (8 * (base + 1)) ^^^ st.n2 ^^^ rd 1
  let in3 := leW input (8 * (base + 2)) ^^^ st.n3 ^^^ rd 2
  let in4 := leW input (8 * (base + 3)) ^^^ st.n4 ^^^ rd 3
  let in5 := leW input (8 * (base + 4)) ^^^ st.n5 ^^^ rd 4
  let in6 := leW input (8 * (base + 5)) ^^^ st.n6 ^^^ rd 5
  let in7 := leW input (8 * (base + 6)) ^^^ st.n7 ^^^ rd 6
  let in8 := leW input (8 * (base + 7)) ^^^ st.n8 ^^^ in1 ^^^ rd 7
  let in9 := leW input (8 * (base + 8)) ^^^ st.n9 ^^^ in2 ^^^ rd 8
  let in10 := leW input (8 * (base + 9)) ^^^ st.n10 ^^^ in3 ^^^ rd 9
  let in11 := leW input (8 * (base + 10)) ^^^ st.n11 ^^^ in4 ^^^ rd 10
  let in12 := leW input (8 * (base + 11)) ^^^ st.n12 ^^^ in1 ^^^ in5 ^^^ rd 11
  let in13 := leW input (8 * (base + 12)) ^^^ st.n13 ^^^ in2 ^^^ in6 ^^^ rd 12
  let in14 := leW input (8 * (base + 13)) ^^^ st.n14 ^^^ in3 ^^^ in7 ^^^ rd 13
  let in15 := leW input (8 * (base + 14)) ^^^ st.n15 ^^^ in4 ^^^ in8 ^^^ rd 14
  let in16 := leW input (8 * (base + 15)) ^^^ st.n16 ^^^ in5 ^^^ in9 ^^^ rd 15
  let in17 := leW input (8 * (base + 16)) ^^^ st.n17 ^^^ in6 ^^^ in10 ^^^ rd 16
  let in18 := leW input (8 * (base + 17)) ^^^ st.n18 ^^^ in7 ^^^ in11 ^^^ rd 17
  let in19 := leW input (8 * (base + 18)) ^^^ st.n19 ^^^ in8 ^^^ in12 ^^^ rd 18
  let in20 := leW input (8 * (base + 19)) ^^^ st.n20 ^^^ in9 ^^^ in13 ^^^ rd 19
  let in21 := leW input (8 * (base + 20)) ^^^ st.n21 ^^^ in10 ^^^ in14 ^^^ rd 20
  let in22 := leW input (8 * (base + 21)) ^^^ st.n22 ^^^ in11 ^^^ in15 ^^^ rd 21
  let in23 := leW input (8 * (base + 22)) ^^^ in1 ^^^ in12 ^^^ in16 ^^^ rd 22
  let in24 := leW input (8 * (base + 23)) ^^^ in2 ^^^ in13 ^^^ in17 ^^^ rd 23
  let in25 := leW input (8 * (base + 24)) ^^^ in3 ^^^ in14 ^^^ in18 ^^^ rd 24
  let in26 := leW input (8 * (base + 25)) ^^^ in4 ^^^ in15 ^^^ in19 ^^^ rd 25
  let in27 := leW input (8 * (base + 26)) ^^^ in5 ^^^ in16 ^^^ in20 ^^^ rd 26
  let in28 := leW input (8 * (base + 27)) ^^^ in6 ^^^ in17 ^^^ in21 ^^^ rd 27
  let in29 := leW input (8 * (base + 28)) ^^^ in7 ^^^ in18 ^^^ in22 ^^^ rd 28
  let in30 := leW input (8 * (base + 29)) ^^^ in8 ^^^ in19 ^^^ in23 ^^^ rd 29
  let in31 := leW input (8 * (base + 30)) ^^^ in9 ^^^ in20 ^^^ in24 ^^^ rd 30
  let in32 := leW input (8 * (base + 31)) ^^^ in10 ^^^ in21 ^^^ in25 ^^^ rd 31
  fun t =>
    if t = 0 then in1
    else if t = 1 then in2
    else if t = 2 then in3
    else if t = 3 then in4
    else if t = 4 then in5
    else if t = 5 then in6
    else if t = 6 then in7
    else if t = 7 then in8
    else if t = 8 then in9
    else if t = 9 then in10
    else if t = 10 then in11
    else if t = 11 then in12
    else if t = 12 then in13
    else if t = 13 then in14
    else if t = 14 then in15
    else if t = 15 then in16
    else if t = 16 then in17
    else if t = 17 then in18
    else if t = 18 then in19
    else if t = 19 then in20
    else if t = 20 then in21
    else if t = 21 then in22
    else if t = 22 then in23
    else if t = 23 then in24
    else if t = 24 then in25
    else if t = 25 then in26
    else if t = 26 then in27
    else if t = 27 then in28
    else if t = 28 then in29
    else if t = 29 then in30
    else if t = 30 then in31
    else in32

/-! ## Claim C2 — the ARM ACLE kernel

`crc32_acle` (src/arch/arm/crc32_acle.c) is embedded as a *checked* function:
every memory read is bounds-checked against the buffer `[0, len)` and every
`len -= w` decrement of the `size_t` counter is checked against wrapping
below zero.  The checks are accumulated in a Boolean flag (in C a failing
check aborts the run, but since every check's position and the checks
themselves are data-independent, the run is clean iff *all* checks hold, and
the value is unaffected); the embedding returns `none` iff some check
failed.  The ARM CRC32 intrinsics are modelled from the spec:
`__crc32b`/`__crc32h`/`__crc32w`/`__crc32d` feed the 1/2/4/8 little-endian
bytes of their second argument through the reflected CRC-32 byte update. -/

/-- Modelled from the spec: `__crc32b`. -/
def crc32b (c b : ℕ) : ℕ := byteStep c b

/-- Modelled from the spec: `__crc32h` (two LE bytes). -/
def crc32h (c h : ℕ) : ℕ := byteStep (byteStep c h) (h >>> 8)

/-- Modelled from the spec: `__crc32w` (four LE bytes). -/
def crc32w (c w : ℕ) : ℕ := crc32h (crc32h c w) (w >>> 16)

/-- Modelled from the spec: `__crc32d` (eight LE bytes). -/
def crc32d (c w : ℕ) : ℕ := crc32w (crc32w c w) (w >>> 32)

/-- A little-endian `uint16_t` load of 2 buffer bytes at byte offset `off`. -/
def le2 (input : ℕ → ℕ) (off : ℕ) : ℕ :=
  readByte input off ^^^ readByte input (off + 1) <<< 8

/-- A little-endian `uint32_t` load of 4 buffer bytes at byte offset `off`. -/
def le4 (input : ℕ → ℕ) (off : ℕ) : ℕ :=
  le2 input off ^^^ le2 input (off + 2) <<< 16

/-- A `w`-byte read at byte offset `pos` stays inside the buffer `[0, len)`. -/
def rdOk (len pos w : ℕ) : Bool := decide (pos + w ≤ len)

/-- `len -= 8` on the `size_t` remaining-length counter does not wrap below
zero. -/
def decOk (l : ℕ) : Bool := decide (8 ≤ l)

/-- One iteration of the Chorba main loop of `crc32_acle`: four `chorba`
words then 32 `__crc32d` steps, with the bounds check of each read and the
wrap check of each `len -= 8` in the order of the C body, conjoined into
the flag. -/
def acleStride (input : ℕ → ℕ) (len pos l c : ℕ) : Bool × ℕ × ℕ × ℕ :=
  let ok1 := rdOk len pos 8
  let chorba4 := leW input pos ^^^ c
  let ok2 := ok1 && decOk l
  let l1 := l - 8
  let ok3 := ok2 && rdOk len (pos + 8) 8
  let chorba3 := leW input (pos + 8)
  let ok4 := ok3 && decOk l1
  let l2 := l1 - 8
  let ok5 := ok4 && rdOk len (pos + 16) 8
  let chorba2 := leW input (pos + 16)
  let ok6 := ok5 && decOk l2
  let l3 := l2 - 8
  let ok7 := ok6 && rdOk len (pos + 24) 8
  let chorba1 := leW input (pos + 24)
  let ok8 := ok7 && decOk l3
  let l4 := l3 - 8
  let ok9 := ok8 && rdOk len (pos + 32) 8
  let c1 := crc32d 0 (leW input (pos + 32))
  let ok10 := ok9 && decOk l4
  let l5 := l4 - 8
  let ok11 := ok10 && rdOk len (pos + 40) 8
  let c2 := crc32d c1 (leW input (pos + 40))
  let ok12 := ok11 && decOk l5
  let l6 := l5 - 8
  let ok13 := ok12 && rdOk len (pos + 48) 8
  let c3 := crc32d c2 (leW input (pos + 48) ^^^ chorba4)
  let ok14 := ok13 && decOk l6
  let l7 := l6 - 8
  let ok15 := ok14 && rdOk len (pos + 56) 8
  let c4 := crc32d c3 (leW input (pos + 56) ^^^ chorba3)
  let ok16 := ok15 && decOk l7
  let l8 := l7 - 8
  let ok17 := ok16 && rdOk len (pos + 64) 8
  let c5 := crc32d c4 (leW input (pos + 64) ^^^ chorba2)
  let ok18 := ok17 && decOk l8
  let l9 := l8 - 8
  let ok19 := ok18 && rdOk len (pos + 72) 8
  let c6 := crc32d c5 (leW input (pos + 72) ^^^ chorba1 ^^^ chorba4)
  let ok20 := ok19 && decOk l9
  let l10 := l9 - 8
  let ok21 := ok20 && rdOk len (pos + 80) 8
  let c7 := crc32d c6 (leW input (pos + 80) ^^^ chorba3 ^^^ chorba4)
  let ok22 := ok21 && decOk l10
  let l11 := l10 - 8
  let ok23 := ok22 && rdOk len (pos + 88) 8
  let c8 := crc32d c7 (leW input (pos + 88) ^^^ chorba2 ^^^ chorba3)
  let ok24 := ok23 && decOk l11
  let l12 := l11 - 8
  let ok25 := ok24 && rdOk len (pos + 96) 8
  let c9 := crc32d c8 (leW input (pos + 96) ^^^ chorba1 ^^^ chorba2)
  let ok26 := ok25 && decOk l12
  let l13 := l12 - 8
  let ok27 := ok26 && rdOk len (pos + 104) 8
  let c10 := crc32d c9 (leW input (pos + 104) ^^^ chorba1)
  let ok28 := ok27 && decOk l13
  let l14 := l13 - 8
  let ok29 := ok28 && rdOk len (pos + 112) 8
  let c11 := crc32d c10 (leW input (pos + 112))
  let ok30 := ok29 && decOk l14
  let l15 := l14 - 8
  let ok31 := ok30 && rdOk len (pos + 120) 8
  let c12 := crc32d c11 (leW input (pos + 120))
  let ok32 := ok31 && decOk l15
  let l16 := l15 - 8
  let ok33 := ok32 && rdOk len (pos + 128) 8
  let c13 := crc32d c12 (leW input (pos + 128) ^^^ chorba4)
  let ok34 := ok33 && decOk l16
  let l17 := l16 - 8
  let ok35 := ok34 && rdOk len (pos + 136) 8
  let c14 := crc32d c13 (leW input (pos + 136) ^^^ chorba3)
  let ok36 := ok35 && decOk l17
  let l18 := l17 - 8
  let ok37 := ok36 && rdOk len (pos + 144) 8
  let c15 := crc32d c14 (leW input (pos + 144) ^^^ chorba2)
  let ok38 := ok37 && decOk l18
  let l19 := l18 - 8
  let ok39 := ok38 && rdOk len (pos + 152) 8
  let c16 := crc32d c15 (leW input (pos + 152) ^^^ chorba1)
  let ok40 := ok39 && decOk l19
  let l20 := l19 - 8
  let ok41 := ok40 && rdOk len (pos + 160) 8
  let c17 := crc32d c16 (leW input (pos + 160) ^^^ chorba4)
  let ok42 := ok41 && decOk l20
  let l21 := l20 - 8
  let ok43 := ok42 && rdOk len (pos + 168) 8
  let c18 := crc32d c17 (leW input (pos + 168) ^^^ chorba3 ^^^ chorba4)
  let ok44 := ok43 && decOk l21
  let l22 := l21 - 8
  let ok45 := ok44 && rdOk len (pos + 176) 8
  let c19 := crc32d c18 (leW input (pos + 176) ^^^ chorba2 ^^^ chorba3 ^^^ chorba4)
  let ok46 := ok45 && decOk l22
  let l23 := l22 - 8
  let ok47 := ok46 && rdOk len (pos + 184) 8
  let c20 := crc32d c19 (leW input (pos + 184) ^^^ chorba1 ^^^ chorba2 ^^^ chorba3)
  let ok48 := ok47 && decOk l23
  let l24 := l23 - 8
  let ok49 := ok48 && rdOk len (pos + 192) 8
  let c21 := crc32d c20 (leW input (pos + 192) ^^^ chorba1 ^^^ chorba2 ^^^ chorba4)
  let ok50 := ok49 && decOk l24
  let l25 := l24 - 8
  let ok51 := ok50 && rdOk len (pos + 200) 8
  let c22 := crc32d c21 (leW input (pos + 200) ^^^ chorba1 ^^^ chorba3 ^^^ chorba4)
  let ok52 := ok51 && decOk l25
  let l26 := l25 - 8
  let ok53 := ok52 && rdOk len (pos + 208) 8
  let c23 := crc32d c22 (leW input (pos + 208) ^^^ chorba2 ^^^ chorba3)
  let ok54 := ok53 && decOk l26
  let l27 := l26 - 8
  let ok55 := ok54 && rdOk len (pos + 216) 8
  let c24 := crc32d c23 (leW input (pos + 216) ^^^ chorba1 ^^^ chorba2 ^^^ chorba4)
  let ok56 := ok55 && decOk l27
  let l28 := l27 - 8
  let ok57 := ok56 && rdOk len (pos + 224) 8
  let c25 := crc32d c24 (leW input (pos + 224) ^^^ chorba1 ^^^ chorba3 ^^^ chorba4)
  let ok58 := ok57 && decOk l28
  let l29 := l28 - 8
  let ok59 := ok58 && rdOk len (pos + 232) 8
  let c26 := crc32d c25 (leW input (pos + 232) ^^^ chorba2 ^^^ chorba3)
  let ok60 := ok59 && decOk l29
  let l30 := l29 - 8
  let ok61 := ok60 && rdOk len (pos + 240) 8
  let c27 := crc32d c26 (leW input (pos + 240) ^^^ chorba1 ^^^ chorba2 ^^^ chorba4)
  let ok62 := ok61 && decOk l30
  let l31 := l30 - 8
  let ok63 := ok62 && rdOk len (pos + 248) 8
  let c28 := crc32d c27 (leW input (pos + 248) ^^^ chorba1 ^^^ chorba3 ^^^ chorba4)
  let ok64 := ok63 && decOk l31
  let l32 := l31 - 8
  let ok65 := ok64 && rdOk len (pos + 256) 8
  let c29 := crc32d c28 (leW input (pos + 256) ^^^ chorba2 ^^^ chorba3 ^^^ chorba4)
  let ok66 := ok65 && decOk l32
  let l33 := l32 - 8
  let ok67 := ok66 && rdOk len (pos + 264) 8
  let c30 := crc32d c29 (leW input (pos + 264) ^^^ chorba1 ^^^ chorba2 ^^^ chorba3)
  let ok68 := ok67 && decOk l33
  let l34 := l33 - 8
  let ok69 := ok68 && rdOk len (pos + 272) 8
  let c31 := crc32d c30 (leW input (pos + 272) ^^^ chorba1 ^^^ chorba2)
  let ok70 := ok69 && decOk l34
  let l35 := l34 - 8
  let ok71 := ok70 && rdOk len (pos + 280) 8
  let c32 := crc32d c31 (leW input (pos + 280) ^^^ chorba1)
  let ok72 := ok71 && decOk l35
  let l36 := l35 - 8
  (ok72, pos + 288, l36, c32)

/-- The Chorba main loop `while (len >= sizeof(uint64_t)*(32+2))` of
`crc32_acle`, fuel-indexed; exhausted fuel with the guard still true clears
the flag (never reached at the fuel the embedding supplies). -/
def acleMainLoop (input : ℕ → ℕ) (len : ℕ) :
    ℕ → ℕ → ℕ → ℕ → Bool × ℕ × ℕ × ℕ
  | 0, pos, l, c => (decide ¬(272 ≤ l), pos, l, c)
  | fuel + 1, pos, l, c =>
      if 272 ≤ l then
        let s := acleStride input len pos l c
        let r := acleMainLoop input len fuel s.2.1 s.2.2.1 s.2.2.2
        (s.1 && r.1, r.2)
      else (true, pos, l, c)

/-- The word loop `while (len >= sizeof(uint64_t))` of `crc32_acle`. -/
def acleWordLoop (input : ℕ → ℕ) (len : ℕ) :
    ℕ → ℕ → ℕ → ℕ → Bool × ℕ × ℕ × ℕ
  | 0, pos, l, c => (decide ¬(8 ≤ l), pos, l, c)
  | fuel + 1, pos, l, c =>
      if 8 ≤ l then
        let ok := rdOk len pos 8 && decOk l
        let r := acleWordLoop input len fuel (pos + 8)
          (l - 8) (crc32d c (leW input pos))
        (ok && r.1, r.2)
      else (true, pos, l, c)

/-- The checked embedding of `crc32_acle`: `~crc` conditioning, the `len == 1`
early return, the byte/half/word alignment steps (the `uint32_t`-alignment
test reads the *stale* byte pointer `buf`, exactly as line 41 of the C does,
so it tests `addr + pos1`, not `addr + pos2`), the Chorba main loop, the word
loop and the 4/2/1-byte tail, ending in `~c`.  The result is `none` iff some
read left `[0, len)` or the `size_t` counter wrapped. -/
def crc32AcleChecked (crc addr : ℕ) (input : ℕ → ℕ) (len : ℕ) : Option ℕ :=
  let c := crc % 2 ^ 32 ^^^ 0xFFFFFFFF
  if len = 1 then
    if rdOk len 0 1 then some (crc32b c (readByte input 0) ^^^ 0xFFFFFFFF)
    else none
  else
    let s1 : Bool × ℕ × ℕ × ℕ :=
      if addr % 8 ≠ 0 ∧ len ≠ 0 ∧ addr % 2 = 1 then
        (rdOk len 0 1, 1, len - 1, crc32b c (readByte input 0))
      else (true, 0, len, c)
    let pos1 := s1.2.1
    let s2 : Bool × ℕ × ℕ × ℕ :=
      if addr % 8 ≠ 0 ∧ 2 ≤ s1.2.2.1 ∧ (addr + pos1) / 2 % 2 = 1 then
        (s1.1 && rdOk len pos1 2, pos1 + 2, s1.2.2.1 - 2,
          crc32h s1.2.2.2 (le2 input pos1))
      else s1
    let s3 : Bool × ℕ × ℕ × ℕ :=
      if addr % 8 ≠ 0 ∧ 4 ≤ s2.2.2.1 ∧ (addr + pos1) / 4 % 2 = 1 then
        (s2.1 && rdOk len s2.2.1 4, s2.2.1 + 4, s2.2.2.1 - 4,
          crc32w s2.2.2.2 (le4 input s2.2.1))
      else s2
    let s4 := acleMainLoop input len (len / 288 + 1) s3.2.1 s3.2.2.1 s3.2.2.2
    let s5 := acleWordLoop input len (len / 8 + 1) s4.2.1 s4.2.2.1 s4.2.2.2
    let s6 : Bool × ℕ × ℕ × ℕ :=
      if 4 ≤ s5.2.2.1 then
        (s5.1 && rdOk len s5.2.1 4, s5.2.1 + 4, s5.2.2.1 - 4,
          crc32w s5.2.2.2 (le4 input s5.2.1))
      else s5
    let s7 : Bool × ℕ × ℕ × ℕ :=
      if 2 ≤ s6.2.2.1 then
        (s6.1 && rdOk len s6.2.1 2, s6.2.1 + 2, s6.2.2.1 - 2,
          crc32h s6.2.2.2 (le2 input s6.2.1))
      else s6
    let s8 : Bool × ℕ :=
      if s7.2.2.1 ≠ 0 then
        (s7.1 && rdOk len s7.2.1 1, crc32b s7.2.2.2 (readByte input s7.2.1))
      else (s7.1, s7.2.2.2)
    if s1.1 && s2.1 && s3.1 && s4.1 && s5.1 && s8.1 then
      some (s8.2 ^^^ 0xFFFFFFFF)
    else none

/-! ## Claim C9 — GF(2) superposition

Every kernel of the engine is built from XOR, shifts, masks and the (linear)
table lookups, and every loop guard depends only on indices and `len`, never
on data.  The lemmas of this section push a pointwise-XOR decomposition of
the message (and of the register, the accumulators and the scratch) through
every primitive, every loop body and every kernel: the superposition
principle `K(c₁ ⊕ c₂, A ⊕ B, r₁ ⊕ r₂) = K(c₁, A, r₁) ⊕ K(c₂, B, r₂)`. -/

/-- Pointwise XOR of two buffers. -/
def fXor (A B : ℕ → ℕ) : ℕ → ℕ := fun j => A j ^^^ B j

/-- Componentwise XOR of two accumulator states. -/
def C5x (a b : Chorba5) : Chorba5 :=
  ⟨a.n1 ^^^ b.n1, a.n2 ^^^ b.n2, a.n3 ^^^ b.n3, a.n4 ^^^ b.n4, a.n5 ^^^ b.n5⟩

/-- `in1` of a four-word Chorba group. -/
def quadIn1 (input : ℕ → ℕ) (i m1 : ℕ) (s : Chorba5) (first : Bool) : ℕ :=
  leW input i ^^^ (if first then 0 else s.n1) ^^^ m1

/-- `in2` of a four-word Chorba group. -/
def quadIn2 (input : ℕ → ℕ) (i m2 : ℕ) (s : Chorba5) (first : Bool) : ℕ :=
  leW input (i + 8) ^^^ (if first then 0 else s.n2) ^^^ m2

/-- `in3` of a four-word Chorba group (`p1` is the group's `in1`). -/
def quadIn3 (input : ℕ → ℕ) (i m3 : ℕ) (s : Chorba5) (first : Bool) (p1 : ℕ) : ℕ :=
  leW input (i + 16) ^^^ (if first then 0 else s.n3) ^^^ sprA1 p1 ^^^ m3

/-- `in4` of a four-word Chorba group (`p1`, `p2` are the group's `in1`, `in2`). -/
def quadIn4 (input : ℕ → ℕ) (i m4 : ℕ) (s : Chorba5) (first : Bool) (p1 p2 : ℕ) : ℕ :=
  leW input (i + 24) ^^^ (if first then 0 else s.n4) ^^^ sprA2 p1 ^^^ sprA1 p2 ^^^ m4

/-- The outgoing accumulators of a four-word Chorba group in terms of its
`in1 .. in4` (`nf` is the incoming `next5`, or `0` on a `first` group). -/
def quadOut (p1 p2 p3 p4 nf : ℕ) : Chorba5 :=
  ⟨nf ^^^ (sprA3 p1 ^^^ sprA2 p2 ^^^ sprA1 p3),
    sprA4 p1 ^^^ sprA3 p2 ^^^ sprA2 p3 ^^^ sprA1 p4,
    sprA4 p2 ^^^ sprA3 p3 ^^^ sprA2 p4,
    sprA4 p3 ^^^ sprA3 p4,
    sprA4 p4⟩

/-- The eight four-word sub-blocks of a 320-byte superblock, the
`chorba` XOR masks taken as parameters. -/
def quadChain8 (input : ℕ → ℕ) (i : ℕ)
    (m11 m12 m13 m14 m21 m22 m23 m24 m31 m32 m33 m34 m41 m42 m43 m44 m51 m52 m53 m54 m61 m62 m63 m64 m71 m72 m73 m74 m81 m82 m83 m84 : ℕ) (s : Chorba5) : Chorba5 :=
  let s := chorbaQuad input (i + 64) m11 m12 m13 m14 s true
  let s := chorbaQuad input (i + 96) m21 m22 m23 m24 s false
  let s := chorbaQuad input (i + 128) m31 m32 m33 m34 s false
  let s := chorbaQuad input (i + 160) m41 m42 m43 m44 s false
  let s := chorbaQuad input (i + 192) m51 m52 m53 m54 s false
  let s := chorbaQuad input (i + 224) m61 m62 m63 m64 s false
  let s := chorbaQuad input (i + 256) m71 m72 m73 m74 s false
  chorbaQuad input (i + 288) m81 m82 m83 m84 s false

/-- Componentwise XOR of two braid states. -/
def BRx (a b : BraidSt) : BraidSt :=
  ⟨a.c0 ^^^ b.c0, a.c1 ^^^ b.c1, a.c2 ^^^ b.c2, a.c3 ^^^ b.c3, a.c4 ^^^ b.c4⟩

/-- Componentwise XOR of two large-kernel states. -/
def bsXor (a b : BigSt) : BigSt :=
  ⟨a.n1 ^^^ b.n1, a.n2 ^^^ b.n2, a.n3 ^^^ b.n3, a.n4 ^^^ b.n4, a.n5 ^^^ b.n5, a.n6 ^^^ b.n6, a.n7 ^^^ b.n7, a.n8 ^^^ b.n8, a.n9 ^^^ b.n9, a.n10 ^^^ b.n10, a.n11 ^^^ b.n11, a.n12 ^^^ b.n12, a.n13 ^^^ b.n13, a.n14 ^^^ b.n14, a.n15 ^^^ b.n15, a.n16 ^^^ b.n16, a.n17 ^^^ b.n17, a.n18 ^^^ b.n18, a.n19 ^^^ b.n19, a.n20 ^^^ b.n20, a.n21 ^^^ b.n21, a.n22 ^^^ b.n22, a.ring ^^^ b.ring⟩

/-!
Verification of the length-adaptive CRC-32 engine (braid + Chorba kernels and
their dispatchers) against its natural-language specification.

The development shallowly embeds the C sources:

* `src/arch/generic/crc32_braid_c.c` — `crc32_braid_base` (byte loop + braided
  word loop), `chorba_small_nondestructive`, `chorba_118960_nondestructive`,
  and the dispatcher `crc32_braid`;
* `src/arch/generic/crc32_c.c` — the dispatcher `crc32_c`;
* `src/arch/arm/crc32_acle.c` — `crc32_acle`.

Machine integers are embedded as `Nat` with explicit `% 2^w` where overflow
matters.  Buffers are embedded as functions `ℕ → ℕ` giving the byte at each
offset (each read is normalized `% 256`, as C byte reads always produce values
below 256); `addr` parameters carry the pointer value where the code inspects
pointer alignment.  The configuration is the 64-bit little-endian one the
sources select (`W == 8`, `N == 5`, `BYTE_ORDER == LITTLE_ENDIAN`,
`z_word_t == uint64_t`), which is the configuration all quantitative claims
(thresholds 72/8192/32768/524288, word counts) refer to.

Loops are embedded as fuel-indexed structural recursions: the fuel argument is
always at least the number of iterations the C loop performs (proved where it
matters), so the `0`-fuel branch is never reached on the embedded domain.
-/

set_option maxRecDepth 10000

/-! ## Bitwise preliminaries -/

theorem xor_mod_two_pow (a b n : ℕ) : (a ^^^ b) % 2 ^ n = a % 2 ^ n ^^^ b % 2 ^ n := by
  apply Nat.eq_of_testBit_eq
  intro i
  simp [Nat.testBit_mod_two_pow, Nat.testBit_xor]
  by_cases h : i < n <;> simp [h]

theorem xor_shiftRight (a b n : ℕ) : (a ^^^ b) >>> n = a >>> n ^^^ b >>> n := by
  apply Nat.eq_of_testBit_eq
  intro i
  simp [Nat.testBit_shiftRight, Nat.testBit_xor]

theorem xor_shiftLeft (a b n : ℕ) : (a ^^^ b) <<< n = a <<< n ^^^ b <<< n := by
  apply Nat.eq_of_testBit_eq
  intro i
  simp [Nat.testBit_shiftLeft, Nat.testBit_xor]
  by_cases h : n ≤ i <;> simp [h]

theorem xor_mod_two (a b : ℕ) : (a ^^^ b) % 2 = a % 2 ^^^ b % 2 := by
  have h := xor_mod_two_pow a b 1
  simpa using h

/-- Rebalancing two-run sums: `(a₁ ^^^ a₂) ^^^ (b₁ ^^^ b₂) = (a₁ ^^^ b₁) ^^^ (a₂ ^^^ b₂)`. -/
theorem xor_mix (a₁ a₂ b₁ b₂ : ℕ) :
    (a₁ ^^^ a₂) ^^^ (b₁ ^^^ b₂) = (a₁ ^^^ b₁) ^^^ (a₂ ^^^ b₂) := by
  rw [Nat.xor_assoc, Nat.xor_assoc]
  congr 1
  rw [← Nat.xor_assoc, ← Nat.xor_assoc, Nat.xor_comm a₂ b₁]

theorem xor_left_comm (a b c : ℕ) : a ^^^ (b ^^^ c) = b ^^^ (a ^^^ c) := by
  rw [← Nat.xor_assoc, Nat.xor_comm a b, Nat.xor_assoc]

theorem xor_mix3 (a₁ a₂ b₁ b₂ c₁ c₂ : ℕ) :
    (a₁ ^^^ a₂) ^^^ (b₁ ^^^ b₂) ^^^ (c₁ ^^^ c₂) =
      (a₁ ^^^ b₁ ^^^ c₁) ^^^ (a₂ ^^^ b₂ ^^^ c₂) := by
  simp only [Nat.xor_assoc]
  simp [Nat.xor_comm, xor_left_comm]

theorem xor_mix4 (a₁ a₂ b₁ b₂ c₁ c₂ d₁ d₂ : ℕ) :
    (a₁ ^^^ a₂) ^^^ (b₁ ^^^ b₂) ^^^ (c₁ ^^^ c₂) ^^^ (d₁ ^^^ d₂) =
      (a₁ ^^^ b₁ ^^^ c₁ ^^^ d₁) ^^^ (a₂ ^^^ b₂ ^^^ c₂ ^^^ d₂) := by
  simp only [Nat.xor_assoc]
  simp [Nat.xor_comm, xor_left_comm]

theorem applyN_add {α : Type} (g : α → α) (m n : ℕ) (a : α) :
    applyN g (m + n) a = applyN g m (applyN g n a) := by
  induction n generalizing a with
  | zero => rfl
  | succ n ih =>
      have h1 : m + (n + 1) = (m + n) + 1 := by omega
      rw [h1]
      show applyN g (m + n) (g a) = _
      rw [ih (g a)]
      rfl

theorem applyB_eq_applyN {α : Type} (g : α → α) :
    ∀ f n, n ≤ 2 ^ f → ∀ a, applyB g f n a = applyN g n a := by
  intro f
  induction f with
  | zero =>
      intro n hn a
      interval_cases n
      · rfl
      · rfl
  | succ f ih =>
      intro n hn a
      match n with
      | 0 => rfl
      | 1 => rfl
      | n + 2 =>
          have h1 : (n + 2) / 2 ≤ 2 ^ f := by
            have := Nat.pow_succ 2 f
            omega
          have h2 : (n + 2) - (n + 2) / 2 ≤ 2 ^ f := by
            have := Nat.pow_succ 2 f
            omega
          show applyB g f ((n + 2) - (n + 2) / 2) (applyB g f ((n + 2) / 2) a) = _
          rw [ih _ h1, ih _ h2, ← applyN_add]
          congr 1
          omega

/-- A `cFor` loop that performs exactly `k` iterations (the guard holds on the
first `k` index values and fails on the next one) is `k`-fold application of
its body, provided the fuel covers `k`. -/
theorem cFor_eq_applyN {σ : Type} (guard : ℕ → Bool) (step : ℕ) (body : ℕ → σ → σ)
    (k : ℕ) :
    ∀ f i s, k ≤ f → (∀ j, j < k → guard (i + step * j) = true) →
      guard (i + step * k) = false →
      cFor guard step body f i s = applyN (cStep step body) k (i, s) := by
  induction k with
  | zero =>
      intro f i s _ _ hg
      simp only [Nat.mul_zero, Nat.add_zero] at hg
      match f with
      | 0 => rfl
      | f + 1 =>
          show (if guard i then _ else (i, s)) = _
          rw [hg]
          rfl
  | succ k ih =>
      intro f i s hf hall hg
      match f with
      | f + 1 =>
          have h0 : guard i = true := by
            have := hall 0 (by omega)
            simpa using this
          show (if guard i then _ else (i, s)) = _
          rw [h0]
          simp only [if_true]
          have hall2 : ∀ j, j < k → guard (i + step + step * j) = true := by
            intro j hj
            have := hall (j + 1) (by omega)
            have he : i + step * (j + 1) = i + step + step * j := by ring
            rwa [he] at this
          have hg2 : guard (i + step + step * k) = false := by
            have he : i + step * (k + 1) = i + step + step * k := by ring
            rwa [he] at hg
          rw [ih f (i + step) (body i s) (by omega) hall2 hg2]
          show _ = applyN (cStep step body) k (cStep step body (i, s))
          rfl

/-! ## Loop exit characterization -/

/-- Unfolding equation for `cFor` at positive fuel. -/
theorem cFor_succ {σ : Type} (guard : ℕ → Bool) (step : ℕ) (body : ℕ → σ → σ)
    (f i : ℕ) (s : σ) :
    cFor guard step body (f + 1) i s =
      if guard i = true then cFor guard step body f (i + step) (body i s)
      else (i, s) := rfl

/-- If the guard fails within the fuel budget along the index progression,
the loop exits with a failing guard. -/
theorem cFor_exit_guard {σ : Type} (guard : ℕ → Bool) (step : ℕ) (body : ℕ → σ → σ) :
    ∀ f i s k, k ≤ f → guard (i + step * k) = false →
      guard (cFor guard step body f i s).1 = false := by
  intro f
  induction f with
  | zero =>
      intro i s k hk hg
      interval_cases k
      simpa using hg
  | succ f ih =>
      intro i s k hk hg
      rw [cFor_succ]
      by_cases h0 : guard i = true
      · rw [if_pos h0]
        match k, hk, hg with
        | 0, _, hg =>
            simp only [Nat.mul_zero, Nat.add_zero] at hg
            rw [h0] at hg; cases hg
        | k + 1, hk, hg =>
            refine ih (i + step) (body i s) k (by omega) ?_
            have he : i + step * (k + 1) = i + step + step * k := by ring
            rwa [he] at hg
      · rw [if_neg h0]
        simpa using h0

/-- The exit index of a loop either is the entry index or follows an index on
which the guard held. -/
theorem cFor_exit_src {σ : Type} (guard : ℕ → Bool) (step : ℕ) (body : ℕ → σ → σ) :
    ∀ f i s, (cFor guard step body f i s).1 = i ∨
      ∃ i0, guard i0 = true ∧ (cFor guard step body f i s).1 = i0 + step := by
  intro f
  induction f with
  | zero => intro i s; exact Or.inl rfl
  | succ f ih =>
      intro i s
      rw [cFor_succ]
      by_cases h0 : guard i = true
      · rw [if_pos h0]
        rcases ih (i + step) (body i s) with h | ⟨i0, hg, he⟩
        · exact Or.inr ⟨i, h0, h⟩
        · exact Or.inr ⟨i0, hg, he⟩
      · rw [if_neg h0]
        exact Or.inl rfl

/-- The exit index is congruent to the entry index modulo the step. -/
theorem cFor_exit_mod {σ : Type} (guard : ℕ → Bool) (step : ℕ) (body : ℕ → σ → σ) :
    ∀ f i s, ∃ k, (cFor guard step body f i s).1 = i + step * k := by
  intro f
  induction f with
  | zero =>
      intro i s
      exact ⟨0, by show i = i + step * 0; omega⟩
  | succ f ih =>
      intro i s
      rw [cFor_succ]
      by_cases h0 : guard i = true
      · rw [if_pos h0]
        obtain ⟨k, hk⟩ := ih (i + step) (body i s)
        refine ⟨k + 1, ?_⟩
        rw [hk]; ring
      · rw [if_neg h0]
        exact ⟨0, by show i = i + step * 0; omega⟩

/-! ## Claim C8 — the empty input is a fixed point -/

/-- C8: for every 32-bit prior CRC value, the one-shot CRC `crc32_c` applied
to the empty byte sequence returns the prior value unchanged, at every buffer
address and whatever the indeterminate scratch content is. -/
theorem crc32C_empty_input_identity (crc addr : ℕ) (input : ℕ → ℕ) (ring0 : ℕ)
    (h : crc < 2 ^ 32) : crc32C crc addr input 0 ring0 = crc := by
  show (if algnDiff addr < 0 then _ else crc32BraidBase (crc % 2 ^ 32 ^^^ 0xFFFFFFFF) addr input 0) ^^^ 0xFFFFFFFF = crc
  rw [if_neg (Nat.not_lt_zero _)]
  show (if 5 * 8 + 8 - 1 ≤ 0 then _ else crcRange input 0 0 (crc % 2 ^ 32 ^^^ 0xFFFFFFFF)) ^^^ 0xFFFFFFFF = crc
  rw [if_neg (by norm_num)]
  show crc % 2 ^ 32 ^^^ 0xFFFFFFFF ^^^ 0xFFFFFFFF = crc
  rw [Nat.xor_assoc, Nat.xor_self, Nat.xor_zero, Nat.mod_eq_of_lt h]

/-- Witness for C8 at a concrete prior value. -/
theorem crc32C_empty_input_identity_witness :
    0x1234ABCD < 2 ^ 32 ∧ crc32C 0x1234ABCD 3 (fun _ => 0) 0 5 = 0x1234ABCD :=
  ⟨by decide, crc32C_empty_input_identity 0x1234ABCD 3 (fun _ => 0) 5 (by decide)⟩

/-! ## Claim C7 — standard check values -/

/-- `crc32_braid_base` inspects its pointer only through `addr mod 8`. -/
theorem crc32BraidBase_addr_congr (c a b : ℕ) (input : ℕ → ℕ) (len : ℕ)
    (h : a % 8 = b % 8) :
    crc32BraidBase c a input len = crc32BraidBase c b input len := by
  unfold crc32BraidBase
  rw [h]

/-- `crc32_c` inspects its pointer only through `addr mod 16`. -/
theorem crc32C_addr_congr (crc a b : ℕ) (input : ℕ → ℕ) (len ring0 : ℕ)
    (h : a % 16 = b % 16) :
    crc32C crc a input len ring0 = crc32C crc b input len ring0 := by
  have h8 : a % 8 = b % 8 := by omega
  have e1 : ∀ c inp l, crc32BraidBase c a inp l = crc32BraidBase c b inp l :=
    fun c inp l => crc32BraidBase_addr_congr c a b inp l h8
  have e2 : ∀ c d inp l, crc32BraidBase c (a + d) inp l = crc32BraidBase c (b + d) inp l :=
    fun c d inp l => crc32BraidBase_addr_congr c (a + d) (b + d) inp l (by omega)
  unfold crc32C algnDiff
  rw [h]
  simp only [e1, e2]

/-- For lengths that cannot reach the large kernel, `crc32_c` does not touch
the scratch buffer. -/
theorem crc32C_ring_irrel (crc addr : ℕ) (input : ℕ → ℕ) (len r r' : ℕ)
    (h : len - algnDiff addr ≤ 8 * 64 * 1024) :
    crc32C crc addr input len r = crc32C crc addr input len r' := by
  simp only [crc32C]
  split_ifs <;> omega

/-- C7: the one-shot CRC with `prior_crc = 0` maps `"123456789"` to
`0xCBF43926` and the single byte `0x00` to `0xD202EF8D`, at every buffer
address and whatever the indeterminate scratch content is. -/
theorem crc32C_check_values (addr ring0 : ℕ) :
    crc32C 0 addr checkMsg 9 ring0 = 0xCBF43926 ∧
      crc32C 0 addr (fun _ => 0) 1 ring0 = 0xD202EF8D := by
  have hm : addr % 16 < 16 := Nat.mod_lt _ (by norm_num)
  rw [← crc32C_addr_congr 0 (addr % 16) addr checkMsg 9 ring0 (by omega),
    ← crc32C_addr_congr 0 (addr % 16) addr (fun _ => 0) 1 ring0 (by omega),
    crc32C_ring_irrel 0 (addr % 16) checkMsg 9 ring0 0 (by simp [algnDiff]; omega),
    crc32C_ring_irrel 0 (addr % 16) (fun _ => 0) 1 ring0 0 (by simp [algnDiff]; omega)]
  set m := addr % 16 with hmdef
  clear_value m
  interval_cases m <;> exact ⟨by rfl, by rfl⟩

/-- C3 counterexample: the claimed table disagrees with the code.  At
`len = 40000` (any 8-mod-16-aligned buffer, e.g. `addr = 8`) the code selects
the small-Chorba kernel while the claimed table has no row at all; at
`len = 73`, `addr = 15`, the code selects the braid kernel (only 58 aligned
bytes remain) while the claimed table says small-Chorba. -/
theorem crc32cSelect_ne_claimed_table :
    some (crc32cSelect 8 40000) ≠ claimedC3Selection 40000 ∧
      some (crc32cSelect 15 73) ≠ claimedC3Selection 73 ∧
      crc32cSelect 8 40000 = .small ∧ crc32cSelect 15 73 = .braid := by
  decide

/-- C3 amended: the generic dispatcher selects by the *aligned* length
`len - algn_diff` (not `len`): large-Chorba above 512 KiB, mid-size Chorba on
(8 KiB, 32 KiB], small-Chorba on (72 B, 8 KiB] and also on (32 KiB, 512 KiB],
braid otherwise (including whenever `algn_diff ≥ len`); and `crc32_c` runs the
kernel this table selects on the aligned remainder of the buffer. -/
theorem crc32C_selection_table (crc addr : ℕ) (input : ℕ → ℕ) (len ring0 : ℕ) :
    ((crc32cSelect addr len = .big ↔
        algnDiff addr < len ∧ 512 * 1024 < len - algnDiff addr) ∧
      (crc32cSelect addr len = .mid ↔
        algnDiff addr < len ∧ 8192 < len - algnDiff addr ∧ len - algnDiff addr ≤ 32768) ∧
      (crc32cSelect addr len = .small ↔
        algnDiff addr < len ∧
          (72 < len - algnDiff addr ∧ len - algnDiff addr ≤ 8192 ∨
            32768 < len - algnDiff addr ∧ len - algnDiff addr ≤ 512 * 1024)) ∧
      (crc32cSelect addr len = .braid ↔
        len ≤ algnDiff addr ∨ len - algnDiff addr ≤ 72)) ∧
    crc32C crc addr input len ring0 =
      (let d := algnDiff addr
       let c := crc % 2 ^ 32 ^^^ 0xFFFFFFFF
       let c2 := if d ≠ 0 then crc32BraidBase c addr input d else c
       let aligned : ℕ → ℕ := fun j => input (d + j)
       let al := len - d
       (match crc32cSelect addr len with
        | .big => chorba118960Nondestructive c2 aligned al ring0
        | .mid => chorba32768Nondestructive c2 aligned al
        | .small => chorbaSmallNondestructive c2 aligned al
        | .braid =>
            if d < len then crc32BraidBase c2 (addr + d) aligned al
            else crc32BraidBase c addr input len) ^^^ 0xFFFFFFFF) := by
  constructor
  · refine ⟨?_, ?_, ?_, ?_⟩ <;>
      · unfold crc32cSelect
        dsimp only
        split_ifs <;> simp <;> omega
  · unfold crc32C crc32cSelect
    dsimp only
    split_ifs <;> with_reducible rfl

/-- C4 counterexample: a call that reaches the large-input kernel hands it a
pointer that is *not* 16-byte aligned.  At `addr = 0`, `len = 1000000` the
dispatcher consumes `algn_diff = 8` bytes and the large kernel receives the
pointer `addr + 8 ≡ 8 (mod 16)`. -/
theorem crc32C_large_kernel_pointer_not_16_aligned :
    crc32cSelect 0 1000000 = .big ∧ algnDiff 0 = 8 ∧ (0 + algnDiff 0) % 16 ≠ 0 := by
  decide

/-- C4 amended: the dispatcher consumes `algn_diff ≤ 15` bytes byte-at-a-time
so that the buffer pointer handed to the aligned kernels satisfies
`ptr ≡ 8 (mod 16)` (8-byte alignment on an odd 16-byte half, not 16-byte
alignment); and for every input the returned value is the kernel pipeline
applied to `c = ~prior_crc`, XORed with `0xFFFFFFFF` at the end. -/
theorem crc32C_alignment_and_conditioning (crc addr : ℕ) (input : ℕ → ℕ)
    (len ring0 : ℕ) :
    algnDiff addr ≤ 15 ∧ (addr + algnDiff addr) % 16 = 8 ∧
      crc32C crc addr input len ring0 =
        crc32CRaw (crc % 2 ^ 32 ^^^ 0xFFFFFFFF) addr input len ring0 ^^^ 0xFFFFFFFF := by
  refine ⟨by unfold algnDiff; omega, by unfold algnDiff; omega, rfl⟩

/-! ## Claim C6 — the small kernel's tail -/

/-- C6 counterexample: at `len = 104` (accepted by the kernel, `104 > 72`) the
stride loops exit at `i = 32` with exactly `104 - 32 = 72` unconsumed bytes,
not strictly fewer than 72. -/
theorem chorbaSmall_tail_exactly_72 :
    (let input : ℕ → ℕ := fun _ => 0
     let r1 := chorbaSmallLoop1 input 104 104 0 ⟨0xFFFFFFFF, 0, 0, 0, 0⟩
     let r2 := chorbaSmallLoop2 input 104 104 r1.1 r1.2
     72 < 104 ∧ r2.1 = 32 ∧ 104 - r2.1 = 72 ∧ ¬(104 - r2.1 < 72)) := by
  decide

/-- C6 amended: the small kernel consumes the input in 32-byte strides
(320-byte superblocks in the unrolled first loop) until *at most* 72 bytes
remain — exactly 72 is reachable — then XORs `next1 .. next5` into the
72-byte tail buffer holding the copied remainder and finishes by running
`crc32_braid_base` over that tail. -/
theorem chorbaSmall_tail_structure (crc len : ℕ) (input : ℕ → ℕ) :
    (let r1 := chorbaSmallLoop1 input len len 0 ⟨crc, 0, 0, 0, 0⟩
     let r2 := chorbaSmallLoop2 input len len r1.1 r1.2
     len - r2.1 ≤ 72 ∧
       chorbaSmallNondestructive crc input len =
         crc32BraidBase 0 0 (tailBytes input r2.1 len r2.2) (len - r2.1)) := by
  refine ⟨?_, rfl⟩
  simp only [chorbaSmallLoop1, chorbaSmallLoop2]
  have hex := cFor_exit_guard (fun i => decide (i + 40 + 32 < len)) 32
    (fun i s => chorbaQuad input i 0 0 0 0 s false) len
    (cFor (fun i => decide (i + 256 + 40 + 32 + 32 < len)) 320
      (chorbaSuperblock input) len 0 ⟨crc, 0, 0, 0, 0⟩).1
    (cFor (fun i => decide (i + 256 + 40 + 32 + 32 < len)) 320
      (chorbaSuperblock input) len 0 ⟨crc, 0, 0, 0, 0⟩).2
    len (Nat.le_refl _) (by simp; omega)
  simp only [decide_eq_false_iff_not] at hex
  omega

/-- Index bounds for the large kernel's finishing stage, for an arbitrary
state entering the steady-state loop: on the dispatch domain the finishing
loop exits at most 72 bytes before the end of the input. -/
theorem bigTail_index_bounds (input : ℕ → ℕ) (lenB : ℕ) (stB : BigSt)
    (s0 : Chorba5) (hB : 8 * 64 * 1024 < lenB) :
    (let rC := bigPhaseC input lenB (lenB / 256 + 1) (14880 * 8) stB
     let r := bigDrain rC.1 rC.2
     let rT := bigTailLoop input lenB r (lenB / 32 + 1) rC.1 s0
     rT.1 ≤ lenB ∧ lenB - rT.1 ≤ 72 ∧
       ∀ j, 72 ≤ j → tailMem input rT.1 lenB j = 0) := by
  simp only [bigPhaseC, bigTailLoop]
  have hC := cFor_exit_src (fun i => decide (i + (14870 + 64) * 8 < lenB)) 256
    (bigStride input 2) (lenB / 256 + 1) (14880 * 8) stB
  set rC := cFor (fun i => decide (i + (14870 + 64) * 8 < lenB)) 256
    (bigStride input 2) (lenB / 256 + 1) (14880 * 8) stB with hrC
  set R := bigDrain rC.1 rC.2 with hR
  have hT := cFor_exit_src (fun i => decide (i + 72 < lenB)) 32
    (fun i s => chorbaQuad input (8 * (i / 8))
      (bbGet R ((i / 8) % bbWords)) (bbGet R ((i / 8 + 1) % bbWords))
      (bbGet R ((i / 8 + 2) % bbWords)) (bbGet R ((i / 8 + 3) % bbWords)) s false)
    (lenB / 32 + 1) rC.1 s0
  have hexT := cFor_exit_guard (fun i => decide (i + 72 < lenB)) 32
    (fun i s => chorbaQuad input (8 * (i / 8))
      (bbGet R ((i / 8) % bbWords)) (bbGet R ((i / 8 + 1) % bbWords))
      (bbGet R ((i / 8 + 2) % bbWords)) (bbGet R ((i / 8 + 3) % bbWords)) s false)
    (lenB / 32 + 1) rC.1 s0 (lenB / 32 + 1) (Nat.le_refl _) (by simp; omega)
  simp only [decide_eq_true_eq, decide_eq_false_iff_not] at hC hT hexT
  refine ⟨by omega, by omega, ?_⟩
  intro j hj
  unfold tailMem
  rw [if_neg (by omega)]

/-! ## Claim C10 — both Chorba tails stay within the 72-byte buffer -/

/-- C10: whenever the small kernel (any length) or the large kernel (on its
dispatch domain `len > 512 KiB`) reaches its final tail stage, the unconsumed
length `len - i` satisfies `i ≤ len` and `len - i ≤ 72`, so the `memcpy` into
the 72-byte `uint64_t final[9]` buffer stays inside it and the closing byte
loop indexes only within it (`tailMem` is zero at offset 72 and beyond). -/
theorem chorba_tails_within_final_buffer (crc lenS lenB : ℕ) (input : ℕ → ℕ)
    (ring0 : ℕ) (hB : 8 * 64 * 1024 < lenB) :
    (let r1 := chorbaSmallLoop1 input lenS lenS 0 ⟨crc, 0, 0, 0, 0⟩
     let r2 := chorbaSmallLoop2 input lenS lenS r1.1 r1.2
     r2.1 ≤ lenS ∧ lenS - r2.1 ≤ 72 ∧
       ∀ j, 72 ≤ j → tailMem input r2.1 lenS j = 0) ∧
    (let st0 : BigSt :=
      { n1 := crc, n2 := 0, n3 := 0, n4 := 0, n5 := 0, n6 := 0, n7 := 0, n8 := 0
        n9 := 0, n10 := 0, n11 := 0, n12 := 0, n13 := 0, n14 := 0, n15 := 0
        n16 := 0, n17 := 0, n18 := 0, n19 := 0, n20 := 0, n21 := 0, n22 := 0
        ring := ring0 }
     let stA := (bigPhaseA input 465 0 st0).2
     let stB := (bigPhaseB input 2 (14848 * 8) stA).2
     let rC := bigPhaseC input lenB (lenB / 256 + 1) (14880 * 8) stB
     let r := bigDrain rC.1 rC.2
     let rT := bigTailLoop input lenB r (lenB / 32 + 1) rC.1 ⟨0, 0, 0, 0, 0⟩
     rT.1 ≤ lenB ∧ lenB - rT.1 ≤ 72 ∧
       ∀ j, 72 ≤ j → tailMem input rT.1 lenB j = 0) := by
  constructor
  · -- small kernel
    simp only [chorbaSmallLoop1, chorbaSmallLoop2]
    have h1 := cFor_exit_src (fun i => decide (i + 256 + 40 + 32 + 32 < lenS)) 320
      (chorbaSuperblock input) lenS 0 (⟨crc, 0, 0, 0, 0⟩ : Chorba5)
    have h2 := cFor_exit_src (fun i => decide (i + 40 + 32 < lenS)) 32
      (fun i s => chorbaQuad input i 0 0 0 0 s false) lenS
      (cFor (fun i => decide (i + 256 + 40 + 32 + 32 < lenS)) 320
        (chorbaSuperblock input) lenS 0 ⟨crc, 0, 0, 0, 0⟩).1
      (cFor (fun i => decide (i + 256 + 40 + 32 + 32 < lenS)) 320
        (chorbaSuperblock input) lenS 0 ⟨crc, 0, 0, 0, 0⟩).2
    have hex := cFor_exit_guard (fun i => decide (i + 40 + 32 < lenS)) 32
      (fun i s => chorbaQuad input i 0 0 0 0 s false) lenS
      (cFor (fun i => decide (i + 256 + 40 + 32 + 32 < lenS)) 320
        (chorbaSuperblock input) lenS 0 ⟨crc, 0, 0, 0, 0⟩).1
      (cFor (fun i => decide (i + 256 + 40 + 32 + 32 < lenS)) 320
        (chorbaSuperblock input) lenS 0 ⟨crc, 0, 0, 0, 0⟩).2
      lenS (Nat.le_refl _) (by simp; omega)
    simp only [decide_eq_true_eq, decide_eq_false_iff_not] at h1 h2 hex
    refine ⟨by omega, by omega, ?_⟩
    intro j hj
    unfold tailMem
    rw [if_neg (by omega)]
  · -- large kernel
    refine bigTail_index_bounds input lenB _ _ hB

/-- Witness for C10 at concrete lengths. -/
theorem chorba_tails_within_final_buffer_witness :
    8 * 64 * 1024 < 524289 ∧
      (let r1 := chorbaSmallLoop1 (fun _ => 0) 104 104 0 ⟨7, 0, 0, 0, 0⟩
       let r2 := chorbaSmallLoop2 (fun _ => 0) 104 104 r1.1 r1.2
       r2.1 ≤ 104 ∧ 104 - r2.1 ≤ 72 ∧
         ∀ j, 72 ≤ j → tailMem (fun _ => 0) r2.1 104 j = 0) ∧
      (let st0 : BigSt :=
        { n1 := 7, n2 := 0, n3 := 0, n4 := 0, n5 := 0, n6 := 0, n7 := 0, n8 := 0
          n9 := 0, n10 := 0, n11 := 0, n12 := 0, n13 := 0, n14 := 0, n15 := 0
          n16 := 0, n17 := 0, n18 := 0, n19 := 0, n20 := 0, n21 := 0, n22 := 0
          ring := 0 }
       let stA := (bigPhaseA (fun _ => 0) 465 0 st0).2
       let stB := (bigPhaseB (fun _ => 0) 2 (14848 * 8) stA).2
       let rC := bigPhaseC (fun _ => 0) 524289 (524289 / 256 + 1) (14880 * 8) stB
       let r := bigDrain rC.1 rC.2
       let rT := bigTailLoop (fun _ => 0) 524289 r (524289 / 32 + 1) rC.1 ⟨0, 0, 0, 0, 0⟩
       rT.1 ≤ 524289 ∧ 524289 - rT.1 ≤ 72 ∧
         ∀ j, 72 ≤ j → tailMem (fun _ => 0) rT.1 524289 j = 0) :=
  ⟨by decide, chorba_tails_within_final_buffer 7 104 524289 (fun _ => 0) 0 (by decide)⟩

/-! ## Scratch-buffer access algebra -/

theorem bbGet_lt (r s : ℕ) : bbGet r s < 2 ^ 64 := Nat.mod_lt _ (by norm_num)

theorem shiftLeft_shiftRight_cancel (a n : ℕ) : a <<< n >>> n = a := by
  apply Nat.eq_of_testBit_eq
  intro i
  rw [Nat.testBit_shiftRight, Nat.testBit_shiftLeft]
  simp

theorem xor_lt_two_pow64 {a b : ℕ} (ha : a < 2 ^ 64) (hb : b < 2 ^ 64) :
    a ^^^ b < 2 ^ 64 := Nat.xor_lt_two_pow ha hb

/-- Reading back the word just written. -/
theorem bbGet_bbSet_same (r s v : ℕ) : bbGet (bbSet r s v) s = v % 2 ^ 64 := by
  show (r ^^^ (bbGet r s ^^^ v % 2 ^ 64) <<< (64 * s)) >>> (64 * s) % 2 ^ 64 = v % 2 ^ 64
  rw [xor_shiftRight, xor_mod_two_pow, shiftLeft_shiftRight_cancel,
    Nat.mod_eq_of_lt (xor_lt_two_pow64 (bbGet_lt r s) (Nat.mod_lt _ (by norm_num)))]
  show bbGet r s ^^^ (bbGet r s ^^^ v % 2 ^ 64) = v % 2 ^ 64
  rw [← Nat.xor_assoc, Nat.xor_self, Nat.zero_xor]

/-- Writing one word leaves every other word unchanged. -/
theorem bbGet_bbSet_ne (r s v s' : ℕ) (h : s' ≠ s) :
    bbGet (bbSet r s v) s' = bbGet r s' := by
  unfold bbSet bbGet
  rw [xor_shiftRight, xor_mod_two_pow]
  have hz : (bbGet r s ^^^ v % 2 ^ 64) <<< (64 * s) >>> (64 * s') % 2 ^ 64 = 0 := by
    set d := bbGet r s ^^^ v % 2 ^ 64 with hd
    have hdlt : d < 2 ^ 64 :=
      xor_lt_two_pow64 (bbGet_lt r s) (Nat.mod_lt _ (by norm_num))
    apply Nat.eq_of_testBit_eq
    intro b
    rw [Nat.testBit_mod_two_pow, Nat.testBit_shiftRight, Nat.testBit_shiftLeft]
    simp only [Nat.zero_testBit, Bool.and_eq_false_iff]
    by_cases hb : b < 64
    · rcases Nat.lt_or_ge s s' with hss | hss
      · -- s < s': the shifted word lies strictly below the read position
        right
        right
        have : 64 * s' + b - 64 * s ≥ 64 := by omega
        exact Nat.testBit_lt_two_pow (lt_of_lt_of_le hdlt
          (Nat.pow_le_pow_right (by norm_num) this))
      · -- s' < s: the read position lies strictly below the shifted word
        have hss2 : s' < s := by omega
        right
        left
        simp only [decide_eq_false_iff_not]
        omega
    · left
      simpa using hb
  unfold bbGet at hz
  rw [hz, Nat.xor_zero]

/-- The steady-state loop is the fold of its stride body over exactly the
offsets in `bigPhaseCStrides`. -/
theorem bigPhaseC_eq_strides_fold (input : ℕ → ℕ) (len : ℕ) :
    ∀ f i st, bigPhaseC input len f i st =
      (i + 256 * (bigPhaseCStrides len f i).length,
        List.foldl (fun st j => bigStride input 2 j st) st (bigPhaseCStrides len f i)) := by
  intro f
  induction f with
  | zero => intro i st; rfl
  | succ f ih =>
      intro i st
      show (if decide (i + (14870 + 64) * 8 < len) = true then _ else (i, st)) = _
      unfold bigPhaseCStrides
      by_cases h : i + (14870 + 64) * 8 < len
      · rw [if_pos (by simpa using h), if_pos h]
        have := ih (i + 256) (bigStride input 2 i st)
        unfold bigPhaseC at this
        rw [this]
        simp only [List.length_cons, List.foldl_cons, Prod.mk.injEq]
        exact ⟨by omega, trivial⟩
      · rw [if_neg (by simpa using h), if_neg h]
        simp

/-- Membership in the steady-state stride set, for fuel that covers the loop. -/
theorem bigPhaseCStrides_mem (len : ℕ) :
    ∀ f i0, ¬(i0 + 256 * f + (14870 + 64) * 8 < len) →
      ∀ i, i ∈ bigPhaseCStrides len f i0 ↔
        i0 ≤ i ∧ (i - i0) % 256 = 0 ∧ i + (14870 + 64) * 8 < len := by
  intro f
  induction f with
  | zero =>
      intro i0 h0 i
      show i ∈ ([] : List ℕ) ↔ _
      simp only [List.not_mem_nil, false_iff]
      intro hc
      omega
  | succ f ih =>
      intro i0 h0 i
      unfold bigPhaseCStrides
      by_cases h : i0 + (14870 + 64) * 8 < len
      · rw [if_pos h]
        rw [List.mem_cons, ih (i0 + 256) (by omega) i]
        constructor
        · rintro (rfl | ⟨h1, h2, h3⟩)
          · exact ⟨by omega, by omega, h⟩
          · exact ⟨by omega, by omega, h3⟩
        · rintro ⟨h1, h2, h3⟩
          by_cases hi : i = i0
          · exact Or.inl hi
          · exact Or.inr ⟨by omega, by omega, h3⟩
      · rw [if_neg h]
        simp only [List.not_mem_nil, false_iff]
        intro hc
        omega

/-- A stride writes the scratch only at the 10 words from
`outoffset1 + 22` and the 22 words from `outoffset2`: every other word is
unchanged. -/
theorem bigStride_ring_agree (input : ℕ → ℕ) (mode i : ℕ) (st : BigSt) (s : ℕ)
    (h1 : ∀ t, t < 10 → s ≠ (i / 8 + 14848) % bbWords + 22 + t)
    (h2 : ∀ t, t < 22 → s ≠ (i / 8 + 14880) % bbWords + t) :
    bbGet (bigStride input mode i st).ring s = bbGet st.ring s := by
  simp only [bigStride]
  rw [bbGet_bbSet_ne _ _ _ _ (by have h := h2 21 (by norm_num); omega)]
  rw [bbGet_bbSet_ne _ _ _ _ (by have h := h2 20 (by norm_num); omega)]
  rw [bbGet_bbSet_ne _ _ _ _ (by have h := h2 19 (by norm_num); omega)]
  rw [bbGet_bbSet_ne _ _ _ _ (by have h := h2 18 (by norm_num); omega)]
  rw [bbGet_bbSet_ne _ _ _ _ (by have h := h2 17 (by norm_num); omega)]
  rw [bbGet_bbSet_ne _ _ _ _ (by have h := h2 16 (by norm_num); omega)]
  rw [bbGet_bbSet_ne _ _ _ _ (by have h := h2 15 (by norm_num); omega)]
  rw [bbGet_bbSet_ne _ _ _ _ (by have h := h2 14 (by norm_num); omega)]
  rw [bbGet_bbSet_ne _ _ _ _ (by have h := h2 13 (by norm_num); omega)]
  rw [bbGet_bbSet_ne _ _ _ _ (by have h := h2 12 (by norm_num); omega)]
  rw [bbGet_bbSet_ne _ _ _ _ (by have h := h2 11 (by norm_num); omega)]
  rw [bbGet_bbSet_ne _ _ _ _ (by have h := h2 10 (by norm_num); omega)]
  rw [bbGet_bbSet_ne _ _ _ _ (by have h := h2 9 (by norm_num); omega)]
  rw [bbGet_bbSet_ne _ _ _ _ (by have h := h2 8 (by norm_num); omega)]
  rw [bbGet_bbSet_ne _ _ _ _ (by have h := h2 7 (by norm_num); omega)]
  rw [bbGet_bbSet_ne _ _ _ _ (by have h := h2 6 (by norm_num); omega)]
  rw [bbGet_bbSet_ne _ _ _ _ (by have h := h2 5 (by norm_num); omega)]
  rw [bbGet_bbSet_ne _ _ _ _ (by have h := h2 4 (by norm_num); omega)]
  rw [bbGet_bbSet_ne _ _ _ _ (by have h := h2 3 (by norm_num); omega)]
  rw [bbGet_bbSet_ne _ _ _ _ (by have h := h2 2 (by norm_num); omega)]
  rw [bbGet_bbSet_ne _ _ _ _ (by have h := h2 1 (by norm_num); omega)]
  rw [bbGet_bbSet_ne _ _ _ _ (by have h := h2 0 (by norm_num); omega)]
  rw [bbGet_bbSet_ne _ _ _ _ (by have h := h1 9 (by norm_num); omega)]
  rw [bbGet_bbSet_ne _ _ _ _ (by have h := h1 8 (by norm_num); omega)]
  rw [bbGet_bbSet_ne _ _ _ _ (by have h := h1 7 (by norm_num); omega)]
  rw [bbGet_bbSet_ne _ _ _ _ (by have h := h1 6 (by norm_num); omega)]
  rw [bbGet_bbSet_ne _ _ _ _ (by have h := h1 5 (by norm_num); omega)]
  rw [bbGet_bbSet_ne _ _ _ _ (by have h := h1 4 (by norm_num); omega)]
  rw [bbGet_bbSet_ne _ _ _ _ (by have h := h1 3 (by norm_num); omega)]
  rw [bbGet_bbSet_ne _ _ _ _ (by have h := h1 2 (by norm_num); omega)]
  rw [bbGet_bbSet_ne _ _ _ _ (by have h := h1 1 (by norm_num); omega)]
  rw [bbGet_bbSet_ne _ _ _ _ (by have h := h1 0 (by norm_num); omega)]

/-- The data flow of one stride, stated through `bigStrideIn`: the stride
writes the 32 derived words `in1 .. in10` at `outoffset1 + 22 ..` and
`in11 .. in32` at `outoffset2 ..`, and rebuilds the 22 accumulators from the
derived words. -/
theorem bigStride_shape (input : ℕ → ℕ) (mode i : ℕ) (st : BigSt) :
    bigStride input mode i st =
      { n1 := bigStrideIn input mode i st 10 ^^^ bigStrideIn input mode i st 21 ^^^ bigStrideIn input mode i st 25,
        n2 := bigStrideIn input mode i st 11 ^^^ bigStrideIn input mode i st 22 ^^^ bigStrideIn input mode i st 26,
        n3 := bigStrideIn input mode i st 12 ^^^ bigStrideIn input mode i st 23 ^^^ bigStrideIn input mode i st 27,
        n4 := bigStrideIn input mode i st 13 ^^^ bigStrideIn input mode i st 24 ^^^ bigStrideIn input mode i st 28,
        n5 := bigStrideIn input mode i st 14 ^^^ bigStrideIn input mode i st 25 ^^^ bigStrideIn input mode i st 29,
        n6 := bigStrideIn input mode i st 15 ^^^ bigStrideIn input mode i st 26 ^^^ bigStrideIn input mode i st 30,
        n7 := bigStrideIn input mode i st 16 ^^^ bigStrideIn input mode i st 27 ^^^ bigStrideIn input mode i st 31,
        n8 := bigStrideIn input mode i st 17 ^^^ bigStrideIn input mode i st 28,
        n9 := bigStrideIn input mode i st 18 ^^^ bigStrideIn input mode i st 29,
        n10 := bigStrideIn input mode i st 19 ^^^ bigStrideIn input mode i st 30,
        n11 := bigStrideIn input mode i st 20 ^^^ bigStrideIn input mode i st 31,
        n12 := bigStrideIn input mode i st 21,
        n13 := bigStrideIn input mode i st 22,
        n14 := bigStrideIn input mode i st 23,
        n15 := bigStrideIn input mode i st 24,
        n16 := bigStrideIn input mode i st 25,
        n17 := bigStrideIn input mode i st 26,
        n18 := bigStrideIn input mode i st 27,
        n19 := bigStrideIn input mode i st 28,
        n20 := bigStrideIn input mode i st 29,
        n21 := bigStrideIn input mode i st 30,
        n22 := bigStrideIn input mode i st 31,
        ring :=
          bbSet (bbSet (bbSet (bbSet (bbSet (bbSet (bbSet (bbSet (bbSet (bbSet (bbSet (bbSet (bbSet (bbSet (bbSet (bbSet (bbSet (bbSet (bbSet (bbSet (bbSet (bbSet (bbSet (bbSet (bbSet (bbSet (bbSet (bbSet (bbSet (bbSet (bbSet (bbSet (st.ring)
          ((i / 8 + 14848) % bbWords + 22) (bigStrideIn input mode i st 0))
          ((i / 8 + 14848) % bbWords + 23) (bigStrideIn input mode i st 1))
          ((i / 8 + 14848) % bbWords + 24) (bigStrideIn input mode i st 2))
          ((i / 8 + 14848) % bbWords + 25) (bigStrideIn input mode i st 3))
          ((i / 8 + 14848) % bbWords + 26) (bigStrideIn input mode i st 4))
          ((i / 8 + 14848) % bbWords + 27) (bigStrideIn input mode i st 5))
          ((i / 8 + 14848) % bbWords + 28) (bigStrideIn input mode i st 6))
          ((i / 8 + 14848) % bbWords + 29) (bigStrideIn input mode i st 7))
          ((i / 8 + 14848) % bbWords + 30) (bigStrideIn input mode i st 8))
          ((i / 8 + 14848) % bbWords + 31) (bigStrideIn input mode i st 9))
          ((i / 8 + 14880) % bbWords + 0) (bigStrideIn input mode i st 10))
          ((i / 8 + 14880) % bbWords + 1) (bigStrideIn input mode i st 11))
          ((i / 8 + 14880) % bbWords + 2) (bigStrideIn input mode i st 12))
          ((i / 8 + 14880) % bbWords + 3) (bigStrideIn input mode i st 13))
          ((i / 8 + 14880) % bbWords + 4) (bigStrideIn input mode i st 14))
          ((i / 8 + 14880) % bbWords + 5) (bigStrideIn input mode i st 15))
          ((i / 8 + 14880) % bbWords + 6) (bigStrideIn input mode i st 16))
          ((i / 8 + 14880) % bbWords + 7) (bigStrideIn input mode i st 17))
          ((i / 8 + 14880) % bbWords + 8) (bigStrideIn input mode i st 18))
          ((i / 8 + 14880) % bbWords + 9) (bigStrideIn input mode i st 19))
          ((i / 8 + 14880) % bbWords + 10) (bigStrideIn input mode i st 20))
          ((i / 8 + 14880) % bbWords + 11) (bigStrideIn input mode i st 21))
          ((i / 8 + 14880) % bbWords + 12) (bigStrideIn input mode i st 22))
          ((i / 8 + 14880) % bbWords + 13) (bigStrideIn input mode i st 23))
          ((i / 8 + 14880) % bbWords + 14) (bigStrideIn input mode i st 24))
          ((i / 8 + 14880) % bbWords + 15) (bigStrideIn input mode i st 25))
          ((i / 8 + 14880) % bbWords + 16) (bigStrideIn input mode i st 26))
          ((i / 8 + 14880) % bbWords + 17) (bigStrideIn input mode i st 27))
          ((i / 8 + 14880) % bbWords + 18) (bigStrideIn input mode i st 28))
          ((i / 8 + 14880) % bbWords + 19) (bigStrideIn input mode i st 29))
          ((i / 8 + 14880) % bbWords + 20) (bigStrideIn input mode i st 30))
          ((i / 8 + 14880) % bbWords + 21) (bigStrideIn input mode i st 31) } := rfl

/-- C5 counterexample: at `len = 239040` the steady-state body runs for the
stride at byte offset `i = 119040` (the code guard `i + 119472 < len` holds)
although the claimed guard `i + 120464 < len` fails there. -/
theorem bigPhaseC_guard_counterexample :
    119040 ∈ bigPhaseCStrides 239040 (239040 / 256 + 1) (14880 * 8) ∧
      ¬(119040 + 120464 < 239040) := by
  decide

/-- C5 amended: the steady-state phase runs its 256-byte stride body exactly
for the offsets `i = 119040 + 256·k` with `i + 119472 < len` (the code's
guard is `i + (14870 + 64)·8 = i + 119472`, not `i + 120464`); each stride
reads its 32 input words XORed with the scratch words at offset `i` (and the
carry accumulators), and writes the 32 derived words at the scratch word
offsets `(i + 118784) mod bufsize` (plus 22 words) and
`(i + 119040) mod bufsize`, leaving every other scratch word unchanged. -/
theorem bigPhaseC_steady_state_characterization (input : ℕ → ℕ) (len : ℕ)
    (st : BigSt) :
    (bigPhaseC input len (len / 256 + 1) (14880 * 8) st =
      (14880 * 8 + 256 * (bigPhaseCStrides len (len / 256 + 1) (14880 * 8)).length,
        List.foldl (fun st j => bigStride input 2 j st) st
          (bigPhaseCStrides len (len / 256 + 1) (14880 * 8)))) ∧
    (∀ i, i ∈ bigPhaseCStrides len (len / 256 + 1) (14880 * 8) ↔
      14880 * 8 ≤ i ∧ (i - 14880 * 8) % 256 = 0 ∧ i + (14870 + 64) * 8 < len) ∧
    (∀ i st2 s, (∀ t, t < 10 → s ≠ (i / 8 + 14848) % bbWords + 22 + t) →
      (∀ t, t < 22 → s ≠ (i / 8 + 14880) % bbWords + t) →
      bbGet (bigStride input 2 i st2).ring s = bbGet st2.ring s) := by
  refine ⟨bigPhaseC_eq_strides_fold input len _ _ st, ?_, ?_⟩
  · exact bigPhaseCStrides_mem len (len / 256 + 1) (14880 * 8) (by omega)
  · intro i st2 s h1 h2
    exact bigStride_ring_agree input 2 i st2 s h1 h2

/-- C2 (refuted): on an 8-byte-aligned buffer of exactly 272 bytes — accepted
by the main-loop guard `len >= sizeof(uint64_t)*(32+2) = 272` — the loop body
consumes 36 words (288 bytes): the 31st `__crc32d` reads the word at byte
offset 272, past the end of the buffer, and the two final `len -= 8` wrap the
`size_t` counter below zero; neighbouring lengths 271 and 288 complete
cleanly, so the checked embedding is not vacuously failing. -/
theorem crc32Acle_oob_at_272 :
    crc32AcleChecked 0 0 (fun _ => 0) 272 = none ∧
      (crc32AcleChecked 0 0 (fun _ => 0) 288).isSome = true ∧
      (crc32AcleChecked 0 0 (fun _ => 0) 271).isSome = true := by
  decide

theorem xor_cancel_left (a b : ℕ) : a ^^^ (a ^^^ b) = b := by
  rw [← Nat.xor_assoc, Nat.xor_self, Nat.zero_xor]

theorem xor_mod_256 (a b : ℕ) : (a ^^^ b) % 256 = a % 256 ^^^ b % 256 := by
  have h := xor_mod_two_pow a b 8
  norm_num at h
  exact h

theorem sstep_xor (x y : ℕ) : sstep (x ^^^ y) = sstep x ^^^ sstep y := by
  unfold sstep
  rw [xor_mod_two, xor_shiftRight]
  rcases Nat.mod_two_eq_zero_or_one x with hx | hx <;>
    rcases Nat.mod_two_eq_zero_or_one y with hy | hy <;>
      simp [hx, hy, Nat.xor_comm, Nat.xor_assoc, xor_left_comm, Nat.xor_self,
        xor_cancel_left]

theorem sstepIter_xor : ∀ n x y, sstepIter n (x ^^^ y) = sstepIter n x ^^^ sstepIter n y := by
  intro n
  induction n with
  | zero => intro x y; rfl
  | succ n ih =>
      intro x y
      show sstepIter n (sstep (x ^^^ y)) = _
      rw [sstep_xor, ih]
      rfl

theorem crcTable_xor (x y : ℕ) : crcTable (x ^^^ y) = crcTable x ^^^ crcTable y :=
  sstepIter_xor 8 x y

theorem byteStep_xor (c c' b b' : ℕ) :
    byteStep (c ^^^ c') (b ^^^ b') = byteStep c b ^^^ byteStep c' b' := by
  unfold byteStep
  rw [show c ^^^ c' ^^^ (b ^^^ b') = (c ^^^ b) ^^^ (c' ^^^ b') from xor_mix c c' b b',
    xor_mod_256, crcTable_xor, xor_shiftRight]
  rw [xor_mix]

theorem readByte_fXor (A B : ℕ → ℕ) (j : ℕ) :
    readByte (fXor A B) j = readByte A j ^^^ readByte B j := by
  unfold readByte fXor
  exact xor_mod_256 (A j) (B j)

theorem crcRange_fXor (A B : ℕ → ℕ) :
    ∀ n off cA cB, crcRange (fXor A B) n off (cA ^^^ cB) =
      crcRange A n off cA ^^^ crcRange B n off cB := by
  intro n
  induction n with
  | zero => intro off cA cB; rfl
  | succ n ih =>
      intro off cA cB
      show crcRange (fXor A B) n (off + 1) (byteStep (cA ^^^ cB) (readByte (fXor A B) off)) = _
      rw [readByte_fXor, byteStep_xor, ih]
      rfl

theorem wstep_xor (x y : ℕ) : wstep (x ^^^ y) = wstep x ^^^ wstep y := by
  unfold wstep
  rw [xor_shiftRight, xor_mod_256, crcTable_xor]
  rw [xor_mix]

theorem wstepIter_xor : ∀ n x y, wstepIter n (x ^^^ y) = wstepIter n x ^^^ wstepIter n y := by
  intro n
  induction n with
  | zero => intro x y; rfl
  | succ n ih =>
      intro x y
      show wstepIter n (wstep (x ^^^ y)) = _
      rw [wstep_xor, ih]
      rfl

theorem crcWord_xor (x y : ℕ) : crcWord (x ^^^ y) = crcWord x ^^^ crcWord y :=
  wstepIter_xor 8 x y

theorem xor_mix8 (a₁ a₂ a₃ a₄ a₅ a₆ a₇ a₈ b₁ b₂ b₃ b₄ b₅ b₆ b₇ b₈ : ℕ) :
    (a₁ ^^^ b₁) ^^^ (a₂ ^^^ b₂) ^^^ (a₃ ^^^ b₃) ^^^ (a₄ ^^^ b₄) ^^^
      (a₅ ^^^ b₅) ^^^ (a₆ ^^^ b₆) ^^^ (a₇ ^^^ b₇) ^^^ (a₈ ^^^ b₈) =
    (a₁ ^^^ a₂ ^^^ a₃ ^^^ a₄ ^^^ a₅ ^^^ a₆ ^^^ a₇ ^^^ a₈) ^^^
      (b₁ ^^^ b₂ ^^^ b₃ ^^^ b₄ ^^^ b₅ ^^^ b₆ ^^^ b₇ ^^^ b₈) := by
  simp only [Nat.xor_comm, Nat.xor_assoc, xor_left_comm]

theorem leW_fXor (A B : ℕ → ℕ) (off : ℕ) :
    leW (fXor A B) off = leW A off ^^^ leW B off := by
  unfold leW
  simp only [readByte_fXor, xor_shiftLeft]
  apply xor_mix8

theorem braidTable_xor (k x y : ℕ) :
    braidTable k (x ^^^ y) = braidTable k x ^^^ braidTable k y := by
  unfold braidTable
  rw [xor_mod_256, crcTable_xor, wstepIter_xor]

theorem braidLook_xor (v w : ℕ) : braidLook (v ^^^ w) = braidLook v ^^^ braidLook w := by
  unfold braidLook
  simp only [xor_shiftRight, xor_mod_256, braidTable_xor]
  apply xor_mix8

theorem shl64_xor (x y k : ℕ) : shl64 (x ^^^ y) k = shl64 x k ^^^ shl64 y k := by
  unfold shl64
  rw [xor_shiftLeft]
  exact xor_mod_two_pow _ _ 64

theorem sprA1_xor (x y : ℕ) : sprA1 (x ^^^ y) = sprA1 x ^^^ sprA1 y := by
  unfold sprA1
  rw [shl64_xor, shl64_xor]
  rw [xor_mix]

theorem sprA2_xor (x y : ℕ) : sprA2 (x ^^^ y) = sprA2 x ^^^ sprA2 y := by
  unfold sprA2
  rw [xor_shiftRight, xor_shiftRight, shl64_xor]
  rw [xor_mix3]

theorem sprA3_xor (x y : ℕ) : sprA3 (x ^^^ y) = sprA3 x ^^^ sprA3 y := by
  unfold sprA3
  rw [xor_shiftRight, shl64_xor]
  rw [xor_mix]

theorem sprA4_xor (x y : ℕ) : sprA4 (x ^^^ y) = sprA4 x ^^^ sprA4 y := by
  unfold sprA4
  exact xor_shiftRight x y 20

theorem bbGet_xor (ra rb s : ℕ) : bbGet (ra ^^^ rb) s = bbGet ra s ^^^ bbGet rb s := by
  unfold bbGet
  rw [xor_shiftRight]
  exact xor_mod_two_pow _ _ 64

theorem bbByte_xor (ra rb p : ℕ) : bbByte (ra ^^^ rb) p = bbByte ra p ^^^ bbByte rb p := by
  unfold bbByte
  rw [xor_shiftRight]
  exact xor_mod_256 _ _

theorem bbSet_xor (ra rb s va vb : ℕ) :
    bbSet (ra ^^^ rb) s (va ^^^ vb) = bbSet ra s va ^^^ bbSet rb s vb := by
  unfold bbSet
  rw [bbGet_xor, xor_mod_two_pow,
    show bbGet ra s ^^^ bbGet rb s ^^^ (va % 2 ^ 64 ^^^ vb % 2 ^ 64) =
      (bbGet ra s ^^^ va % 2 ^ 64) ^^^ (bbGet rb s ^^^ vb % 2 ^ 64) from
      xor_mix _ _ _ _,
    xor_shiftLeft]
  rw [xor_mix]

theorem ite_xor_zero (c : Prop) [Decidable c] (a b : ℕ) :
    (if c then a ^^^ b else 0) = (if c then a else 0) ^^^ (if c then b else 0) := by
  split_ifs <;> simp

/-- Loops with state-independent guards take the same index path on any two
states and any two bodies. -/
theorem cFor_fst_eq {σ τ : Type} (guard : ℕ → Bool) (step : ℕ)
    (bA : ℕ → σ → σ) (bB : ℕ → τ → τ) :
    ∀ f i sa sb, (cFor guard step bA f i sa).1 = (cFor guard step bB f i sb).1 := by
  intro f
  induction f with
  | zero => intro i sa sb; rfl
  | succ f ih =>
      intro i sa sb
      rw [cFor_succ, cFor_succ]
      by_cases h : guard i = true
      · rw [if_pos h, if_pos h]
        exact ih (i + step) (bA i sa) (bB i sb)
      · rw [if_neg h, if_neg h]

/-- Superposition through a loop: if the body distributes over a combination
`xs` of states (pointwise in the index), so does the whole loop, along the
identical index path. -/
theorem cFor_xor {σ : Type} (guard : ℕ → Bool) (step : ℕ) (xs : σ → σ → σ)
    (bA bB bAB : ℕ → σ → σ)
    (h : ∀ i sa sb, bAB i (xs sa sb) = xs (bA i sa) (bB i sb)) :
    ∀ f i sa sb, cFor guard step bAB f i (xs sa sb) =
      ((cFor guard step bA f i sa).1,
        xs (cFor guard step bA f i sa).2 (cFor guard step bB f i sb).2) := by
  intro f
  induction f with
  | zero => intro i sa sb; rfl
  | succ f ih =>
      intro i sa sb
      rw [cFor_succ, cFor_succ, cFor_succ]
      by_cases hg : guard i = true
      · rw [if_pos hg, if_pos hg, if_pos hg, h, ih]
      · rw [if_neg hg, if_neg hg, if_neg hg]

theorem C5x_n1 (a b : Chorba5) : (C5x a b).n1 = a.n1 ^^^ b.n1 := rfl

theorem C5x_n2 (a b : Chorba5) : (C5x a b).n2 = a.n2 ^^^ b.n2 := rfl

theorem C5x_n3 (a b : Chorba5) : (C5x a b).n3 = a.n3 ^^^ b.n3 := rfl

theorem C5x_n4 (a b : Chorba5) : (C5x a b).n4 = a.n4 ^^^ b.n4 := rfl

theorem C5x_n5 (a b : Chorba5) : (C5x a b).n5 = a.n5 ^^^ b.n5 := rfl

theorem ite_zero_xor (c : Prop) [Decidable c] (a b : ℕ) :
    (if c then 0 else a ^^^ b) = (if c then 0 else a) ^^^ (if c then 0 else b) := by
  split_ifs <;> simp

theorem xor_mix5 (a₁ a₂ a₃ a₄ a₅ b₁ b₂ b₃ b₄ b₅ : ℕ) :
    (a₁ ^^^ b₁) ^^^ (a₂ ^^^ b₂) ^^^ (a₃ ^^^ b₃) ^^^ (a₄ ^^^ b₄) ^^^ (a₅ ^^^ b₅) =
      (a₁ ^^^ a₂ ^^^ a₃ ^^^ a₄ ^^^ a₅) ^^^ (b₁ ^^^ b₂ ^^^ b₃ ^^^ b₄ ^^^ b₅) := by
  simp only [Nat.xor_comm, Nat.xor_assoc, xor_left_comm]

theorem xor_mix1g3 (x y a₁ a₂ a₃ b₁ b₂ b₃ : ℕ) :
    (x ^^^ y) ^^^ ((a₁ ^^^ b₁) ^^^ (a₂ ^^^ b₂) ^^^ (a₃ ^^^ b₃)) =
      (x ^^^ (a₁ ^^^ a₂ ^^^ a₃)) ^^^ (y ^^^ (b₁ ^^^ b₂ ^^^ b₃)) := by
  simp only [Nat.xor_comm, Nat.xor_assoc, xor_left_comm]

/-- The four-word group factored through its derived words. -/
theorem quad_decomp (input : ℕ → ℕ) (i m1 m2 m3 m4 : ℕ) (s : Chorba5) (first : Bool) :
    chorbaQuad input i m1 m2 m3 m4 s first =
      quadOut (quadIn1 input i m1 s first) (quadIn2 input i m2 s first)
        (quadIn3 input i m3 s first (quadIn1 input i m1 s first))
        (quadIn4 input i m4 s first (quadIn1 input i m1 s first)
          (quadIn2 input i m2 s first))
        (if first then 0 else s.n5) := rfl

theorem quadIn1_xor (A B : ℕ → ℕ) (i ma mb : ℕ) (sa sb : Chorba5) (first : Bool) :
    quadIn1 (fXor A B) i (ma ^^^ mb) (C5x sa sb) first =
      quadIn1 A i ma sa first ^^^ quadIn1 B i mb sb first := by
  unfold quadIn1
  rw [leW_fXor, C5x_n1, ite_zero_xor]
  apply xor_mix3

theorem quadIn2_xor (A B : ℕ → ℕ) (i ma mb : ℕ) (sa sb : Chorba5) (first : Bool) :
    quadIn2 (fXor A B) i (ma ^^^ mb) (C5x sa sb) first =
      quadIn2 A i ma sa first ^^^ quadIn2 B i mb sb first := by
  unfold quadIn2
  rw [leW_fXor, C5x_n2, ite_zero_xor]
  apply xor_mix3

theorem quadIn3_xor (A B : ℕ → ℕ) (i ma mb : ℕ) (sa sb : Chorba5) (first : Bool)
    (pa pb : ℕ) :
    quadIn3 (fXor A B) i (ma ^^^ mb) (C5x sa sb) first (pa ^^^ pb) =
      quadIn3 A i ma sa first pa ^^^ quadIn3 B i mb sb first pb := by
  unfold quadIn3
  rw [leW_fXor, C5x_n3, ite_zero_xor, sprA1_xor]
  apply xor_mix4

theorem quadIn4_xor (A B : ℕ → ℕ) (i ma mb : ℕ) (sa sb : Chorba5) (first : Bool)
    (pa pb qa qb : ℕ) :
    quadIn4 (fXor A B) i (ma ^^^ mb) (C5x sa sb) first (pa ^^^ pb) (qa ^^^ qb) =
      quadIn4 A i ma sa first pa qa ^^^ quadIn4 B i mb sb first pb qb := by
  unfold quadIn4
  rw [leW_fXor, C5x_n4, ite_zero_xor, sprA2_xor, sprA1_xor]
  apply xor_mix5

theorem quadOut_xor (pa1 pa2 pa3 pa4 pb1 pb2 pb3 pb4 na nb : ℕ) :
    quadOut (pa1 ^^^ pb1) (pa2 ^^^ pb2) (pa3 ^^^ pb3) (pa4 ^^^ pb4) (na ^^^ nb) =
      C5x (quadOut pa1 pa2 pa3 pa4 na) (quadOut pb1 pb2 pb3 pb4 nb) := by
  unfold quadOut C5x
  simp only [sprA1_xor, sprA2_xor, sprA3_xor, sprA4_xor]
  simp only [Chorba5.mk.injEq]
  exact ⟨xor_mix1g3 na nb (sprA3 pa1) (sprA2 pa2) (sprA1 pa3) (sprA3 pb1)
      (sprA2 pb2) (sprA1 pb3),
    xor_mix4 (sprA4 pa1) (sprA4 pb1) (sprA3 pa2) (sprA3 pb2) (sprA2 pa3)
      (sprA2 pb3) (sprA1 pa4) (sprA1 pb4),
    xor_mix3 (sprA4 pa2) (sprA4 pb2) (sprA3 pa3) (sprA3 pb3) (sprA2 pa4)
      (sprA2 pb4),
    xor_mix (sprA4 pa3) (sprA4 pb3) (sprA3 pa4) (sprA3 pb4),
    trivial⟩

/-- Superposition through one four-word Chorba group. -/
theorem chorbaQuad_xor (A B : ℕ → ℕ) (i : ℕ) (m1a m2a m3a m4a m1b m2b m3b m4b : ℕ)
    (sa sb : Chorba5) (first : Bool) :
    chorbaQuad (fXor A B) i (m1a ^^^ m1b) (m2a ^^^ m2b) (m3a ^^^ m3b) (m4a ^^^ m4b)
        (C5x sa sb) first =
      C5x (chorbaQuad A i m1a m2a m3a m4a sa first)
        (chorbaQuad B i m1b m2b m3b m4b sb first) := by
  rw [quad_decomp, quad_decomp, quad_decomp]
  rw [quadIn1_xor, quadIn2_xor, quadIn3_xor, quadIn4_xor, C5x_n5, ite_zero_xor,
    quadOut_xor]

/-- Superposition through a mask-free group (the 32-byte-stride loops). -/
theorem chorbaQuad_xor0 (A B : ℕ → ℕ) (i : ℕ) (sa sb : Chorba5) (first : Bool) :
    chorbaQuad (fXor A B) i 0 0 0 0 (C5x sa sb) first =
      C5x (chorbaQuad A i 0 0 0 0 sa first) (chorbaQuad B i 0 0 0 0 sb first) := by
  have h := chorbaQuad_xor A B i 0 0 0 0 0 0 0 0 sa sb first
  simpa using h

/-- The superblock factored through its 32 `chorba` masks. -/
theorem superblock_decomp (input : ℕ → ℕ) (i : ℕ) (s : Chorba5) :
    chorbaSuperblock input i s =
      quadChain8 input i
        ((leW input (i + 16) ^^^ s.n3))
        (((leW input (i + 24) ^^^ s.n4) ^^^ (leW input i ^^^ s.n1)))
        ((((leW input (i + 32) ^^^ s.n5) ^^^ (leW input (i + 8) ^^^ s.n2)) ^^^ (leW input i ^^^ s.n1)))
        (((leW input (i + 40) ^^^ (leW input (i + 16) ^^^ s.n3)) ^^^ (leW input (i + 8) ^^^ s.n2)))
        ((((leW input (i + 48) ^^^ (leW input i ^^^ s.n1)) ^^^ (leW input (i + 24) ^^^ s.n4)) ^^^ (leW input (i + 16) ^^^ s.n3)))
        ((((leW input (i + 56) ^^^ (leW input (i + 8) ^^^ s.n2)) ^^^ (leW input (i + 32) ^^^ s.n5)) ^^^ (leW input (i + 24) ^^^ s.n4)))
        ((leW input (i + 40) ^^^ (leW input (i + 32) ^^^ s.n5)))
        (((leW input (i + 48) ^^^ (leW input i ^^^ s.n1)) ^^^ leW input (i + 40)))
        ((((leW input (i + 56) ^^^ (leW input (i + 8) ^^^ s.n2)) ^^^ (leW input (i + 48) ^^^ (leW input i ^^^ s.n1))) ^^^ (leW input i ^^^ s.n1)))
        (((leW input (i + 56) ^^^ (leW input (i + 8) ^^^ s.n2)) ^^^ (leW input (i + 8) ^^^ s.n2)))
        ((leW input (i + 16) ^^^ s.n3))
        ((leW input (i + 24) ^^^ s.n4))
        (((leW input (i + 32) ^^^ s.n5) ^^^ (leW input i ^^^ s.n1)))
        (((leW input (i + 40) ^^^ (leW input (i + 8) ^^^ s.n2)) ^^^ (leW input i ^^^ s.n1)))
        (((((leW input (i + 48) ^^^ (leW input i ^^^ s.n1)) ^^^ (leW input (i + 16) ^^^ s.n3)) ^^^ (leW input (i + 8) ^^^ s.n2)) ^^^ (leW input i ^^^ s.n1)))
        (((((leW input (i + 56) ^^^ (leW input (i + 8) ^^^ s.n2)) ^^^ (leW input (i + 24) ^^^ s.n4)) ^^^ (leW input (i + 16) ^^^ s.n3)) ^^^ (leW input (i + 8) ^^^ s.n2)))
        (((((leW input (i + 32) ^^^ s.n5) ^^^ (leW input (i + 24) ^^^ s.n4)) ^^^ (leW input (i + 16) ^^^ s.n3)) ^^^ (leW input i ^^^ s.n1)))
        (((((leW input (i + 40) ^^^ (leW input (i + 32) ^^^ s.n5)) ^^^ (leW input (i + 24) ^^^ s.n4)) ^^^ (leW input i ^^^ s.n1)) ^^^ (leW input (i + 8) ^^^ s.n2)))
        ((((((leW input (i + 48) ^^^ (leW input i ^^^ s.n1)) ^^^ leW input (i + 40)) ^^^ (leW input (i + 32) ^^^ s.n5)) ^^^ (leW input (i + 8) ^^^ s.n2)) ^^^ (leW input (i + 16) ^^^ s.n3)))
        (((((((leW input (i + 56) ^^^ (leW input (i + 8) ^^^ s.n2)) ^^^ (leW input (i + 48) ^^^ (leW input i ^^^ s.n1))) ^^^ leW input (i + 40)) ^^^ (leW input (i + 16) ^^^ s.n3)) ^^^ (leW input (i + 24) ^^^ s.n4)) ^^^ (leW input i ^^^ s.n1)))
        (((((((leW input (i + 56) ^^^ (leW input (i + 8) ^^^ s.n2)) ^^^ (leW input (i + 48) ^^^ (leW input i ^^^ s.n1))) ^^^ (leW input (i + 24) ^^^ s.n4)) ^^^ (leW input (i + 32) ^^^ s.n5)) ^^^ (leW input (i + 8) ^^^ s.n2)) ^^^ (leW input i ^^^ s.n1)))
        ((((((leW input (i + 56) ^^^ (leW input (i + 8) ^^^ s.n2)) ^^^ (leW input (i + 32) ^^^ s.n5)) ^^^ leW input (i + 40)) ^^^ (leW input (i + 16) ^^^ s.n3)) ^^^ (leW input (i + 8) ^^^ s.n2)))
        ((((((leW input (i + 48) ^^^ (leW input i ^^^ s.n1)) ^^^ leW input (i + 40)) ^^^ (leW input (i + 24) ^^^ s.n4)) ^^^ (leW input (i + 16) ^^^ s.n3)) ^^^ (leW input i ^^^ s.n1)))
        (((((((leW input (i + 56) ^^^ (leW input (i + 8) ^^^ s.n2)) ^^^ (leW input (i + 48) ^^^ (leW input i ^^^ s.n1))) ^^^ (leW input (i + 32) ^^^ s.n5)) ^^^ (leW input (i + 24) ^^^ s.n4)) ^^^ (leW input (i + 8) ^^^ s.n2)) ^^^ (leW input i ^^^ s.n1)))
        (((((((leW input (i + 56) ^^^ (leW input (i + 8) ^^^ s.n2)) ^^^ leW input (i + 40)) ^^^ (leW input (i + 32) ^^^ s.n5)) ^^^ (leW input (i + 16) ^^^ s.n3)) ^^^ (leW input (i + 8) ^^^ s.n2)) ^^^ (leW input i ^^^ s.n1)))
        ((((((leW input (i + 48) ^^^ (leW input i ^^^ s.n1)) ^^^ leW input (i + 40)) ^^^ (leW input (i + 24) ^^^ s.n4)) ^^^ (leW input (i + 16) ^^^ s.n3)) ^^^ (leW input (i + 8) ^^^ s.n2)))
        ((((((leW input (i + 56) ^^^ (leW input (i + 8) ^^^ s.n2)) ^^^ (leW input (i + 48) ^^^ (leW input i ^^^ s.n1))) ^^^ (leW input (i + 32) ^^^ s.n5)) ^^^ (leW input (i + 24) ^^^ s.n4)) ^^^ (leW input (i + 16) ^^^ s.n3)))
        (((((leW input (i + 56) ^^^ (leW input (i + 8) ^^^ s.n2)) ^^^ leW input (i + 40)) ^^^ (leW input (i + 32) ^^^ s.n5)) ^^^ (leW input (i + 24) ^^^ s.n4)))
        ((((leW input (i + 48) ^^^ (leW input i ^^^ s.n1)) ^^^ leW input (i + 40)) ^^^ (leW input (i + 32) ^^^ s.n5)))
        ((((leW input (i + 56) ^^^ (leW input (i + 8) ^^^ s.n2)) ^^^ (leW input (i + 48) ^^^ (leW input i ^^^ s.n1))) ^^^ leW input (i + 40)))
        (((leW input (i + 56) ^^^ (leW input (i + 8) ^^^ s.n2)) ^^^ (leW input (i + 48) ^^^ (leW input i ^^^ s.n1))))
        ((leW input (i + 56) ^^^ (leW input (i + 8) ^^^ s.n2)))
        s := rfl

/-- Superposition through the eight sub-blocks with split masks. -/
theorem quadChain8_xor (A B : ℕ → ℕ) (i : ℕ)
    (x11 x12 x13 x14 x21 x22 x23 x24 x31 x32 x33 x34 x41 x42 x43 x44 x51 x52 x53 x54 x61 x62 x63 x64 x71 x72 x73 x74 x81 x82 x83 x84 : ℕ)
    (y11 y12 y13 y14 y21 y22 y23 y24 y31 y32 y33 y34 y41 y42 y43 y44 y51 y52 y53 y54 y61 y62 y63 y64 y71 y72 y73 y74 y81 y82 y83 y84 : ℕ)
    (sa sb : Chorba5) :
    quadChain8 (fXor A B) i
      (x11 ^^^ y11) (x12 ^^^ y12) (x13 ^^^ y13) (x14 ^^^ y14)
      (x21 ^^^ y21) (x22 ^^^ y22) (x23 ^^^ y23) (x24 ^^^ y24)
      (x31 ^^^ y31) (x32 ^^^ y32) (x33 ^^^ y33) (x34 ^^^ y34)
      (x41 ^^^ y41) (x42 ^^^ y42) (x43 ^^^ y43) (x44 ^^^ y44)
      (x51 ^^^ y51) (x52 ^^^ y52) (x53 ^^^ y53) (x54 ^^^ y54)
      (x61 ^^^ y61) (x62 ^^^ y62) (x63 ^^^ y63) (x64 ^^^ y64)
      (x71 ^^^ y71) (x72 ^^^ y72) (x73 ^^^ y73) (x74 ^^^ y74)
      (x81 ^^^ y81) (x82 ^^^ y82) (x83 ^^^ y83) (x84 ^^^ y84)
      (C5x sa sb) =
    C5x (quadChain8 A i x11 x12 x13 x14 x21 x22 x23 x24 x31 x32 x33 x34 x41 x42 x43 x44 x51 x52 x53 x54 x61 x62 x63 x64 x71 x72 x73 x74 x81 x82 x83 x84 sa)
      (quadChain8 B i y11 y12 y13 y14 y21 y22 y23 y24 y31 y32 y33 y34 y41 y42 y43 y44 y51 y52 y53 y54 y61 y62 y63 y64 y71 y72 y73 y74 y81 y82 y83 y84 sb) := by
  unfold quadChain8
  simp only [chorbaQuad_xor]

theorem sbShape_n (a1 a2 b1 b2 : ℕ) :
    ((a1 ^^^ b1) ^^^ (a2 ^^^ b2)) =
      (a1 ^^^ a2) ^^^ (b1 ^^^ b2) := by
  simp only [Nat.xor_comm, Nat.xor_assoc, xor_left_comm]

theorem sbShape_nn (a1 a2 a3 a4 b1 b2 b3 b4 : ℕ) :
    (((a1 ^^^ b1) ^^^ (a2 ^^^ b2)) ^^^ ((a3 ^^^ b3) ^^^ (a4 ^^^ b4))) =
      ((a1 ^^^ a2) ^^^ (a3 ^^^ a4)) ^^^ ((b1 ^^^ b2) ^^^ (b3 ^^^ b4)) := by
  simp only [Nat.xor_comm, Nat.xor_assoc, xor_left_comm]

theorem sbShape_nnn (a1 a2 a3 a4 a5 a6 b1 b2 b3 b4 b5 b6 : ℕ) :
    ((((a1 ^^^ b1) ^^^ (a2 ^^^ b2)) ^^^ ((a3 ^^^ b3) ^^^ (a4 ^^^ b4))) ^^^ ((a5 ^^^ b5) ^^^ (a6 ^^^ b6))) =
      (((a1 ^^^ a2) ^^^ (a3 ^^^ a4)) ^^^ (a5 ^^^ a6)) ^^^ (((b1 ^^^ b2) ^^^ (b3 ^^^ b4)) ^^^ (b5 ^^^ b6)) := by
  simp only [Nat.xor_comm, Nat.xor_assoc, xor_left_comm]

theorem sbShape_pnn (a1 a2 a3 a4 a5 b1 b2 b3 b4 b5 : ℕ) :
    (((a1 ^^^ b1) ^^^ ((a2 ^^^ b2) ^^^ (a3 ^^^ b3))) ^^^ ((a4 ^^^ b4) ^^^ (a5 ^^^ b5))) =
      ((a1 ^^^ (a2 ^^^ a3)) ^^^ (a4 ^^^ a5)) ^^^ ((b1 ^^^ (b2 ^^^ b3)) ^^^ (b4 ^^^ b5)) := by
  simp only [Nat.xor_comm, Nat.xor_assoc, xor_left_comm]

theorem sbShape_dnn (a1 a2 a3 a4 a5 a6 a7 b1 b2 b3 b4 b5 b6 b7 : ℕ) :
    ((((a1 ^^^ b1) ^^^ ((a2 ^^^ b2) ^^^ (a3 ^^^ b3))) ^^^ ((a4 ^^^ b4) ^^^ (a5 ^^^ b5))) ^^^ ((a6 ^^^ b6) ^^^ (a7 ^^^ b7))) =
      (((a1 ^^^ (a2 ^^^ a3)) ^^^ (a4 ^^^ a5)) ^^^ (a6 ^^^ a7)) ^^^ (((b1 ^^^ (b2 ^^^ b3)) ^^^ (b4 ^^^ b5)) ^^^ (b6 ^^^ b7)) := by
  simp only [Nat.xor_comm, Nat.xor_assoc, xor_left_comm]

theorem sbShape_pn (a1 a2 a3 b1 b2 b3 : ℕ) :
    ((a1 ^^^ b1) ^^^ ((a2 ^^^ b2) ^^^ (a3 ^^^ b3))) =
      (a1 ^^^ (a2 ^^^ a3)) ^^^ (b1 ^^^ (b2 ^^^ b3)) := by
  simp only [Nat.xor_comm, Nat.xor_assoc, xor_left_comm]

theorem sbShape_dp (a1 a2 a3 a4 b1 b2 b3 b4 : ℕ) :
    (((a1 ^^^ b1) ^^^ ((a2 ^^^ b2) ^^^ (a3 ^^^ b3))) ^^^ (a4 ^^^ b4)) =
      ((a1 ^^^ (a2 ^^^ a3)) ^^^ a4) ^^^ ((b1 ^^^ (b2 ^^^ b3)) ^^^ b4) := by
  simp only [Nat.xor_comm, Nat.xor_assoc, xor_left_comm]

theorem sbShape_ddn (a1 a2 a3 a4 a5 a6 a7 a8 b1 b2 b3 b4 b5 b6 b7 b8 : ℕ) :
    ((((a1 ^^^ b1) ^^^ ((a2 ^^^ b2) ^^^ (a3 ^^^ b3))) ^^^ ((a4 ^^^ b4) ^^^ ((a5 ^^^ b5) ^^^ (a6 ^^^ b6)))) ^^^ ((a7 ^^^ b7) ^^^ (a8 ^^^ b8))) =
      (((a1 ^^^ (a2 ^^^ a3)) ^^^ (a4 ^^^ (a5 ^^^ a6))) ^^^ (a7 ^^^ a8)) ^^^ (((b1 ^^^ (b2 ^^^ b3)) ^^^ (b4 ^^^ (b5 ^^^ b6))) ^^^ (b7 ^^^ b8)) := by
  simp only [Nat.xor_comm, Nat.xor_assoc, xor_left_comm]

theorem sbShape_dn (a1 a2 a3 a4 a5 b1 b2 b3 b4 b5 : ℕ) :
    (((a1 ^^^ b1) ^^^ ((a2 ^^^ b2) ^^^ (a3 ^^^ b3))) ^^^ ((a4 ^^^ b4) ^^^ (a5 ^^^ b5))) =
      ((a1 ^^^ (a2 ^^^ a3)) ^^^ (a4 ^^^ a5)) ^^^ ((b1 ^^^ (b2 ^^^ b3)) ^^^ (b4 ^^^ b5)) := by
  simp only [Nat.xor_comm, Nat.xor_assoc, xor_left_comm]

theorem sbShape_dnnn (a1 a2 a3 a4 a5 a6 a7 a8 a9 b1 b2 b3 b4 b5 b6 b7 b8 b9 : ℕ) :
    (((((a1 ^^^ b1) ^^^ ((a2 ^^^ b2) ^^^ (a3 ^^^ b3))) ^^^ ((a4 ^^^ b4) ^^^ (a5 ^^^ b5))) ^^^ ((a6 ^^^ b6) ^^^ (a7 ^^^ b7))) ^^^ ((a8 ^^^ b8) ^^^ (a9 ^^^ b9))) =
      ((((a1 ^^^ (a2 ^^^ a3)) ^^^ (a4 ^^^ a5)) ^^^ (a6 ^^^ a7)) ^^^ (a8 ^^^ a9)) ^^^ ((((b1 ^^^ (b2 ^^^ b3)) ^^^ (b4 ^^^ b5)) ^^^ (b6 ^^^ b7)) ^^^ (b8 ^^^ b9)) := by
  simp only [Nat.xor_comm, Nat.xor_assoc, xor_left_comm]

theorem sbShape_nnnn (a1 a2 a3 a4 a5 a6 a7 a8 b1 b2 b3 b4 b5 b6 b7 b8 : ℕ) :
    (((((a1 ^^^ b1) ^^^ (a2 ^^^ b2)) ^^^ ((a3 ^^^ b3) ^^^ (a4 ^^^ b4))) ^^^ ((a5 ^^^ b5) ^^^ (a6 ^^^ b6))) ^^^ ((a7 ^^^ b7) ^^^ (a8 ^^^ b8))) =
      ((((a1 ^^^ a2) ^^^ (a3 ^^^ a4)) ^^^ (a5 ^^^ a6)) ^^^ (a7 ^^^ a8)) ^^^ ((((b1 ^^^ b2) ^^^ (b3 ^^^ b4)) ^^^ (b5 ^^^ b6)) ^^^ (b7 ^^^ b8)) := by
  simp only [Nat.xor_comm, Nat.xor_assoc, xor_left_comm]

theorem sbShape_pnnnn (a1 a2 a3 a4 a5 a6 a7 a8 a9 b1 b2 b3 b4 b5 b6 b7 b8 b9 : ℕ) :
    (((((a1 ^^^ b1) ^^^ ((a2 ^^^ b2) ^^^ (a3 ^^^ b3))) ^^^ ((a4 ^^^ b4) ^^^ (a5 ^^^ b5))) ^^^ ((a6 ^^^ b6) ^^^ (a7 ^^^ b7))) ^^^ ((a8 ^^^ b8) ^^^ (a9 ^^^ b9))) =
      ((((a1 ^^^ (a2 ^^^ a3)) ^^^ (a4 ^^^ a5)) ^^^ (a6 ^^^ a7)) ^^^ (a8 ^^^ a9)) ^^^ ((((b1 ^^^ (b2 ^^^ b3)) ^^^ (b4 ^^^ b5)) ^^^ (b6 ^^^ b7)) ^^^ (b8 ^^^ b9)) := by
  simp only [Nat.xor_comm, Nat.xor_assoc, xor_left_comm]

theorem sbShape_dpnnn (a1 a2 a3 a4 a5 a6 a7 a8 a9 a10 b1 b2 b3 b4 b5 b6 b7 b8 b9 b10 : ℕ) :
    ((((((a1 ^^^ b1) ^^^ ((a2 ^^^ b2) ^^^ (a3 ^^^ b3))) ^^^ (a4 ^^^ b4)) ^^^ ((a5 ^^^ b5) ^^^ (a6 ^^^ b6))) ^^^ ((a7 ^^^ b7) ^^^ (a8 ^^^ b8))) ^^^ ((a9 ^^^ b9) ^^^ (a10 ^^^ b10))) =
      (((((a1 ^^^ (a2 ^^^ a3)) ^^^ a4) ^^^ (a5 ^^^ a6)) ^^^ (a7 ^^^ a8)) ^^^ (a9 ^^^ a10)) ^^^ (((((b1 ^^^ (b2 ^^^ b3)) ^^^ b4) ^^^ (b5 ^^^ b6)) ^^^ (b7 ^^^ b8)) ^^^ (b9 ^^^ b10)) := by
  simp only [Nat.xor_comm, Nat.xor_assoc, xor_left_comm]

theorem sbShape_ddpnnn (a1 a2 a3 a4 a5 a6 a7 a8 a9 a10 a11 a12 a13 b1 b2 b3 b4 b5 b6 b7 b8 b9 b10 b11 b12 b13 : ℕ) :
    (((((((a1 ^^^ b1) ^^^ ((a2 ^^^ b2) ^^^ (a3 ^^^ b3))) ^^^ ((a4 ^^^ b4) ^^^ ((a5 ^^^ b5) ^^^ (a6 ^^^ b6)))) ^^^ (a7 ^^^ b7)) ^^^ ((a8 ^^^ b8) ^^^ (a9 ^^^ b9))) ^^^ ((a10 ^^^ b10) ^^^ (a11 ^^^ b11))) ^^^ ((a12 ^^^ b12) ^^^ (a13 ^^^ b13))) =
      ((((((a1 ^^^ (a2 ^^^ a3)) ^^^ (a4 ^^^ (a5 ^^^ a6))) ^^^ a7) ^^^ (a8 ^^^ a9)) ^^^ (a10 ^^^ a11)) ^^^ (a12 ^^^ a13)) ^^^ ((((((b1 ^^^ (b2 ^^^ b3)) ^^^ (b4 ^^^ (b5 ^^^ b6))) ^^^ b7) ^^^ (b8 ^^^ b9)) ^^^ (b10 ^^^ b11)) ^^^ (b12 ^^^ b13)) := by
  simp only [Nat.xor_comm, Nat.xor_assoc, xor_left_comm]

theorem sbShape_ddnnnn (a1 a2 a3 a4 a5 a6 a7 a8 a9 a10 a11 a12 a13 a14 b1 b2 b3 b4 b5 b6 b7 b8 b9 b10 b11 b12 b13 b14 : ℕ) :
    (((((((a1 ^^^ b1) ^^^ ((a2 ^^^ b2) ^^^ (a3 ^^^ b3))) ^^^ ((a4 ^^^ b4) ^^^ ((a5 ^^^ b5) ^^^ (a6 ^^^ b6)))) ^^^ ((a7 ^^^ b7) ^^^ (a8 ^^^ b8))) ^^^ ((a9 ^^^ b9) ^^^ (a10 ^^^ b10))) ^^^ ((a11 ^^^ b11) ^^^ (a12 ^^^ b12))) ^^^ ((a13 ^^^ b13) ^^^ (a14 ^^^ b14))) =
      ((((((a1 ^^^ (a2 ^^^ a3)) ^^^ (a4 ^^^ (a5 ^^^ a6))) ^^^ (a7 ^^^ a8)) ^^^ (a9 ^^^ a10)) ^^^ (a11 ^^^ a12)) ^^^ (a13 ^^^ a14)) ^^^ ((((((b1 ^^^ (b2 ^^^ b3)) ^^^ (b4 ^^^ (b5 ^^^ b6))) ^^^ (b7 ^^^ b8)) ^^^ (b9 ^^^ b10)) ^^^ (b11 ^^^ b12)) ^^^ (b13 ^^^ b14)) := by
  simp only [Nat.xor_comm, Nat.xor_assoc, xor_left_comm]

theorem sbShape_dnpnn (a1 a2 a3 a4 a5 a6 a7 a8 a9 a10 b1 b2 b3 b4 b5 b6 b7 b8 b9 b10 : ℕ) :
    ((((((a1 ^^^ b1) ^^^ ((a2 ^^^ b2) ^^^ (a3 ^^^ b3))) ^^^ ((a4 ^^^ b4) ^^^ (a5 ^^^ b5))) ^^^ (a6 ^^^ b6)) ^^^ ((a7 ^^^ b7) ^^^ (a8 ^^^ b8))) ^^^ ((a9 ^^^ b9) ^^^ (a10 ^^^ b10))) =
      (((((a1 ^^^ (a2 ^^^ a3)) ^^^ (a4 ^^^ a5)) ^^^ a6) ^^^ (a7 ^^^ a8)) ^^^ (a9 ^^^ a10)) ^^^ (((((b1 ^^^ (b2 ^^^ b3)) ^^^ (b4 ^^^ b5)) ^^^ b6) ^^^ (b7 ^^^ b8)) ^^^ (b9 ^^^ b10)) := by
  simp only [Nat.xor_comm, Nat.xor_assoc, xor_left_comm]

theorem sbShape_dpnnnn (a1 a2 a3 a4 a5 a6 a7 a8 a9 a10 a11 a12 b1 b2 b3 b4 b5 b6 b7 b8 b9 b10 b11 b12 : ℕ) :
    (((((((a1 ^^^ b1) ^^^ ((a2 ^^^ b2) ^^^ (a3 ^^^ b3))) ^^^ (a4 ^^^ b4)) ^^^ ((a5 ^^^ b5) ^^^ (a6 ^^^ b6))) ^^^ ((a7 ^^^ b7) ^^^ (a8 ^^^ b8))) ^^^ ((a9 ^^^ b9) ^^^ (a10 ^^^ b10))) ^^^ ((a11 ^^^ b11) ^^^ (a12 ^^^ b12))) =
      ((((((a1 ^^^ (a2 ^^^ a3)) ^^^ a4) ^^^ (a5 ^^^ a6)) ^^^ (a7 ^^^ a8)) ^^^ (a9 ^^^ a10)) ^^^ (a11 ^^^ a12)) ^^^ ((((((b1 ^^^ (b2 ^^^ b3)) ^^^ b4) ^^^ (b5 ^^^ b6)) ^^^ (b7 ^^^ b8)) ^^^ (b9 ^^^ b10)) ^^^ (b11 ^^^ b12)) := by
  simp only [Nat.xor_comm, Nat.xor_assoc, xor_left_comm]

theorem sbShape_ddnnn (a1 a2 a3 a4 a5 a6 a7 a8 a9 a10 a11 a12 b1 b2 b3 b4 b5 b6 b7 b8 b9 b10 b11 b12 : ℕ) :
    ((((((a1 ^^^ b1) ^^^ ((a2 ^^^ b2) ^^^ (a3 ^^^ b3))) ^^^ ((a4 ^^^ b4) ^^^ ((a5 ^^^ b5) ^^^ (a6 ^^^ b6)))) ^^^ ((a7 ^^^ b7) ^^^ (a8 ^^^ b8))) ^^^ ((a9 ^^^ b9) ^^^ (a10 ^^^ b10))) ^^^ ((a11 ^^^ b11) ^^^ (a12 ^^^ b12))) =
      (((((a1 ^^^ (a2 ^^^ a3)) ^^^ (a4 ^^^ (a5 ^^^ a6))) ^^^ (a7 ^^^ a8)) ^^^ (a9 ^^^ a10)) ^^^ (a11 ^^^ a12)) ^^^ (((((b1 ^^^ (b2 ^^^ b3)) ^^^ (b4 ^^^ (b5 ^^^ b6))) ^^^ (b7 ^^^ b8)) ^^^ (b9 ^^^ b10)) ^^^ (b11 ^^^ b12)) := by
  simp only [Nat.xor_comm, Nat.xor_assoc, xor_left_comm]

theorem sbShape_dpnn (a1 a2 a3 a4 a5 a6 a7 a8 b1 b2 b3 b4 b5 b6 b7 b8 : ℕ) :
    (((((a1 ^^^ b1) ^^^ ((a2 ^^^ b2) ^^^ (a3 ^^^ b3))) ^^^ (a4 ^^^ b4)) ^^^ ((a5 ^^^ b5) ^^^ (a6 ^^^ b6))) ^^^ ((a7 ^^^ b7) ^^^ (a8 ^^^ b8))) =
      ((((a1 ^^^ (a2 ^^^ a3)) ^^^ a4) ^^^ (a5 ^^^ a6)) ^^^ (a7 ^^^ a8)) ^^^ ((((b1 ^^^ (b2 ^^^ b3)) ^^^ b4) ^^^ (b5 ^^^ b6)) ^^^ (b7 ^^^ b8)) := by
  simp only [Nat.xor_comm, Nat.xor_assoc, xor_left_comm]

theorem sbShape_dpn (a1 a2 a3 a4 a5 a6 b1 b2 b3 b4 b5 b6 : ℕ) :
    ((((a1 ^^^ b1) ^^^ ((a2 ^^^ b2) ^^^ (a3 ^^^ b3))) ^^^ (a4 ^^^ b4)) ^^^ ((a5 ^^^ b5) ^^^ (a6 ^^^ b6))) =
      (((a1 ^^^ (a2 ^^^ a3)) ^^^ a4) ^^^ (a5 ^^^ a6)) ^^^ (((b1 ^^^ (b2 ^^^ b3)) ^^^ b4) ^^^ (b5 ^^^ b6)) := by
  simp only [Nat.xor_comm, Nat.xor_assoc, xor_left_comm]

theorem sbShape_ddp (a1 a2 a3 a4 a5 a6 a7 b1 b2 b3 b4 b5 b6 b7 : ℕ) :
    ((((a1 ^^^ b1) ^^^ ((a2 ^^^ b2) ^^^ (a3 ^^^ b3))) ^^^ ((a4 ^^^ b4) ^^^ ((a5 ^^^ b5) ^^^ (a6 ^^^ b6)))) ^^^ (a7 ^^^ b7)) =
      (((a1 ^^^ (a2 ^^^ a3)) ^^^ (a4 ^^^ (a5 ^^^ a6))) ^^^ a7) ^^^ (((b1 ^^^ (b2 ^^^ b3)) ^^^ (b4 ^^^ (b5 ^^^ b6))) ^^^ b7) := by
  simp only [Nat.xor_comm, Nat.xor_assoc, xor_left_comm]

theorem sbShape_dd (a1 a2 a3 a4 a5 a6 b1 b2 b3 b4 b5 b6 : ℕ) :
    (((a1 ^^^ b1) ^^^ ((a2 ^^^ b2) ^^^ (a3 ^^^ b3))) ^^^ ((a4 ^^^ b4) ^^^ ((a5 ^^^ b5) ^^^ (a6 ^^^ b6)))) =
      ((a1 ^^^ (a2 ^^^ a3)) ^^^ (a4 ^^^ (a5 ^^^ a6))) ^^^ ((b1 ^^^ (b2 ^^^ b3)) ^^^ (b4 ^^^ (b5 ^^^ b6))) := by
  simp only [Nat.xor_comm, Nat.xor_assoc, xor_left_comm]

theorem sbShape_d (a1 a2 a3 b1 b2 b3 : ℕ) :
    ((a1 ^^^ b1) ^^^ ((a2 ^^^ b2) ^^^ (a3 ^^^ b3))) =
      (a1 ^^^ (a2 ^^^ a3)) ^^^ (b1 ^^^ (b2 ^^^ b3)) := by
  simp only [Nat.xor_comm, Nat.xor_assoc, xor_left_comm]

/-- Superposition through one whole superblock. -/
theorem chorbaSuperblock_xor (A B : ℕ → ℕ) (i : ℕ) (sa sb : Chorba5) :
    chorbaSuperblock (fXor A B) i (C5x sa sb) =
      C5x (chorbaSuperblock A i sa) (chorbaSuperblock B i sb) := by
  rw [superblock_decomp (fXor A B) i (C5x sa sb), superblock_decomp A i sa,
    superblock_decomp B i sb]
  simp only [leW_fXor, C5x_n1, C5x_n2, C5x_n3, C5x_n4, C5x_n5]
  rw [sbShape_ddpnnn (leW A (i + 56)) (leW A (i + 8)) (sa.n2) (leW A (i + 48)) (leW A i) (sa.n1) (leW A (i + 40)) (leW A (i + 16)) (sa.n3) (leW A (i + 24)) (sa.n4) (leW A i) (sa.n1) (leW B (i + 56)) (leW B (i + 8)) (sb.n2) (leW B (i + 48)) (leW B i) (sb.n1) (leW B (i + 40)) (leW B (i + 16)) (sb.n3) (leW B (i + 24)) (sb.n4) (leW B i) (sb.n1)]
  rw [sbShape_ddnnnn (leW A (i + 56)) (leW A (i + 8)) (sa.n2) (leW A (i + 48)) (leW A i) (sa.n1) (leW A (i + 24)) (sa.n4) (leW A (i + 32)) (sa.n5) (leW A (i + 8)) (sa.n2) (leW A i) (sa.n1) (leW B (i + 56)) (leW B (i + 8)) (sb.n2) (leW B (i + 48)) (leW B i) (sb.n1) (leW B (i + 24)) (sb.n4) (leW B (i + 32)) (sb.n5) (leW B (i + 8)) (sb.n2) (leW B i) (sb.n1)]
  rw [sbShape_ddnnnn (leW A (i + 56)) (leW A (i + 8)) (sa.n2) (leW A (i + 48)) (leW A i) (sa.n1) (leW A (i + 32)) (sa.n5) (leW A (i + 24)) (sa.n4) (leW A (i + 8)) (sa.n2) (leW A i) (sa.n1) (leW B (i + 56)) (leW B (i + 8)) (sb.n2) (leW B (i + 48)) (leW B i) (sb.n1) (leW B (i + 32)) (sb.n5) (leW B (i + 24)) (sb.n4) (leW B (i + 8)) (sb.n2) (leW B i) (sb.n1)]
  rw [sbShape_dpnnnn (leW A (i + 56)) (leW A (i + 8)) (sa.n2) (leW A (i + 40)) (leW A (i + 32)) (sa.n5) (leW A (i + 16)) (sa.n3) (leW A (i + 8)) (sa.n2) (leW A i) (sa.n1) (leW B (i + 56)) (leW B (i + 8)) (sb.n2) (leW B (i + 40)) (leW B (i + 32)) (sb.n5) (leW B (i + 16)) (sb.n3) (leW B (i + 8)) (sb.n2) (leW B i) (sb.n1)]
  rw [sbShape_pnnnn (leW A (i + 40)) (leW A (i + 32)) (sa.n5) (leW A (i + 24)) (sa.n4) (leW A i) (sa.n1) (leW A (i + 8)) (sa.n2) (leW B (i + 40)) (leW B (i + 32)) (sb.n5) (leW B (i + 24)) (sb.n4) (leW B i) (sb.n1) (leW B (i + 8)) (sb.n2)]
  rw [sbShape_dpnnn (leW A (i + 48)) (leW A i) (sa.n1) (leW A (i + 40)) (leW A (i + 32)) (sa.n5) (leW A (i + 8)) (sa.n2) (leW A (i + 16)) (sa.n3) (leW B (i + 48)) (leW B i) (sb.n1) (leW B (i + 40)) (leW B (i + 32)) (sb.n5) (leW B (i + 8)) (sb.n2) (leW B (i + 16)) (sb.n3)]
  rw [sbShape_dnpnn (leW A (i + 56)) (leW A (i + 8)) (sa.n2) (leW A (i + 32)) (sa.n5) (leW A (i + 40)) (leW A (i + 16)) (sa.n3) (leW A (i + 8)) (sa.n2) (leW B (i + 56)) (leW B (i + 8)) (sb.n2) (leW B (i + 32)) (sb.n5) (leW B (i + 40)) (leW B (i + 16)) (sb.n3) (leW B (i + 8)) (sb.n2)]
  rw [sbShape_dpnnn (leW A (i + 48)) (leW A i) (sa.n1) (leW A (i + 40)) (leW A (i + 24)) (sa.n4) (leW A (i + 16)) (sa.n3) (leW A i) (sa.n1) (leW B (i + 48)) (leW B i) (sb.n1) (leW B (i + 40)) (leW B (i + 24)) (sb.n4) (leW B (i + 16)) (sb.n3) (leW B i) (sb.n1)]
  rw [sbShape_dpnnn (leW A (i + 48)) (leW A i) (sa.n1) (leW A (i + 40)) (leW A (i + 24)) (sa.n4) (leW A (i + 16)) (sa.n3) (leW A (i + 8)) (sa.n2) (leW B (i + 48)) (leW B i) (sb.n1) (leW B (i + 40)) (leW B (i + 24)) (sb.n4) (leW B (i + 16)) (sb.n3) (leW B (i + 8)) (sb.n2)]
  rw [sbShape_ddnnn (leW A (i + 56)) (leW A (i + 8)) (sa.n2) (leW A (i + 48)) (leW A i) (sa.n1) (leW A (i + 32)) (sa.n5) (leW A (i + 24)) (sa.n4) (leW A (i + 16)) (sa.n3) (leW B (i + 56)) (leW B (i + 8)) (sb.n2) (leW B (i + 48)) (leW B i) (sb.n1) (leW B (i + 32)) (sb.n5) (leW B (i + 24)) (sb.n4) (leW B (i + 16)) (sb.n3)]
  rw [sbShape_dnnn (leW A (i + 48)) (leW A i) (sa.n1) (leW A (i + 16)) (sa.n3) (leW A (i + 8)) (sa.n2) (leW A i) (sa.n1) (leW B (i + 48)) (leW B i) (sb.n1) (leW B (i + 16)) (sb.n3) (leW B (i + 8)) (sb.n2) (leW B i) (sb.n1)]
  rw [sbShape_dnnn (leW A (i + 56)) (leW A (i + 8)) (sa.n2) (leW A (i + 24)) (sa.n4) (leW A (i + 16)) (sa.n3) (leW A (i + 8)) (sa.n2) (leW B (i + 56)) (leW B (i + 8)) (sb.n2) (leW B (i + 24)) (sb.n4) (leW B (i + 16)) (sb.n3) (leW B (i + 8)) (sb.n2)]
  rw [sbShape_nnnn (leW A (i + 32)) (sa.n5) (leW A (i + 24)) (sa.n4) (leW A (i + 16)) (sa.n3) (leW A i) (sa.n1) (leW B (i + 32)) (sb.n5) (leW B (i + 24)) (sb.n4) (leW B (i + 16)) (sb.n3) (leW B i) (sb.n1)]
  rw [sbShape_dpnn (leW A (i + 56)) (leW A (i + 8)) (sa.n2) (leW A (i + 40)) (leW A (i + 32)) (sa.n5) (leW A (i + 24)) (sa.n4) (leW B (i + 56)) (leW B (i + 8)) (sb.n2) (leW B (i + 40)) (leW B (i + 32)) (sb.n5) (leW B (i + 24)) (sb.n4)]
  rw [sbShape_nnn (leW A (i + 32)) (sa.n5) (leW A (i + 8)) (sa.n2) (leW A i) (sa.n1) (leW B (i + 32)) (sb.n5) (leW B (i + 8)) (sb.n2) (leW B i) (sb.n1)]
  rw [sbShape_pnn (leW A (i + 40)) (leW A (i + 16)) (sa.n3) (leW A (i + 8)) (sa.n2) (leW B (i + 40)) (leW B (i + 16)) (sb.n3) (leW B (i + 8)) (sb.n2)]
  rw [sbShape_dnn (leW A (i + 48)) (leW A i) (sa.n1) (leW A (i + 24)) (sa.n4) (leW A (i + 16)) (sa.n3) (leW B (i + 48)) (leW B i) (sb.n1) (leW B (i + 24)) (sb.n4) (leW B (i + 16)) (sb.n3)]
  rw [sbShape_dnn (leW A (i + 56)) (leW A (i + 8)) (sa.n2) (leW A (i + 32)) (sa.n5) (leW A (i + 24)) (sa.n4) (leW B (i + 56)) (leW B (i + 8)) (sb.n2) (leW B (i + 32)) (sb.n5) (leW B (i + 24)) (sb.n4)]
  rw [sbShape_ddn (leW A (i + 56)) (leW A (i + 8)) (sa.n2) (leW A (i + 48)) (leW A i) (sa.n1) (leW A i) (sa.n1) (leW B (i + 56)) (leW B (i + 8)) (sb.n2) (leW B (i + 48)) (leW B i) (sb.n1) (leW B i) (sb.n1)]
  rw [sbShape_pnn (leW A (i + 40)) (leW A (i + 8)) (sa.n2) (leW A i) (sa.n1) (leW B (i + 40)) (leW B (i + 8)) (sb.n2) (leW B i) (sb.n1)]
  rw [sbShape_dpn (leW A (i + 48)) (leW A i) (sa.n1) (leW A (i + 40)) (leW A (i + 32)) (sa.n5) (leW B (i + 48)) (leW B i) (sb.n1) (leW B (i + 40)) (leW B (i + 32)) (sb.n5)]
  rw [sbShape_ddp (leW A (i + 56)) (leW A (i + 8)) (sa.n2) (leW A (i + 48)) (leW A i) (sa.n1) (leW A (i + 40)) (leW B (i + 56)) (leW B (i + 8)) (sb.n2) (leW B (i + 48)) (leW B i) (sb.n1) (leW B (i + 40))]
  rw [sbShape_nn (leW A (i + 24)) (sa.n4) (leW A i) (sa.n1) (leW B (i + 24)) (sb.n4) (leW B i) (sb.n1)]
  rw [sbShape_pn (leW A (i + 40)) (leW A (i + 32)) (sa.n5) (leW B (i + 40)) (leW B (i + 32)) (sb.n5)]
  rw [sbShape_dp (leW A (i + 48)) (leW A i) (sa.n1) (leW A (i + 40)) (leW B (i + 48)) (leW B i) (sb.n1) (leW B (i + 40))]
  rw [sbShape_dn (leW A (i + 56)) (leW A (i + 8)) (sa.n2) (leW A (i + 8)) (sa.n2) (leW B (i + 56)) (leW B (i + 8)) (sb.n2) (leW B (i + 8)) (sb.n2)]
  rw [sbShape_nn (leW A (i + 32)) (sa.n5) (leW A i) (sa.n1) (leW B (i + 32)) (sb.n5) (leW B i) (sb.n1)]
  rw [sbShape_dd (leW A (i + 56)) (leW A (i + 8)) (sa.n2) (leW A (i + 48)) (leW A i) (sa.n1) (leW B (i + 56)) (leW B (i + 8)) (sb.n2) (leW B (i + 48)) (leW B i) (sb.n1)]
  rw [sbShape_n (leW A (i + 16)) (sa.n3) (leW B (i + 16)) (sb.n3)]
  rw [sbShape_n (leW A (i + 24)) (sa.n4) (leW B (i + 24)) (sb.n4)]
  rw [sbShape_d (leW A (i + 56)) (leW A (i + 8)) (sa.n2) (leW B (i + 56)) (leW B (i + 8)) (sb.n2)]
  exact quadChain8_xor A B i
    ((leW A (i + 16) ^^^ sa.n3))
    (((leW A (i + 24) ^^^ sa.n4) ^^^ (leW A i ^^^ sa.n1)))
    ((((leW A (i + 32) ^^^ sa.n5) ^^^ (leW A (i + 8) ^^^ sa.n2)) ^^^ (leW A i ^^^ sa.n1)))
    (((leW A (i + 40) ^^^ (leW A (i + 16) ^^^ sa.n3)) ^^^ (leW A (i + 8) ^^^ sa.n2)))
    ((((leW A (i + 48) ^^^ (leW A i ^^^ sa.n1)) ^^^ (leW A (i + 24) ^^^ sa.n4)) ^^^ (leW A (i + 16) ^^^ sa.n3)))
    ((((leW A (i + 56) ^^^ (leW A (i + 8) ^^^ sa.n2)) ^^^ (leW A (i + 32) ^^^ sa.n5)) ^^^ (leW A (i + 24) ^^^ sa.n4)))
    ((leW A (i + 40) ^^^ (leW A (i + 32) ^^^ sa.n5)))
    (((leW A (i + 48) ^^^ (leW A i ^^^ sa.n1)) ^^^ leW A (i + 40)))
    ((((leW A (i + 56) ^^^ (leW A (i + 8) ^^^ sa.n2)) ^^^ (leW A (i + 48) ^^^ (leW A i ^^^ sa.n1))) ^^^ (leW A i ^^^ sa.n1)))
    (((leW A (i + 56) ^^^ (leW A (i + 8) ^^^ sa.n2)) ^^^ (leW A (i + 8) ^^^ sa.n2)))
    ((leW A (i + 16) ^^^ sa.n3))
    ((leW A (i + 24) ^^^ sa.n4))
    (((leW A (i + 32) ^^^ sa.n5) ^^^ (leW A i ^^^ sa.n1)))
    (((leW A (i + 40) ^^^ (leW A (i + 8) ^^^ sa.n2)) ^^^ (leW A i ^^^ sa.n1)))
    (((((leW A (i + 48) ^^^ (leW A i ^^^ sa.n1)) ^^^ (leW A (i + 16) ^^^ sa.n3)) ^^^ (leW A (i + 8) ^^^ sa.n2)) ^^^ (leW A i ^^^ sa.n1)))
    (((((leW A (i + 56) ^^^ (leW A (i + 8) ^^^ sa.n2)) ^^^ (leW A (i + 24) ^^^ sa.n4)) ^^^ (leW A (i + 16) ^^^ sa.n3)) ^^^ (leW A (i + 8) ^^^ sa.n2)))
    (((((leW A (i + 32) ^^^ sa.n5) ^^^ (leW A (i + 24) ^^^ sa.n4)) ^^^ (leW A (i + 16) ^^^ sa.n3)) ^^^ (leW A i ^^^ sa.n1)))
    (((((leW A (i + 40) ^^^ (leW A (i + 32) ^^^ sa.n5)) ^^^ (leW A (i + 24) ^^^ sa.n4)) ^^^ (leW A i ^^^ sa.n1)) ^^^ (leW A (i + 8) ^^^ sa.n2)))
    ((((((leW A (i + 48) ^^^ (leW A i ^^^ sa.n1)) ^^^ leW A (i + 40)) ^^^ (leW A (i + 32) ^^^ sa.n5)) ^^^ (leW A (i + 8) ^^^ sa.n2)) ^^^ (leW A (i + 16) ^^^ sa.n3)))
    (((((((leW A (i + 56) ^^^ (leW A (i + 8) ^^^ sa.n2)) ^^^ (leW A (i + 48) ^^^ (leW A i ^^^ sa.n1))) ^^^ leW A (i + 40)) ^^^ (leW A (i + 16) ^^^ sa.n3)) ^^^ (leW A (i + 24) ^^^ sa.n4)) ^^^ (leW A i ^^^ sa.n1)))
    (((((((leW A (i + 56) ^^^ (leW A (i + 8) ^^^ sa.n2)) ^^^ (leW A (i + 48) ^^^ (leW A i ^^^ sa.n1))) ^^^ (leW A (i + 24) ^^^ sa.n4)) ^^^ (leW A (i + 32) ^^^ sa.n5)) ^^^ (leW A (i + 8) ^^^ sa.n2)) ^^^ (leW A i ^^^ sa.n1)))
    ((((((leW A (i + 56) ^^^ (leW A (i + 8) ^^^ sa.n2)) ^^^ (leW A (i + 32) ^^^ sa.n5)) ^^^ leW A (i + 40)) ^^^ (leW A (i + 16) ^^^ sa.n3)) ^^^ (leW A (i + 8) ^^^ sa.n2)))
    ((((((leW A (i + 48) ^^^ (leW A i ^^^ sa.n1)) ^^^ leW A (i + 40)) ^^^ (leW A (i + 24) ^^^ sa.n4)) ^^^ (leW A (i + 16) ^^^ sa.n3)) ^^^ (leW A i ^^^ sa.n1)))
    (((((((leW A (i + 56) ^^^ (leW A (i + 8) ^^^ sa.n2)) ^^^ (leW A (i + 48) ^^^ (leW A i ^^^ sa.n1))) ^^^ (leW A (i + 32) ^^^ sa.n5)) ^^^ (leW A (i + 24) ^^^ sa.n4)) ^^^ (leW A (i + 8) ^^^ sa.n2)) ^^^ (leW A i ^^^ sa.n1)))
    (((((((leW A (i + 56) ^^^ (leW A (i + 8) ^^^ sa.n2)) ^^^ leW A (i + 40)) ^^^ (leW A (i + 32) ^^^ sa.n5)) ^^^ (leW A (i + 16) ^^^ sa.n3)) ^^^ (leW A (i + 8) ^^^ sa.n2)) ^^^ (leW A i ^^^ sa.n1)))
    ((((((leW A (i + 48) ^^^ (leW A i ^^^ sa.n1)) ^^^ leW A (i + 40)) ^^^ (leW A (i + 24) ^^^ sa.n4)) ^^^ (leW A (i + 16) ^^^ sa.n3)) ^^^ (leW A (i + 8) ^^^ sa.n2)))
    ((((((leW A (i + 56) ^^^ (leW A (i + 8) ^^^ sa.n2)) ^^^ (leW A (i + 48) ^^^ (leW A i ^^^ sa.n1))) ^^^ (leW A (i + 32) ^^^ sa.n5)) ^^^ (leW A (i + 24) ^^^ sa.n4)) ^^^ (leW A (i + 16) ^^^ sa.n3)))
    (((((leW A (i + 56) ^^^ (leW A (i + 8) ^^^ sa.n2)) ^^^ leW A (i + 40)) ^^^ (leW A (i + 32) ^^^ sa.n5)) ^^^ (leW A (i + 24) ^^^ sa.n4)))
    ((((leW A (i + 48) ^^^ (leW A i ^^^ sa.n1)) ^^^ leW A (i + 40)) ^^^ (leW A (i + 32) ^^^ sa.n5)))
    ((((leW A (i + 56) ^^^ (leW A (i + 8) ^^^ sa.n2)) ^^^ (leW A (i + 48) ^^^ (leW A i ^^^ sa.n1))) ^^^ leW A (i + 40)))
    (((leW A (i + 56) ^^^ (leW A (i + 8) ^^^ sa.n2)) ^^^ (leW A (i + 48) ^^^ (leW A i ^^^ sa.n1))))
    ((leW A (i + 56) ^^^ (leW A (i + 8) ^^^ sa.n2)))
    ((leW B (i + 16) ^^^ sb.n3))
    (((leW B (i + 24) ^^^ sb.n4) ^^^ (leW B i ^^^ sb.n1)))
    ((((leW B (i + 32) ^^^ sb.n5) ^^^ (leW B (i + 8) ^^^ sb.n2)) ^^^ (leW B i ^^^ sb.n1)))
    (((leW B (i + 40) ^^^ (leW B (i + 16) ^^^ sb.n3)) ^^^ (leW B (i + 8) ^^^ sb.n2)))
    ((((leW B (i + 48) ^^^ (leW B i ^^^ sb.n1)) ^^^ (leW B (i + 24) ^^^ sb.n4)) ^^^ (leW B (i + 16) ^^^ sb.n3)))
    ((((leW B (i + 56) ^^^ (leW B (i + 8) ^^^ sb.n2)) ^^^ (leW B (i + 32) ^^^ sb.n5)) ^^^ (leW B (i + 24) ^^^ sb.n4)))
    ((leW B (i + 40) ^^^ (leW B (i + 32) ^^^ sb.n5)))
    (((leW B (i + 48) ^^^ (leW B i ^^^ sb.n1)) ^^^ leW B (i + 40)))
    ((((leW B (i + 56) ^^^ (leW B (i + 8) ^^^ sb.n2)) ^^^ (leW B (i + 48) ^^^ (leW B i ^^^ sb.n1))) ^^^ (leW B i ^^^ sb.n1)))
    (((leW B (i + 56) ^^^ (leW B (i + 8) ^^^ sb.n2)) ^^^ (leW B (i + 8) ^^^ sb.n2)))
    ((leW B (i + 16) ^^^ sb.n3))
    ((leW B (i + 24) ^^^ sb.n4))
    (((leW B (i + 32) ^^^ sb.n5) ^^^ (leW B i ^^^ sb.n1)))
    (((leW B (i + 40) ^^^ (leW B (i + 8) ^^^ sb.n2)) ^^^ (leW B i ^^^ sb.n1)))
    (((((leW B (i + 48) ^^^ (leW B i ^^^ sb.n1)) ^^^ (leW B (i + 16) ^^^ sb.n3)) ^^^ (leW B (i + 8) ^^^ sb.n2)) ^^^ (leW B i ^^^ sb.n1)))
    (((((leW B (i + 56) ^^^ (leW B (i + 8) ^^^ sb.n2)) ^^^ (leW B (i + 24) ^^^ sb.n4)) ^^^ (leW B (i + 16) ^^^ sb.n3)) ^^^ (leW B (i + 8) ^^^ sb.n2)))
    (((((leW B (i + 32) ^^^ sb.n5) ^^^ (leW B (i + 24) ^^^ sb.n4)) ^^^ (leW B (i + 16) ^^^ sb.n3)) ^^^ (leW B i ^^^ sb.n1)))
    (((((leW B (i + 40) ^^^ (leW B (i + 32) ^^^ sb.n5)) ^^^ (leW B (i + 24) ^^^ sb.n4)) ^^^ (leW B i ^^^ sb.n1)) ^^^ (leW B (i + 8) ^^^ sb.n2)))
    ((((((leW B (i + 48) ^^^ (leW B i ^^^ sb.n1)) ^^^ leW B (i + 40)) ^^^ (leW B (i + 32) ^^^ sb.n5)) ^^^ (leW B (i + 8) ^^^ sb.n2)) ^^^ (leW B (i + 16) ^^^ sb.n3)))
    (((((((leW B (i + 56) ^^^ (leW B (i + 8) ^^^ sb.n2)) ^^^ (leW B (i + 48) ^^^ (leW B i ^^^ sb.n1))) ^^^ leW B (i + 40)) ^^^ (leW B (i + 16) ^^^ sb.n3)) ^^^ (leW B (i + 24) ^^^ sb.n4)) ^^^ (leW B i ^^^ sb.n1)))
    (((((((leW B (i + 56) ^^^ (leW B (i + 8) ^^^ sb.n2)) ^^^ (leW B (i + 48) ^^^ (leW B i ^^^ sb.n1))) ^^^ (leW B (i + 24) ^^^ sb.n4)) ^^^ (leW B (i + 32) ^^^ sb.n5)) ^^^ (leW B (i + 8) ^^^ sb.n2)) ^^^ (leW B i ^^^ sb.n1)))
    ((((((leW B (i + 56) ^^^ (leW B (i + 8) ^^^ sb.n2)) ^^^ (leW B (i + 32) ^^^ sb.n5)) ^^^ leW B (i + 40)) ^^^ (leW B (i + 16) ^^^ sb.n3)) ^^^ (leW B (i + 8) ^^^ sb.n2)))
    ((((((leW B (i + 48) ^^^ (leW B i ^^^ sb.n1)) ^^^ leW B (i + 40)) ^^^ (leW B (i + 24) ^^^ sb.n4)) ^^^ (leW B (i + 16) ^^^ sb.n3)) ^^^ (leW B i ^^^ sb.n1)))
    (((((((leW B (i + 56) ^^^ (leW B (i + 8) ^^^ sb.n2)) ^^^ (leW B (i + 48) ^^^ (leW B i ^^^ sb.n1))) ^^^ (leW B (i + 32) ^^^ sb.n5)) ^^^ (leW B (i + 24) ^^^ sb.n4)) ^^^ (leW B (i + 8) ^^^ sb.n2)) ^^^ (leW B i ^^^ sb.n1)))
    (((((((leW B (i + 56) ^^^ (leW B (i + 8) ^^^ sb.n2)) ^^^ leW B (i + 40)) ^^^ (leW B (i + 32) ^^^ sb.n5)) ^^^ (leW B (i + 16) ^^^ sb.n3)) ^^^ (leW B (i + 8) ^^^ sb.n2)) ^^^ (leW B i ^^^ sb.n1)))
    ((((((leW B (i + 48) ^^^ (leW B i ^^^ sb.n1)) ^^^ leW B (i + 40)) ^^^ (leW B (i + 24) ^^^ sb.n4)) ^^^ (leW B (i + 16) ^^^ sb.n3)) ^^^ (leW B (i + 8) ^^^ sb.n2)))
    ((((((leW B (i + 56) ^^^ (leW B (i + 8) ^^^ sb.n2)) ^^^ (leW B (i + 48) ^^^ (leW B i ^^^ sb.n1))) ^^^ (leW B (i + 32) ^^^ sb.n5)) ^^^ (leW B (i + 24) ^^^ sb.n4)) ^^^ (leW B (i + 16) ^^^ sb.n3)))
    (((((leW B (i + 56) ^^^ (leW B (i + 8) ^^^ sb.n2)) ^^^ leW B (i + 40)) ^^^ (leW B (i + 32) ^^^ sb.n5)) ^^^ (leW B (i + 24) ^^^ sb.n4)))
    ((((leW B (i + 48) ^^^ (leW B i ^^^ sb.n1)) ^^^ leW B (i + 40)) ^^^ (leW B (i + 32) ^^^ sb.n5)))
    ((((leW B (i + 56) ^^^ (leW B (i + 8) ^^^ sb.n2)) ^^^ (leW B (i + 48) ^^^ (leW B i ^^^ sb.n1))) ^^^ leW B (i + 40)))
    (((leW B (i + 56) ^^^ (leW B (i + 8) ^^^ sb.n2)) ^^^ (leW B (i + 48) ^^^ (leW B i ^^^ sb.n1))))
    ((leW B (i + 56) ^^^ (leW B (i + 8) ^^^ sb.n2)))
    sa sb

theorem BRx_c0 (a b : BraidSt) : (BRx a b).c0 = a.c0 ^^^ b.c0 := rfl

theorem BRx_c1 (a b : BraidSt) : (BRx a b).c1 = a.c1 ^^^ b.c1 := rfl

theorem BRx_c2 (a b : BraidSt) : (BRx a b).c2 = a.c2 ^^^ b.c2 := rfl

theorem BRx_c3 (a b : BraidSt) : (BRx a b).c3 = a.c3 ^^^ b.c3 := rfl

theorem BRx_c4 (a b : BraidSt) : (BRx a b).c4 = a.c4 ^^^ b.c4 := rfl

theorem BRx_init (x y : ℕ) :
    (⟨x ^^^ y, 0, 0, 0, 0⟩ : BraidSt) = BRx ⟨x, 0, 0, 0, 0⟩ ⟨y, 0, 0, 0, 0⟩ := by
  simp [BRx]

theorem C5x_init (x y : ℕ) :
    (⟨x ^^^ y, 0, 0, 0, 0⟩ : Chorba5) = C5x ⟨x, 0, 0, 0, 0⟩ ⟨y, 0, 0, 0, 0⟩ := by
  simp [C5x]

theorem braidBlockStep_xor (A B : ℕ → ℕ) (off : ℕ) (sa sb : BraidSt) :
    braidBlockStep (fXor A B) off (BRx sa sb) =
      BRx (braidBlockStep A off sa) (braidBlockStep B off sb) := by
  unfold braidBlockStep
  simp only [BRx_c0, BRx_c1, BRx_c2, BRx_c3, BRx_c4, leW_fXor]
  simp only [BRx, BraidSt.mk.injEq]
  refine ⟨?_, ?_, ?_, ?_, ?_⟩
  · rw [xor_mix sa.c0 sb.c0 (leW A off) (leW B off), braidLook_xor]
  · rw [xor_mix sa.c1 sb.c1 (leW A (off + 8)) (leW B (off + 8)), braidLook_xor]
  · rw [xor_mix sa.c2 sb.c2 (leW A (off + 16)) (leW B (off + 16)), braidLook_xor]
  · rw [xor_mix sa.c3 sb.c3 (leW A (off + 24)) (leW B (off + 24)), braidLook_xor]
  · rw [xor_mix sa.c4 sb.c4 (leW A (off + 32)) (leW B (off + 32)), braidLook_xor]

theorem braidBlocks_xor (A B : ℕ → ℕ) :
    ∀ blks off sa sb, braidBlocks (fXor A B) blks off (BRx sa sb) =
      BRx (braidBlocks A blks off sa) (braidBlocks B blks off sb) := by
  intro blks
  induction blks using Nat.strong_induction_on with
  | _ blks ih =>
      match blks with
      | 0 => intro off sa sb; rfl
      | 1 => intro off sa sb; rfl
      | b + 2 =>
          intro off sa sb
          show braidBlocks (fXor A B) (b + 1) (off + 40)
              (braidBlockStep (fXor A B) off (BRx sa sb)) = _
          rw [braidBlockStep_xor, ih (b + 1) (by omega)]
          rfl

theorem braidLast_xor (A B : ℕ → ℕ) (off : ℕ) (sa sb : BraidSt) :
    braidLast (fXor A B) off (BRx sa sb) =
      braidLast A off sa ^^^ braidLast B off sb := by
  unfold braidLast
  simp only [BRx_c0, BRx_c1, BRx_c2, BRx_c3, BRx_c4, leW_fXor]
  rw [xor_mix sa.c0 sb.c0 (leW A off) (leW B off),
    crcWord_xor (sa.c0 ^^^ leW A off) (sb.c0 ^^^ leW B off)]
  rw [xor_mix3 sa.c1 sb.c1 (leW A (off + 8)) (leW B (off + 8))
      (crcWord (sa.c0 ^^^ leW A off))
      (crcWord (sb.c0 ^^^ leW B off)),
    crcWord_xor (sa.c1 ^^^ leW A (off + 8) ^^^ crcWord (sa.c0 ^^^ leW A off))
      (sb.c1 ^^^ leW B (off + 8) ^^^ crcWord (sb.c0 ^^^ leW B off))]
  rw [xor_mix3 sa.c2 sb.c2 (leW A (off + 16)) (leW B (off + 16))
      (crcWord (sa.c1 ^^^ leW A (off + 8) ^^^ crcWord (sa.c0 ^^^ leW A off)))
      (crcWord (sb.c1 ^^^ leW B (off + 8) ^^^ crcWord (sb.c0 ^^^ leW B off))),
    crcWord_xor (sa.c2 ^^^ leW A (off + 16) ^^^ crcWord (sa.c1 ^^^ leW A (off + 8) ^^^ crcWord (sa.c0 ^^^ leW A off)))
      (sb.c2 ^^^ leW B (off + 16) ^^^ crcWord (sb.c1 ^^^ leW B (off + 8) ^^^ crcWord (sb.c0 ^^^ leW B off)))]
  rw [xor_mix3 sa.c3 sb.c3 (leW A (off + 24)) (leW B (off + 24))
      (crcWord (sa.c2 ^^^ leW A (off + 16) ^^^ crcWord (sa.c1 ^^^ leW A (off + 8) ^^^ crcWord (sa.c0 ^^^ leW A off))))
      (crcWord (sb.c2 ^^^ leW B (off + 16) ^^^ crcWord (sb.c1 ^^^ leW B (off + 8) ^^^ crcWord (sb.c0 ^^^ leW B off)))),
    crcWord_xor (sa.c3 ^^^ leW A (off + 24) ^^^ crcWord (sa.c2 ^^^ leW A (off + 16) ^^^ crcWord (sa.c1 ^^^ leW A (off + 8) ^^^ crcWord (sa.c0 ^^^ leW A off))))
      (sb.c3 ^^^ leW B (off + 24) ^^^ crcWord (sb.c2 ^^^ leW B (off + 16) ^^^ crcWord (sb.c1 ^^^ leW B (off + 8) ^^^ crcWord (sb.c0 ^^^ leW B off))))]
  rw [xor_mix3 sa.c4 sb.c4 (leW A (off + 32)) (leW B (off + 32))
      (crcWord (sa.c3 ^^^ leW A (off + 24) ^^^ crcWord (sa.c2 ^^^ leW A (off + 16) ^^^ crcWord (sa.c1 ^^^ leW A (off + 8) ^^^ crcWord (sa.c0 ^^^ leW A off)))))
      (crcWord (sb.c3 ^^^ leW B (off + 24) ^^^ crcWord (sb.c2 ^^^ leW B (off + 16) ^^^ crcWord (sb.c1 ^^^ leW B (off + 8) ^^^ crcWord (sb.c0 ^^^ leW B off))))),
    crcWord_xor (sa.c4 ^^^ leW A (off + 32) ^^^ crcWord (sa.c3 ^^^ leW A (off + 24) ^^^ crcWord (sa.c2 ^^^ leW A (off + 16) ^^^ crcWord (sa.c1 ^^^ leW A (off + 8) ^^^ crcWord (sa.c0 ^^^ leW A off)))))
      (sb.c4 ^^^ leW B (off + 32) ^^^ crcWord (sb.c3 ^^^ leW B (off + 24) ^^^ crcWord (sb.c2 ^^^ leW B (off + 16) ^^^ crcWord (sb.c1 ^^^ leW B (off + 8) ^^^ crcWord (sb.c0 ^^^ leW B off)))))]

/-- Superposition through `crc32_braid_base`. -/
theorem crc32BraidBase_xor (cA cB addr : ℕ) (A B : ℕ → ℕ) (len : ℕ) :
    crc32BraidBase (cA ^^^ cB) addr (fXor A B) len =
      crc32BraidBase cA addr A len ^^^ crc32BraidBase cB addr B len := by
  unfold crc32BraidBase
  split_ifs with h
  · dsimp only
    rw [crcRange_fXor A B ((8 - addr % 8) % 8) 0 cA cB,
      BRx_init (crcRange A ((8 - addr % 8) % 8) 0 cA)
        (crcRange B ((8 - addr % 8) % 8) 0 cB),
      braidBlocks_xor A B, braidLast_xor A B, crcRange_fXor A B]
  · exact crcRange_fXor A B len 0 cA cB

theorem tailMem_fXor (A B : ℕ → ℕ) (i len : ℕ) :
    tailMem (fXor A B) i len = fXor (tailMem A i len) (tailMem B i len) := by
  funext j
  show tailMem (fXor A B) i len j = tailMem A i len j ^^^ tailMem B i len j
  unfold tailMem
  split_ifs with h
  · exact readByte_fXor A B (i + j)
  · rfl

theorem tailWord_fXor (A B : ℕ → ℕ) (i len : ℕ) (sa sb : Chorba5) (k : ℕ) :
    tailWord (fXor A B) i len (C5x sa sb) k =
      tailWord A i len sa k ^^^ tailWord B i len sb k := by
  unfold tailWord
  rw [tailMem_fXor, leW_fXor]
  simp only [C5x_n1, C5x_n2, C5x_n3, C5x_n4, C5x_n5]
  split_ifs <;> first | exact xor_mix _ _ _ _ | simp

theorem tailBytes_fXor (A B : ℕ → ℕ) (i len : ℕ) (sa sb : Chorba5) :
    tailBytes (fXor A B) i len (C5x sa sb) =
      fXor (tailBytes A i len sa) (tailBytes B i len sb) := by
  funext j
  show tailBytes (fXor A B) i len (C5x sa sb) j =
    tailBytes A i len sa j ^^^ tailBytes B i len sb j
  unfold tailBytes
  rw [tailWord_fXor, xor_shiftRight, xor_mod_256]

/-- Superposition through `chorba_small_nondestructive`. -/
theorem chorbaSmallNondestructive_xor (cA cB : ℕ) (A B : ℕ → ℕ) (len : ℕ) :
    chorbaSmallNondestructive (cA ^^^ cB) (fXor A B) len =
      chorbaSmallNondestructive cA A len ^^^ chorbaSmallNondestructive cB B len := by
  unfold chorbaSmallNondestructive chorbaSmallLoop1 chorbaSmallLoop2
  dsimp only
  rw [C5x_init cA cB]
  rw [cFor_xor (fun i => decide (i + 256 + 40 + 32 + 32 < len)) 320 C5x
    (chorbaSuperblock A) (chorbaSuperblock B) (chorbaSuperblock (fXor A B))
    (chorbaSuperblock_xor A B) len 0 ⟨cA, 0, 0, 0, 0⟩ ⟨cB, 0, 0, 0, 0⟩]
  dsimp only
  rw [cFor_xor (fun i => decide (i + 40 + 32 < len)) 32 C5x
    (fun i s => chorbaQuad A i 0 0 0 0 s false) (fun i s => chorbaQuad B i 0 0 0 0 s false)
    (fun i s => chorbaQuad (fXor A B) i 0 0 0 0 s false)
    (fun i sa sb => chorbaQuad_xor0 A B i sa sb false) len (cFor (fun i => decide (i + 256 + 40 + 32 + 32 < len)) 320 (chorbaSuperblock A) len 0 ⟨cA, 0, 0, 0, 0⟩).1
    (cFor (fun i => decide (i + 256 + 40 + 32 + 32 < len)) 320 (chorbaSuperblock A) len 0 ⟨cA, 0, 0, 0, 0⟩).2 (cFor (fun i => decide (i + 256 + 40 + 32 + 32 < len)) 320 (chorbaSuperblock B) len 0 ⟨cB, 0, 0, 0, 0⟩).2]
  dsimp only
  rw [tailBytes_fXor A B (cFor (fun i => decide (i + 40 + 32 < len)) 32 (fun i s => chorbaQuad A i 0 0 0 0 s false) len (cFor (fun i => decide (i + 256 + 40 + 32 + 32 < len)) 320 (chorbaSuperblock A) len 0 ⟨cA, 0, 0, 0, 0⟩).1 (cFor (fun i => decide (i + 256 + 40 + 32 + 32 < len)) 320 (chorbaSuperblock A) len 0 ⟨cA, 0, 0, 0, 0⟩).2).1 len
    (cFor (fun i => decide (i + 40 + 32 < len)) 32 (fun i s => chorbaQuad A i 0 0 0 0 s false) len (cFor (fun i => decide (i + 256 + 40 + 32 + 32 < len)) 320 (chorbaSuperblock A) len 0 ⟨cA, 0, 0, 0, 0⟩).1 (cFor (fun i => decide (i + 256 + 40 + 32 + 32 < len)) 320 (chorbaSuperblock A) len 0 ⟨cA, 0, 0, 0, 0⟩).2).2 (cFor (fun i => decide (i + 40 + 32 < len)) 32 (fun i s => chorbaQuad B i 0 0 0 0 s false) len (cFor (fun i => decide (i + 256 + 40 + 32 + 32 < len)) 320 (chorbaSuperblock A) len 0 ⟨cA, 0, 0, 0, 0⟩).1 (cFor (fun i => decide (i + 256 + 40 + 32 + 32 < len)) 320 (chorbaSuperblock B) len 0 ⟨cB, 0, 0, 0, 0⟩).2).2]
  have hf1 : (cFor (fun i => decide (i + 256 + 40 + 32 + 32 < len)) 320 (chorbaSuperblock B) len 0 ⟨cB, 0, 0, 0, 0⟩).1 = (cFor (fun i => decide (i + 256 + 40 + 32 + 32 < len)) 320 (chorbaSuperblock A) len 0 ⟨cA, 0, 0, 0, 0⟩).1 :=
    cFor_fst_eq _ 320 (chorbaSuperblock B) (chorbaSuperblock A) len 0 _ _
  rw [hf1]
  have hf2 : (cFor (fun i => decide (i + 40 + 32 < len)) 32 (fun i s => chorbaQuad B i 0 0 0 0 s false) len (cFor (fun i => decide (i + 256 + 40 + 32 + 32 < len)) 320 (chorbaSuperblock A) len 0 ⟨cA, 0, 0, 0, 0⟩).1 (cFor (fun i => decide (i + 256 + 40 + 32 + 32 < len)) 320 (chorbaSuperblock B) len 0 ⟨cB, 0, 0, 0, 0⟩).2).1 = (cFor (fun i => decide (i + 40 + 32 < len)) 32 (fun i s => chorbaQuad A i 0 0 0 0 s false) len (cFor (fun i => decide (i + 256 + 40 + 32 + 32 < len)) 320 (chorbaSuperblock A) len 0 ⟨cA, 0, 0, 0, 0⟩).1 (cFor (fun i => decide (i + 256 + 40 + 32 + 32 < len)) 320 (chorbaSuperblock A) len 0 ⟨cA, 0, 0, 0, 0⟩).2).1 :=
    cFor_fst_eq _ 32 (fun i s => chorbaQuad B i 0 0 0 0 s false) (fun i s => chorbaQuad A i 0 0 0 0 s false) len _ _ _
  rw [hf2]
  have h := crc32BraidBase_xor 0 0 0 (tailBytes A (cFor (fun i => decide (i + 40 + 32 < len)) 32 (fun i s => chorbaQuad A i 0 0 0 0 s false) len (cFor (fun i => decide (i + 256 + 40 + 32 + 32 < len)) 320 (chorbaSuperblock A) len 0 ⟨cA, 0, 0, 0, 0⟩).1 (cFor (fun i => decide (i + 256 + 40 + 32 + 32 < len)) 320 (chorbaSuperblock A) len 0 ⟨cA, 0, 0, 0, 0⟩).2).1 len (cFor (fun i => decide (i + 40 + 32 < len)) 32 (fun i s => chorbaQuad A i 0 0 0 0 s false) len (cFor (fun i => decide (i + 256 + 40 + 32 + 32 < len)) 320 (chorbaSuperblock A) len 0 ⟨cA, 0, 0, 0, 0⟩).1 (cFor (fun i => decide (i + 256 + 40 + 32 + 32 < len)) 320 (chorbaSuperblock A) len 0 ⟨cA, 0, 0, 0, 0⟩).2).2)
    (tailBytes B (cFor (fun i => decide (i + 40 + 32 < len)) 32 (fun i s => chorbaQuad A i 0 0 0 0 s false) len (cFor (fun i => decide (i + 256 + 40 + 32 + 32 < len)) 320 (chorbaSuperblock A) len 0 ⟨cA, 0, 0, 0, 0⟩).1 (cFor (fun i => decide (i + 256 + 40 + 32 + 32 < len)) 320 (chorbaSuperblock A) len 0 ⟨cA, 0, 0, 0, 0⟩).2).1 len (cFor (fun i => decide (i + 40 + 32 < len)) 32 (fun i s => chorbaQuad B i 0 0 0 0 s false) len (cFor (fun i => decide (i + 256 + 40 + 32 + 32 < len)) 320 (chorbaSuperblock A) len 0 ⟨cA, 0, 0, 0, 0⟩).1 (cFor (fun i => decide (i + 256 + 40 + 32 + 32 < len)) 320 (chorbaSuperblock B) len 0 ⟨cB, 0, 0, 0, 0⟩).2).2) (len - (cFor (fun i => decide (i + 40 + 32 < len)) 32 (fun i s => chorbaQuad A i 0 0 0 0 s false) len (cFor (fun i => decide (i + 256 + 40 + 32 + 32 < len)) 320 (chorbaSuperblock A) len 0 ⟨cA, 0, 0, 0, 0⟩).1 (cFor (fun i => decide (i + 256 + 40 + 32 + 32 < len)) 320 (chorbaSuperblock A) len 0 ⟨cA, 0, 0, 0, 0⟩).2).1)
  simpa using h
theorem bsXor_n1 (a b : BigSt) : (bsXor a b).n1 = a.n1 ^^^ b.n1 := rfl

theorem bsXor_n2 (a b : BigSt) : (bsXor a b).n2 = a.n2 ^^^ b.n2 := rfl

theorem bsXor_n3 (a b : BigSt) : (bsXor a b).n3 = a.n3 ^^^ b.n3 := rfl

theorem bsXor_n4 (a b : BigSt) : (bsXor a b).n4 = a.n4 ^^^ b.n4 := rfl

theorem bsXor_n5 (a b : BigSt) : (bsXor a b).n5 = a.n5 ^^^ b.n5 := rfl

theorem bsXor_n6 (a b : BigSt) : (bsXor a b).n6 = a.n6 ^^^ b.n6 := rfl

theorem bsXor_n7 (a b : BigSt) : (bsXor a b).n7 = a.n7 ^^^ b.n7 := rfl

theorem bsXor_n8 (a b : BigSt) : (bsXor a b).n8 = a.n8 ^^^ b.n8 := rfl

theorem bsXor_n9 (a b : BigSt) : (bsXor a b).n9 = a.n9 ^^^ b.n9 := rfl

theorem bsXor_n10 (a b : BigSt) : (bsXor a b).n10 = a.n10 ^^^ b.n10 := rfl

theorem bsXor_n11 (a b : BigSt) : (bsXor a b).n11 = a.n11 ^^^ b.n11 := rfl

theorem bsXor_n12 (a b : BigSt) : (bsXor a b).n12 = a.n12 ^^^ b.n12 := rfl

theorem bsXor_n13 (a b : BigSt) : (bsXor a b).n13 = a.n13 ^^^ b.n13 := rfl

theorem bsXor_n14 (a b : BigSt) : (bsXor a b).n14 = a.n14 ^^^ b.n14 := rfl

theorem bsXor_n15 (a b : BigSt) : (bsXor a b).n15 = a.n15 ^^^ b.n15 := rfl

theorem bsXor_n16 (a b : BigSt) : (bsXor a b).n16 = a.n16 ^^^ b.n16 := rfl

theorem bsXor_n17 (a b : BigSt) : (bsXor a b).n17 = a.n17 ^^^ b.n17 := rfl

theorem bsXor_n18 (a b : BigSt) : (bsXor a b).n18 = a.n18 ^^^ b.n18 := rfl

theorem bsXor_n19 (a b : BigSt) : (bsXor a b).n19 = a.n19 ^^^ b.n19 := rfl

theorem bsXor_n20 (a b : BigSt) : (bsXor a b).n20 = a.n20 ^^^ b.n20 := rfl

theorem bsXor_n21 (a b : BigSt) : (bsXor a b).n21 = a.n21 ^^^ b.n21 := rfl

theorem bsXor_n22 (a b : BigSt) : (bsXor a b).n22 = a.n22 ^^^ b.n22 := rfl

theorem bsXor_ring (a b : BigSt) : (bsXor a b).ring = a.ring ^^^ b.ring := rfl

theorem bsIn_eq_0 (input : ℕ → ℕ) (mode i : ℕ) (st : BigSt) :
    bigStrideIn input mode i st 0 =
      leW input (8 * (i / 8 + 0)) ^^^ st.n1 ^^^ (if mode = 2 ∨ mode = 1 ∧ 22 ≤ 0 then bbGet st.ring (i / 8 % bbWords + 0) else 0) := rfl

theorem bsIn_eq_1 (input : ℕ → ℕ) (mode i : ℕ) (st : BigSt) :
    bigStrideIn input mode i st 1 =
      leW input (8 * (i / 8 + 1)) ^^^ st.n2 ^^^ (if mode = 2 ∨ mode = 1 ∧ 22 ≤ 1 then bbGet st.ring (i / 8 % bbWords + 1) else 0) := rfl

theorem bsIn_eq_2 (input : ℕ → ℕ) (mode i : ℕ) (st : BigSt) :
    bigStrideIn input mode i st 2 =
      leW input (8 * (i / 8 + 2)) ^^^ st.n3 ^^^ (if mode = 2 ∨ mode = 1 ∧ 22 ≤ 2 then bbGet st.ring (i / 8 % bbWords + 2) else 0) := rfl

theorem bsIn_eq_3 (input : ℕ → ℕ) (mode i : ℕ) (st : BigSt) :
    bigStrideIn input mode i st 3 =
      leW input (8 * (i / 8 + 3)) ^^^ st.n4 ^^^ (if mode = 2 ∨ mode = 1 ∧ 22 ≤ 3 then bbGet st.ring (i / 8 % bbWords + 3) else 0) := rfl

theorem bsIn_eq_4 (input : ℕ → ℕ) (mode i : ℕ) (st : BigSt) :
    bigStrideIn input mode i st 4 =
      leW input (8 * (i / 8 + 4)) ^^^ st.n5 ^^^ (if mode = 2 ∨ mode = 1 ∧ 22 ≤ 4 then bbGet st.ring (i / 8 % bbWords + 4) else 0) := rfl

theorem bsIn_eq_5 (input : ℕ → ℕ) (mode i : ℕ) (st : BigSt) :
    bigStrideIn input mode i st 5 =
      leW input (8 * (i / 8 + 5)) ^^^ st.n6 ^^^ (if mode = 2 ∨ mode = 1 ∧ 22 ≤ 5 then bbGet st.ring (i / 8 % bbWords + 5) else 0) := rfl

theorem bsIn_eq_6 (input : ℕ → ℕ) (mode i : ℕ) (st : BigSt) :
    bigStrideIn input mode i st 6 =
      leW input (8 * (i / 8 + 6)) ^^^ st.n7 ^^^ (if mode = 2 ∨ mode = 1 ∧ 22 ≤ 6 then bbGet st.ring (i / 8 % bbWords + 6) else 0) := rfl

theorem bsIn_eq_7 (input : ℕ → ℕ) (mode i : ℕ) (st : BigSt) :
    bigStrideIn input mode i st 7 =
      leW input (8 * (i / 8 + 7)) ^^^ st.n8 ^^^ bigStrideIn input mode i st 0 ^^^ (if mode = 2 ∨ mode = 1 ∧ 22 ≤ 7 then bbGet st.ring (i / 8 % bbWords + 7) else 0) := rfl

theorem bsIn_eq_8 (input : ℕ → ℕ) (mode i : ℕ) (st : BigSt) :
    bigStrideIn input mode i st 8 =
      leW input (8 * (i / 8 + 8)) ^^^ st.n9 ^^^ bigStrideIn input mode i st 1 ^^^ (if mode = 2 ∨ mode = 1 ∧ 22 ≤ 8 then bbGet st.ring (i / 8 % bbWords + 8) else 0) := rfl

theorem bsIn_eq_9 (input : ℕ → ℕ) (mode i : ℕ) (st : BigSt) :
    bigStrideIn input mode i st 9 =
      leW input (8 * (i / 8 + 9)) ^^^ st.n10 ^^^ bigStrideIn input mode i st 2 ^^^ (if mode = 2 ∨ mode = 1 ∧ 22 ≤ 9 then bbGet st.ring (i / 8 % bbWords + 9) else 0) := rfl

theorem bsIn_eq_10 (input : ℕ → ℕ) (mode i : ℕ) (st : BigSt) :
    bigStrideIn input mode i st 10 =
      leW input (8 * (i / 8 + 10)) ^^^ st.n11 ^^^ bigStrideIn input mode i st 3 ^^^ (if mode = 2 ∨ mode = 1 ∧ 22 ≤ 10 then bbGet st.ring (i / 8 % bbWords + 10) else 0) := rfl

theorem bsIn_eq_11 (input : ℕ → ℕ) (mode i : ℕ) (st : BigSt) :
    bigStrideIn input mode i st 11 =
      leW input (8 * (i / 8 + 11)) ^^^ st.n12 ^^^ bigStrideIn input mode i st 0 ^^^ bigStrideIn input mode i st 4 ^^^ (if mode = 2 ∨ mode = 1 ∧ 22 ≤ 11 then bbGet st.ring (i / 8 % bbWords + 11) else 0) := rfl

theorem bsIn_eq_12 (input : ℕ → ℕ) (mode i : ℕ) (st : BigSt) :
    bigStrideIn input mode i st 12 =
      leW input (8 * (i / 8 + 12)) ^^^ st.n13 ^^^ bigStrideIn input mode i st 1 ^^^ bigStrideIn input mode i st 5 ^^^ (if mode = 2 ∨ mode = 1 ∧ 22 ≤ 12 then bbGet st.ring (i / 8 % bbWords + 12) else 0) := rfl

theorem bsIn_eq_13 (input : ℕ → ℕ) (mode i : ℕ) (st : BigSt) :
    bigStrideIn input mode i st 13 =
      leW input (8 * (i / 8 + 13)) ^^^ st.n14 ^^^ bigStrideIn input mode i st 2 ^^^ bigStrideIn input mode i st 6 ^^^ (if mode = 2 ∨ mode = 1 ∧ 22 ≤ 13 then bbGet st.ring (i / 8 % bbWords + 13) else 0) := rfl

theorem bsIn_eq_14 (input : ℕ → ℕ) (mode i : ℕ) (st : BigSt) :
    bigStrideIn input mode i st 14 =
      leW input (8 * (i / 8 + 14)) ^^^ st.n15 ^^^ bigStrideIn input mode i st 3 ^^^ bigStrideIn input mode i st 7 ^^^ (if mode = 2 ∨ mode = 1 ∧ 22 ≤ 14 then bbGet st.ring (i / 8 % bbWords + 14) else 0) := rfl

theorem bsIn_eq_15 (input : ℕ → ℕ) (mode i : ℕ) (st : BigSt) :
    bigStrideIn input mode i st 15 =
      leW input (8 * (i / 8 + 15)) ^^^ st.n16 ^^^ bigStrideIn input mode i st 4 ^^^ bigStrideIn input mode i st 8 ^^^ (if mode = 2 ∨ mode = 1 ∧ 22 ≤ 15 then bbGet st.ring (i / 8 % bbWords + 15) else 0) := rfl

theorem bsIn_eq_16 (input : ℕ → ℕ) (mode i : ℕ) (st : BigSt) :
    bigStrideIn input mode i st 16 =
      leW input (8 * (i / 8 + 16)) ^^^ st.n17 ^^^ bigStrideIn input mode i st 5 ^^^ bigStrideIn input mode i st 9 ^^^ (if mode = 2 ∨ mode = 1 ∧ 22 ≤ 16 then bbGet st.ring (i / 8 % bbWords + 16) else 0) := rfl

theorem bsIn_eq_17 (input : ℕ → ℕ) (mode i : ℕ) (st : BigSt) :
    bigStrideIn input mode i st 17 =
      leW input (8 * (i / 8 + 17)) ^^^ st.n18 ^^^ bigStrideIn input mode i st 6 ^^^ bigStrideIn input mode i st 10 ^^^ (if mode = 2 ∨ mode = 1 ∧ 22 ≤ 17 then bbGet st.ring (i / 8 % bbWords + 17) else 0) := rfl

theorem bsIn_eq_18 (input : ℕ → ℕ) (mode i : ℕ) (st : BigSt) :
    bigStrideIn input mode i st 18 =
      leW input (8 * (i / 8 + 18)) ^^^ st.n19 ^^^ bigStrideIn input mode i st 7 ^^^ bigStrideIn input mode i st 11 ^^^ (if mode = 2 ∨ mode = 1 ∧ 22 ≤ 18 then bbGet st.ring (i / 8 % bbWords + 18) else 0) := rfl

theorem bsIn_eq_19 (input : ℕ → ℕ) (mode i : ℕ) (st : BigSt) :
    bigStrideIn input mode i st 19 =
      leW input (8 * (i / 8 + 19)) ^^^ st.n20 ^^^ bigStrideIn input mode i st 8 ^^^ bigStrideIn input mode i st 12 ^^^ (if mode = 2 ∨ mode = 1 ∧ 22 ≤ 19 then bbGet st.ring (i / 8 % bbWords + 19) else 0) := rfl

theorem bsIn_eq_20 (input : ℕ → ℕ) (mode i : ℕ) (st : BigSt) :
    bigStrideIn input mode i st 20 =
      leW input (8 * (i / 8 + 20)) ^^^ st.n21 ^^^ bigStrideIn input mode i st 9 ^^^ bigStrideIn input mode i st 13 ^^^ (if mode = 2 ∨ mode = 1 ∧ 22 ≤ 20 then bbGet st.ring (i / 8 % bbWords + 20) else 0) := rfl

theorem bsIn_eq_21 (input : ℕ → ℕ) (mode i : ℕ) (st : BigSt) :
    bigStrideIn input mode i st 21 =
      leW input (8 * (i / 8 + 21)) ^^^ st.n22 ^^^ bigStrideIn input mode i st 10 ^^^ bigStrideIn input mode i st 14 ^^^ (if mode = 2 ∨ mode = 1 ∧ 22 ≤ 21 then bbGet st.ring (i / 8 % bbWords + 21) else 0) := rfl

theorem bsIn_eq_22 (input : ℕ → ℕ) (mode i : ℕ) (st : BigSt) :
    bigStrideIn input mode i st 22 =
      leW input (8 * (i / 8 + 22)) ^^^ bigStrideIn input mode i st 0 ^^^ bigStrideIn input mode i st 11 ^^^ bigStrideIn input mode i st 15 ^^^ (if mode = 2 ∨ mode = 1 ∧ 22 ≤ 22 then bbGet st.ring (i / 8 % bbWords + 22) else 0) := rfl

theorem bsIn_eq_23 (input : ℕ → ℕ) (mode i : ℕ) (st : BigSt) :
    bigStrideIn input mode i st 23 =
      leW input (8 * (i / 8 + 23)) ^^^ bigStrideIn input mode i st 1 ^^^ bigStrideIn input mode i st 12 ^^^ bigStrideIn input mode i st 16 ^^^ (if mode = 2 ∨ mode = 1 ∧ 22 ≤ 23 then bbGet st.ring (i / 8 % bbWords + 23) else 0) := rfl

theorem bsIn_eq_24 (input : ℕ → ℕ) (mode i : ℕ) (st : BigSt) :
    bigStrideIn input mode i st 24 =
      leW input (8 * (i / 8 + 24)) ^^^ bigStrideIn input mode i st 2 ^^^ bigStrideIn input mode i st 13 ^^^ bigStrideIn input mode i st 17 ^^^ (if mode = 2 ∨ mode = 1 ∧ 22 ≤ 24 then bbGet st.ring (i / 8 % bbWords + 24) else 0) := rfl

theorem bsIn_eq_25 (input : ℕ → ℕ) (mode i : ℕ) (st : BigSt) :
    bigStrideIn input mode i st 25 =
      leW input (8 * (i / 8 + 25)) ^^^ bigStrideIn input mode i st 3 ^^^ bigStrideIn input mode i st 14 ^^^ bigStrideIn input mode i st 18 ^^^ (if mode = 2 ∨ mode = 1 ∧ 22 ≤ 25 then bbGet st.ring (i / 8 % bbWords + 25) else 0) := rfl

theorem bsIn_eq_26 (input : ℕ → ℕ) (mode i : ℕ) (st : BigSt) :
    bigStrideIn input mode i st 26 =
      leW input (8 * (i / 8 + 26)) ^^^ bigStrideIn input mode i st 4 ^^^ bigStrideIn input mode i st 15 ^^^ bigStrideIn input mode i st 19 ^^^ (if mode = 2 ∨ mode = 1 ∧ 22 ≤ 26 then bbGet st.ring (i / 8 % bbWords + 26) else 0) := rfl

theorem bsIn_eq_27 (input : ℕ → ℕ) (mode i : ℕ) (st : BigSt) :
    bigStrideIn input mode i st 27 =
      leW input (8 * (i / 8 + 27)) ^^^ bigStrideIn input mode i st 5 ^^^ bigStrideIn input mode i st 16 ^^^ bigStrideIn input mode i st 20 ^^^ (if mode = 2 ∨ mode = 1 ∧ 22 ≤ 27 then bbGet st.ring (i / 8 % bbWords + 27) else 0) := rfl

theorem bsIn_eq_28 (input : ℕ → ℕ) (mode i : ℕ) (st : BigSt) :
    bigStrideIn input mode i st 28 =
      leW input (8 * (i / 8 + 28)) ^^^ bigStrideIn input mode i st 6 ^^^ bigStrideIn input mode i st 17 ^^^ bigStrideIn input mode i st 21 ^^^ (if mode = 2 ∨ mode = 1 ∧ 22 ≤ 28 then bbGet st.ring (i / 8 % bbWords + 28) else 0) := rfl

theorem bsIn_eq_29 (input : ℕ → ℕ) (mode i : ℕ) (st : BigSt) :
    bigStrideIn input mode i st 29 =
      leW input (8 * (i / 8 + 29)) ^^^ bigStrideIn input mode i st 7 ^^^ bigStrideIn input mode i st 18 ^^^ bigStrideIn input mode i st 22 ^^^ (if mode = 2 ∨ mode = 1 ∧ 22 ≤ 29 then bbGet st.ring (i / 8 % bbWords + 29) else 0) := rfl

theorem bsIn_eq_30 (input : ℕ → ℕ) (mode i : ℕ) (st : BigSt) :
    bigStrideIn input mode i st 30 =
      leW input (8 * (i / 8 + 30)) ^^^ bigStrideIn input mode i st 8 ^^^ bigStrideIn input mode i st 19 ^^^ bigStrideIn input mode i st 23 ^^^ (if mode = 2 ∨ mode = 1 ∧ 22 ≤ 30 then bbGet st.ring (i / 8 % bbWords + 30) else 0) := rfl

theorem bsIn_eq_31 (input : ℕ → ℕ) (mode i : ℕ) (st : BigSt) :
    bigStrideIn input mode i st 31 =
      leW input (8 * (i / 8 + 31)) ^^^ bigStrideIn input mode i st 9 ^^^ bigStrideIn input mode i st 20 ^^^ bigStrideIn input mode i st 24 ^^^ (if mode = 2 ∨ mode = 1 ∧ 22 ≤ 31 then bbGet st.ring (i / 8 % bbWords + 31) else 0) := rfl

theorem bigStrideIn_xor_0 (A B : ℕ → ℕ) (mode i : ℕ) (sa sb : BigSt) :
    bigStrideIn (fXor A B) mode i (bsXor sa sb) 0 =
      bigStrideIn A mode i sa 0 ^^^ bigStrideIn B mode i sb 0 := by
  rw [bsIn_eq_0 (fXor A B) mode i (bsXor sa sb), bsIn_eq_0 A mode i sa,
    bsIn_eq_0 B mode i sb]
  simp only [leW_fXor, bsXor_n1, bsXor_ring, bbGet_xor, ite_xor_zero]
  apply xor_mix3

theorem bigStrideIn_xor_1 (A B : ℕ → ℕ) (mode i : ℕ) (sa sb : BigSt) :
    bigStrideIn (fXor A B) mode i (bsXor sa sb) 1 =
      bigStrideIn A mode i sa 1 ^^^ bigStrideIn B mode i sb 1 := by
  rw [bsIn_eq_1 (fXor A B) mode i (bsXor sa sb), bsIn_eq_1 A mode i sa,
    bsIn_eq_1 B mode i sb]
  simp only [leW_fXor, bsXor_n2, bsXor_ring, bbGet_xor, ite_xor_zero]
  apply xor_mix3

theorem bigStrideIn_xor_2 (A B : ℕ → ℕ) (mode i : ℕ) (sa sb : BigSt) :
    bigStrideIn (fXor A B) mode i (bsXor sa sb) 2 =
      bigStrideIn A mode i sa 2 ^^^ bigStrideIn B mode i sb 2 := by
  rw [bsIn_eq_2 (fXor A B) mode i (bsXor sa sb), bsIn_eq_2 A mode i sa,
    bsIn_eq_2 B mode i sb]
  simp only [leW_fXor, bsXor_n3, bsXor_ring, bbGet_xor, ite_xor_zero]
  apply xor_mix3

theorem bigStrideIn_xor_3 (A B : ℕ → ℕ) (mode i : ℕ) (sa sb : BigSt) :
    bigStrideIn (fXor A B) mode i (bsXor sa sb) 3 =
      bigStrideIn A mode i sa 3 ^^^ bigStrideIn B mode i sb 3 := by
  rw [bsIn_eq_3 (fXor A B) mode i (bsXor sa sb), bsIn_eq_3 A mode i sa,
    bsIn_eq_3 B mode i sb]
  simp only [leW_fXor, bsXor_n4, bsXor_ring, bbGet_xor, ite_xor_zero]
  apply xor_mix3

theorem bigStrideIn_xor_4 (A B : ℕ → ℕ) (mode i : ℕ) (sa sb : BigSt) :
    bigStrideIn (fXor A B) mode i (bsXor sa sb) 4 =
      bigStrideIn A mode i sa 4 ^^^ bigStrideIn B mode i sb 4 := by
  rw [bsIn_eq_4 (fXor A B) mode i (bsXor sa sb), bsIn_eq_4 A mode i sa,
    bsIn_eq_4 B mode i sb]
  simp only [leW_fXor, bsXor_n5, bsXor_ring, bbGet_xor, ite_xor_zero]
  apply xor_mix3

theorem bigStrideIn_xor_5 (A B : ℕ → ℕ) (mode i : ℕ) (sa sb : BigSt) :
    bigStrideIn (fXor A B) mode i (bsXor sa sb) 5 =
      bigStrideIn A mode i sa 5 ^^^ bigStrideIn B mode i sb 5 := by
  rw [bsIn_eq_5 (fXor A B) mode i (bsXor sa sb), bsIn_eq_5 A mode i sa,
    bsIn_eq_5 B mode i sb]
  simp only [leW_fXor, bsXor_n6, bsXor_ring, bbGet_xor, ite_xor_zero]
  apply xor_mix3

theorem bigStrideIn_xor_6 (A B : ℕ → ℕ) (mode i : ℕ) (sa sb : BigSt) :
    bigStrideIn (fXor A B) mode i (bsXor sa sb) 6 =
      bigStrideIn A mode i sa 6 ^^^ bigStrideIn B mode i sb 6 := by
  rw [bsIn_eq_6 (fXor A B) mode i (bsXor sa sb), bsIn_eq_6 A mode i sa,
    bsIn_eq_6 B mode i sb]
  simp only [leW_fXor, bsXor_n7, bsXor_ring, bbGet_xor, ite_xor_zero]
  apply xor_mix3

theorem bigStrideIn_xor_7 (A B : ℕ → ℕ) (mode i : ℕ) (sa sb : BigSt) :
    bigStrideIn (fXor A B) mode i (bsXor sa sb) 7 =
      bigStrideIn A mode i sa 7 ^^^ bigStrideIn B mode i sb 7 := by
  rw [bsIn_eq_7 (fXor A B) mode i (bsXor sa sb), bsIn_eq_7 A mode i sa,
    bsIn_eq_7 B mode i sb]
  simp only [bigStrideIn_xor_0]
  simp only [leW_fXor, bsXor_n8, bsXor_ring, bbGet_xor, ite_xor_zero]
  apply xor_mix4

theorem bigStrideIn_xor_8 (A B : ℕ → ℕ) (mode i : ℕ) (sa sb : BigSt) :
    bigStrideIn (fXor A B) mode i (bsXor sa sb) 8 =
      bigStrideIn A mode i sa 8 ^^^ bigStrideIn B mode i sb 8 := by
  rw [bsIn_eq_8 (fXor A B) mode i (bsXor sa sb), bsIn_eq_8 A mode i sa,
    bsIn_eq_8 B mode i sb]
  simp only [bigStrideIn_xor_1]
  simp only [leW_fXor, bsXor_n9, bsXor_ring, bbGet_xor, ite_xor_zero]
  apply xor_mix4

theorem bigStrideIn_xor_9 (A B : ℕ → ℕ) (mode i : ℕ) (sa sb : BigSt) :
    bigStrideIn (fXor A B) mode i (bsXor sa sb) 9 =
      bigStrideIn A mode i sa 9 ^^^ bigStrideIn B mode i sb 9 := by
  rw [bsIn_eq_9 (fXor A B) mode i (bsXor sa sb), bsIn_eq_9 A mode i sa,
    bsIn_eq_9 B mode i sb]
  simp only [bigStrideIn_xor_2]
  simp only [leW_fXor, bsXor_n10, bsXor_ring, bbGet_xor, ite_xor_zero]
  apply xor_mix4

theorem bigStrideIn_xor_10 (A B : ℕ → ℕ) (mode i : ℕ) (sa sb : BigSt) :
    bigStrideIn (fXor A B) mode i (bsXor sa sb) 10 =
      bigStrideIn A mode i sa 10 ^^^ bigStrideIn B mode i sb 10 := by
  rw [bsIn_eq_10 (fXor A B) mode i (bsXor sa sb), bsIn_eq_10 A mode i sa,
    bsIn_eq_10 B mode i sb]
  simp only [bigStrideIn_xor_3]
  simp only [leW_fXor, bsXor_n11, bsXor_ring, bbGet_xor, ite_xor_zero]
  apply xor_mix4

theorem bigStrideIn_xor_11 (A B : ℕ → ℕ) (mode i : ℕ) (sa sb : BigSt) :
    bigStrideIn (fXor A B) mode i (bsXor sa sb) 11 =
      bigStrideIn A mode i sa 11 ^^^ bigStrideIn B mode i sb 11 := by
  rw [bsIn_eq_11 (fXor A B) mode i (bsXor sa sb), bsIn_eq_11 A mode i sa,
    bsIn_eq_11 B mode i sb]
  simp only [bigStrideIn_xor_0, bigStrideIn_xor_4]
  simp only [leW_fXor, bsXor_n12, bsXor_ring, bbGet_xor, ite_xor_zero]
  apply xor_mix5

theorem bigStrideIn_xor_12 (A B : ℕ → ℕ) (mode i : ℕ) (sa sb : BigSt) :
    bigStrideIn (fXor A B) mode i (bsXor sa sb) 12 =
      bigStrideIn A mode i sa 12 ^^^ bigStrideIn B mode i sb 12 := by
  rw [bsIn_eq_12 (fXor A B) mode i (bsXor sa sb), bsIn_eq_12 A mode i sa,
    bsIn_eq_12 B mode i sb]
  simp only [bigStrideIn_xor_1, bigStrideIn_xor_5]
  simp only [leW_fXor, bsXor_n13, bsXor_ring, bbGet_xor, ite_xor_zero]
  apply xor_mix5

theorem bigStrideIn_xor_13 (A B : ℕ → ℕ) (mode i : ℕ) (sa sb : BigSt) :
    bigStrideIn (fXor A B) mode i (bsXor sa sb) 13 =
      bigStrideIn A mode i sa 13 ^^^ bigStrideIn B mode i sb 13 := by
  rw [bsIn_eq_13 (fXor A B) mode i (bsXor sa sb), bsIn_eq_13 A mode i sa,
    bsIn_eq_13 B mode i sb]
  simp only [bigStrideIn_xor_2, bigStrideIn_xor_6]
  simp only [leW_fXor, bsXor_n14, bsXor_ring, bbGet_xor, ite_xor_zero]
  apply xor_mix5

theorem bigStrideIn_xor_14 (A B : ℕ → ℕ) (mode i : ℕ) (sa sb : BigSt) :
    bigStrideIn (fXor A B) mode i (bsXor sa sb) 14 =
      bigStrideIn A mode i sa 14 ^^^ bigStrideIn B mode i sb 14 := by
  rw [bsIn_eq_14 (fXor A B) mode i (bsXor sa sb), bsIn_eq_14 A mode i sa,
    bsIn_eq_14 B mode i sb]
  simp only [bigStrideIn_xor_3, bigStrideIn_xor_7]
  simp only [leW_fXor, bsXor_n15, bsXor_ring, bbGet_xor, ite_xor_zero]
  apply xor_mix5

theorem bigStrideIn_xor_15 (A B : ℕ → ℕ) (mode i : ℕ) (sa sb : BigSt) :
    bigStrideIn (fXor A B) mode i (bsXor sa sb) 15 =
      bigStrideIn A mode i sa 15 ^^^ bigStrideIn B mode i sb 15 := by
  rw [bsIn_eq_15 (fXor A B) mode i (bsXor sa sb), bsIn_eq_15 A mode i sa,
    bsIn_eq_15 B mode i sb]
  simp only [bigStrideIn_xor_4, bigStrideIn_xor_8]
  simp only [leW_fXor, bsXor_n16, bsXor_ring, bbGet_xor, ite_xor_zero]
  apply xor_mix5

theorem bigStrideIn_xor_16 (A B : ℕ → ℕ) (mode i : ℕ) (sa sb : BigSt) :
    bigStrideIn (fXor A B) mode i (bsXor sa sb) 16 =
      bigStrideIn A mode i sa 16 ^^^ bigStrideIn B mode i sb 16 := by
  rw [bsIn_eq_16 (fXor A B) mode i (bsXor sa sb), bsIn_eq_16 A mode i sa,
    bsIn_eq_16 B mode i sb]
  simp only [bigStrideIn_xor_5, bigStrideIn_xor_9]
  simp only [leW_fXor, bsXor_n17, bsXor_ring, bbGet_xor, ite_xor_zero]
  apply xor_mix5

theorem bigStrideIn_xor_17 (A B : ℕ → ℕ) (mode i : ℕ) (sa sb : BigSt) :
    bigStrideIn (fXor A B) mode i (bsXor sa sb) 17 =
      bigStrideIn A mode i sa 17 ^^^ bigStrideIn B mode i sb 17 := by
  rw [bsIn_eq_17 (fXor A B) mode i (bsXor sa sb), bsIn_eq_17 A mode i sa,
    bsIn_eq_17 B mode i sb]
  simp only [bigStrideIn_xor_6, bigStrideIn_xor_10]
  simp only [leW_fXor, bsXor_n18, bsXor_ring, bbGet_xor, ite_xor_zero]
  apply xor_mix5

theorem bigStrideIn_xor_18 (A B : ℕ → ℕ) (mode i : ℕ) (sa sb : BigSt) :
    bigStrideIn (fXor A B) mode i (bsXor sa sb) 18 =
      bigStrideIn A mode i sa 18 ^^^ bigStrideIn B mode i sb 18 := by
  rw [bsIn_eq_18 (fXor A B) mode i (bsXor sa sb), bsIn_eq_18 A mode i sa,
    bsIn_eq_18 B mode i sb]
  simp only [bigStrideIn_xor_7, bigStrideIn_xor_11]
  simp only [leW_fXor, bsXor_n19, bsXor_ring, bbGet_xor, ite_xor_zero]
  apply xor_mix5

theorem bigStrideIn_xor_19 (A B : ℕ → ℕ) (mode i : ℕ) (sa sb : BigSt) :
    bigStrideIn (fXor A B) mode i (bsXor sa sb) 19 =
      bigStrideIn A mode i sa 19 ^^^ bigStrideIn B mode i sb 19 := by
  rw [bsIn_eq_19 (fXor A B) mode i (bsXor sa sb), bsIn_eq_19 A mode i sa,
    bsIn_eq_19 B mode i sb]
  simp only [bigStrideIn_xor_8, bigStrideIn_xor_12]
  simp only [leW_fXor, bsXor_n20, bsXor_ring, bbGet_xor, ite_xor_zero]
  apply xor_mix5

theorem bigStrideIn_xor_20 (A B : ℕ → ℕ) (mode i : ℕ) (sa sb : BigSt) :
    bigStrideIn (fXor A B) mode i (bsXor sa sb) 20 =
      bigStrideIn A mode i sa 20 ^^^ bigStrideIn B mode i sb 20 := by
  rw [bsIn_eq_20 (fXor A B) mode i (bsXor sa sb), bsIn_eq_20 A mode i sa,
    bsIn_eq_20 B mode i sb]
  simp only [bigStrideIn_xor_9, bigStrideIn_xor_13]
  simp only [leW_fXor, bsXor_n21, bsXor_ring, bbGet_xor, ite_xor_zero]
  apply xor_mix5

theorem bigStrideIn_xor_21 (A B : ℕ → ℕ) (mode i : ℕ) (sa sb : BigSt) :
    bigStrideIn (fXor A B) mode i (bsXor sa sb) 21 =
      bigStrideIn A mode i sa 21 ^^^ bigStrideIn B mode i sb 21 := by
  rw [bsIn_eq_21 (fXor A B) mode i (bsXor sa sb), bsIn_eq_21 A mode i sa,
    bsIn_eq_21 B mode i sb]
  simp only [bigStrideIn_xor_10, bigStrideIn_xor_14]
  simp only [leW_fXor, bsXor_n22, bsXor_ring, bbGet_xor, ite_xor_zero]
  apply xor_mix5

theorem bigStrideIn_xor_22 (A B : ℕ → ℕ) (mode i : ℕ) (sa sb : BigSt) :
    bigStrideIn (fXor A B) mode i (bsXor sa sb) 22 =
      bigStrideIn A mode i sa 22 ^^^ bigStrideIn B mode i sb 22 := by
  rw [bsIn_eq_22 (fXor A B) mode i (bsXor sa sb), bsIn_eq_22 A mode i sa,
    bsIn_eq_22 B mode i sb]
  simp only [bigStrideIn_xor_0, bigStrideIn_xor_11, bigStrideIn_xor_15]
  simp only [leW_fXor, bsXor_ring, bbGet_xor, ite_xor_zero]
  apply xor_mix5

theorem bigStrideIn_xor_23 (A B : ℕ → ℕ) (mode i : ℕ) (sa sb : BigSt) :
    bigStrideIn (fXor A B) mode i (bsXor sa sb) 23 =
      bigStrideIn A mode i sa 23 ^^^ bigStrideIn B mode i sb 23 := by
  rw [bsIn_eq_23 (fXor A B) mode i (bsXor sa sb), bsIn_eq_23 A mode i sa,
    bsIn_eq_23 B mode i sb]
  simp only [bigStrideIn_xor_1, bigStrideIn_xor_12, bigStrideIn_xor_16]
  simp only [leW_fXor, bsXor_ring, bbGet_xor, ite_xor_zero]
  apply xor_mix5

theorem bigStrideIn_xor_24 (A B : ℕ → ℕ) (mode i : ℕ) (sa sb : BigSt) :
    bigStrideIn (fXor A B) mode i (bsXor sa sb) 24 =
      bigStrideIn A mode i sa 24 ^^^ bigStrideIn B mode i sb 24 := by
  rw [bsIn_eq_24 (fXor A B) mode i (bsXor sa sb), bsIn_eq_24 A mode i sa,
    bsIn_eq_24 B mode i sb]
  simp only [bigStrideIn_xor_2, bigStrideIn_xor_13, bigStrideIn_xor_17]
  simp only [leW_fXor, bsXor_ring, bbGet_xor, ite_xor_zero]
  apply xor_mix5

theorem bigStrideIn_xor_25 (A B : ℕ → ℕ) (mode i : ℕ) (sa sb : BigSt) :
    bigStrideIn (fXor A B) mode i (bsXor sa sb) 25 =
      bigStrideIn A mode i sa 25 ^^^ bigStrideIn B mode i sb 25 := by
  rw [bsIn_eq_25 (fXor A B) mode i (bsXor sa sb), bsIn_eq_25 A mode i sa,
    bsIn_eq_25 B mode i sb]
  simp only [bigStrideIn_xor_3, bigStrideIn_xor_14, bigStrideIn_xor_18]
  simp only [leW_fXor, bsXor_ring, bbGet_xor, ite_xor_zero]
  apply xor_mix5

theorem bigStrideIn_xor_26 (A B : ℕ → ℕ) (mode i : ℕ) (sa sb : BigSt) :
    bigStrideIn (fXor A B) mode i (bsXor sa sb) 26 =
      bigStrideIn A mode i sa 26 ^^^ bigStrideIn B mode i sb 26 := by
  rw [bsIn_eq_26 (fXor A B) mode i (bsXor sa sb), bsIn_eq_26 A mode i sa,
    bsIn_eq_26 B mode i sb]
  simp only [bigStrideIn_xor_4, bigStrideIn_xor_15, bigStrideIn_xor_19]
  simp only [leW_fXor, bsXor_ring, bbGet_xor, ite_xor_zero]
  apply xor_mix5

theorem bigStrideIn_xor_27 (A B : ℕ → ℕ) (mode i : ℕ) (sa sb : BigSt) :
    bigStrideIn (fXor A B) mode i (bsXor sa sb) 27 =
      bigStrideIn A mode i sa 27 ^^^ bigStrideIn B mode i sb 27 := by
  rw [bsIn_eq_27 (fXor A B) mode i (bsXor sa sb), bsIn_eq_27 A mode i sa,
    bsIn_eq_27 B mode i sb]
  simp only [bigStrideIn_xor_5, bigStrideIn_xor_16, bigStrideIn_xor_20]
  simp only [leW_fXor, bsXor_ring, bbGet_xor, ite_xor_zero]
  apply xor_mix5

theorem bigStrideIn_xor_28 (A B : ℕ → ℕ) (mode i : ℕ) (sa sb : BigSt) :
    bigStrideIn (fXor A B) mode i (bsXor sa sb) 28 =
      bigStrideIn A mode i sa 28 ^^^ bigStrideIn B mode i sb 28 := by
  rw [bsIn_eq_28 (fXor A B) mode i (bsXor sa sb), bsIn_eq_28 A mode i sa,
    bsIn_eq_28 B mode i sb]
  simp only [bigStrideIn_xor_6, bigStrideIn_xor_17, bigStrideIn_xor_21]
  simp only [leW_fXor, bsXor_ring, bbGet_xor, ite_xor_zero]
  apply xor_mix5

theorem bigStrideIn_xor_29 (A B : ℕ → ℕ) (mode i : ℕ) (sa sb : BigSt) :
    bigStrideIn (fXor A B) mode i (bsXor sa sb) 29 =
      bigStrideIn A mode i sa 29 ^^^ bigStrideIn B mode i sb 29 := by
  rw [bsIn_eq_29 (fXor A B) mode i (bsXor sa sb), bsIn_eq_29 A mode i sa,
    bsIn_eq_29 B mode i sb]
  simp only [bigStrideIn_xor_7, bigStrideIn_xor_18, bigStrideIn_xor_22]
  simp only [leW_fXor, bsXor_ring, bbGet_xor, ite_xor_zero]
  apply xor_mix5

theorem bigStrideIn_xor_30 (A B : ℕ → ℕ) (mode i : ℕ) (sa sb : BigSt) :
    bigStrideIn (fXor A B) mode i (bsXor sa sb) 30 =
      bigStrideIn A mode i sa 30 ^^^ bigStrideIn B mode i sb 30 := by
  rw [bsIn_eq_30 (fXor A B) mode i (bsXor sa sb), bsIn_eq_30 A mode i sa,
    bsIn_eq_30 B mode i sb]
  simp only [bigStrideIn_xor_8, bigStrideIn_xor_19, bigStrideIn_xor_23]
  simp only [leW_fXor, bsXor_ring, bbGet_xor, ite_xor_zero]
  apply xor_mix5

theorem bigStrideIn_xor_31 (A B : ℕ → ℕ) (mode i : ℕ) (sa sb : BigSt) :
    bigStrideIn (fXor A B) mode i (bsXor sa sb) 31 =
      bigStrideIn A mode i sa 31 ^^^ bigStrideIn B mode i sb 31 := by
  rw [bsIn_eq_31 (fXor A B) mode i (bsXor sa sb), bsIn_eq_31 A mode i sa,
    bsIn_eq_31 B mode i sb]
  simp only [bigStrideIn_xor_9, bigStrideIn_xor_20, bigStrideIn_xor_24]
  simp only [leW_fXor, bsXor_ring, bbGet_xor, ite_xor_zero]
  apply xor_mix5

/-- Superposition through one 256-byte stride of the large kernel. -/
theorem bigStride_xor (A B : ℕ → ℕ) (mode i : ℕ) (sa sb : BigSt) :
    bigStride (fXor A B) mode i (bsXor sa sb) =
      bsXor (bigStride A mode i sa) (bigStride B mode i sb) := by
  rw [bigStride_shape (fXor A B) mode i (bsXor sa sb), bigStride_shape A mode i sa,
    bigStride_shape B mode i sb]
  simp only [bigStrideIn_xor_0, bigStrideIn_xor_1, bigStrideIn_xor_2, bigStrideIn_xor_3, bigStrideIn_xor_4, bigStrideIn_xor_5, bigStrideIn_xor_6, bigStrideIn_xor_7, bigStrideIn_xor_8, bigStrideIn_xor_9, bigStrideIn_xor_10, bigStrideIn_xor_11, bigStrideIn_xor_12, bigStrideIn_xor_13, bigStrideIn_xor_14, bigStrideIn_xor_15, bigStrideIn_xor_16, bigStrideIn_xor_17, bigStrideIn_xor_18, bigStrideIn_xor_19, bigStrideIn_xor_20, bigStrideIn_xor_21, bigStrideIn_xor_22, bigStrideIn_xor_23, bigStrideIn_xor_24, bigStrideIn_xor_25, bigStrideIn_xor_26, bigStrideIn_xor_27, bigStrideIn_xor_28, bigStrideIn_xor_29, bigStrideIn_xor_30, bigStrideIn_xor_31]
  dsimp only [bsXor]
  simp only [BigSt.mk.injEq]
  refine ⟨xor_mix3 _ _ _ _ _ _, xor_mix3 _ _ _ _ _ _, xor_mix3 _ _ _ _ _ _, xor_mix3 _ _ _ _ _ _, xor_mix3 _ _ _ _ _ _, xor_mix3 _ _ _ _ _ _, xor_mix3 _ _ _ _ _ _, xor_mix _ _ _ _, xor_mix _ _ _ _, xor_mix _ _ _ _, xor_mix _ _ _ _, trivial, trivial, trivial, trivial, trivial, trivial, trivial, trivial, trivial, trivial, trivial, ?_⟩
  simp only [bbSet_xor]

theorem bbSet_xor0 (ra rb s : ℕ) :
    bbSet (ra ^^^ rb) s 0 = bbSet ra s 0 ^^^ bbSet rb s 0 := by
  have h := bbSet_xor ra rb s 0 0
  simpa using h

theorem bigZeroLoop_xor (i8 : ℕ) : ∀ f j ra rb,
    bigZeroLoop i8 f j (ra ^^^ rb) = bigZeroLoop i8 f j ra ^^^ bigZeroLoop i8 f j rb := by
  intro f j ra rb
  unfold bigZeroLoop
  rw [cFor_xor (fun j => decide (j < 14870 + 60)) 1 (fun a b => a ^^^ b)
    (fun j r => bbSet r ((j + i8) % bbWords) 0) (fun j r => bbSet r ((j + i8) % bbWords) 0)
    (fun j r => bbSet r ((j + i8) % bbWords) 0)
    (fun j ra rb => bbSet_xor0 ra rb ((j + i8) % bbWords)) f j ra rb]

theorem bbSetAcc_xor (ra rb s na nb : ℕ) :
    bbSet (ra ^^^ rb) s (bbGet (ra ^^^ rb) s ^^^ (na ^^^ nb)) =
      bbSet ra s (bbGet ra s ^^^ na) ^^^ bbSet rb s (bbGet rb s ^^^ nb) := by
  rw [bbGet_xor,
    show bbGet ra s ^^^ bbGet rb s ^^^ (na ^^^ nb) =
      (bbGet ra s ^^^ na) ^^^ (bbGet rb s ^^^ nb) from xor_mix _ _ _ _,
    bbSet_xor]

theorem bsN_xor (sa sb : BigSt) (k : ℕ) :
    bsN (bsXor sa sb) k = bsN sa k ^^^ bsN sb k := by
  rcases Nat.lt_or_ge k 23 with h | h
  · interval_cases k <;> simp [bsN, bsXor_n1, bsXor_n2, bsXor_n3, bsXor_n4, bsXor_n5, bsXor_n6, bsXor_n7, bsXor_n8, bsXor_n9, bsXor_n10, bsXor_n11, bsXor_n12, bsXor_n13, bsXor_n14, bsXor_n15, bsXor_n16, bsXor_n17, bsXor_n18, bsXor_n19, bsXor_n20, bsXor_n21, bsXor_n22]
  · unfold bsN
    have h1 : ¬ (k = 1) := by omega
    have h2 : ¬ (k = 2) := by omega
    have h3 : ¬ (k = 3) := by omega
    have h4 : ¬ (k = 4) := by omega
    have h5 : ¬ (k = 5) := by omega
    have h6 : ¬ (k = 6) := by omega
    have h7 : ¬ (k = 7) := by omega
    have h8 : ¬ (k = 8) := by omega
    have h9 : ¬ (k = 9) := by omega
    have h10 : ¬ (k = 10) := by omega
    have h11 : ¬ (k = 11) := by omega
    have h12 : ¬ (k = 12) := by omega
    have h13 : ¬ (k = 13) := by omega
    have h14 : ¬ (k = 14) := by omega
    have h15 : ¬ (k = 15) := by omega
    have h16 : ¬ (k = 16) := by omega
    have h17 : ¬ (k = 17) := by omega
    have h18 : ¬ (k = 18) := by omega
    have h19 : ¬ (k = 19) := by omega
    have h20 : ¬ (k = 20) := by omega
    have h21 : ¬ (k = 21) := by omega
    have h22 : ¬ (k = 22) := by omega
    simp only [if_neg h1, if_neg h2, if_neg h3, if_neg h4, if_neg h5, if_neg h6, if_neg h7, if_neg h8, if_neg h9, if_neg h10, if_neg h11, if_neg h12, if_neg h13, if_neg h14, if_neg h15, if_neg h16, if_neg h17, if_neg h18, if_neg h19, if_neg h20, if_neg h21, if_neg h22]
    simp

theorem drainAcc_xor (i8 : ℕ) (ga gb : ℕ → ℕ) :
    ∀ k ra rb, drainAcc i8 (fun t => ga t ^^^ gb t) k (ra ^^^ rb) =
      drainAcc i8 ga k ra ^^^ drainAcc i8 gb k rb := by
  intro k
  induction k with
  | zero => intro ra rb; rfl
  | succ k ih =>
      intro ra rb
      show (let r2 := drainAcc i8 (fun t => ga t ^^^ gb t) k (ra ^^^ rb)
        bbSet r2 ((i8 + k) % bbWords)
          (bbGet r2 ((i8 + k) % bbWords) ^^^ (ga (k + 1) ^^^ gb (k + 1)))) = _
      dsimp only
      rw [ih, bbSetAcc_xor (drainAcc i8 ga k ra) (drainAcc i8 gb k rb)
        ((i8 + k) % bbWords) (ga (k + 1)) (gb (k + 1))]
      rfl

/-- Superposition through the drain stage. -/
theorem bigDrain_xor (i : ℕ) (sa sb : BigSt) :
    bigDrain i (bsXor sa sb) = bigDrain i sa ^^^ bigDrain i sb := by
  unfold bigDrain
  rw [show bsN (bsXor sa sb) = (fun t => bsN sa t ^^^ bsN sb t) from
    funext (bsN_xor sa sb), bsXor_ring, drainAcc_xor, bigZeroLoop_xor]

/-- Superposition through the finishing 32-byte-stride loop. -/
theorem bigTailLoop_xor (A B : ℕ → ℕ) (len rA rB : ℕ) :
    ∀ f i sa sb, bigTailLoop (fXor A B) len (rA ^^^ rB) f i (C5x sa sb) =
      ((bigTailLoop A len rA f i sa).1,
        C5x (bigTailLoop A len rA f i sa).2 (bigTailLoop B len rB f i sb).2) := by
  intro f i sa sb
  unfold bigTailLoop
  refine cFor_xor _ 32 C5x _ _ _ ?_ f i sa sb
  intro j sa sb
  simp only [bbGet_xor]
  exact chorbaQuad_xor A B (8 * (j / 8)) (bbGet rA (j / 8 % bbWords))
    (bbGet rA ((j / 8 + 1) % bbWords)) (bbGet rA ((j / 8 + 2) % bbWords))
    (bbGet rA ((j / 8 + 3) % bbWords)) (bbGet rB (j / 8 % bbWords))
    (bbGet rB ((j / 8 + 1) % bbWords)) (bbGet rB ((j / 8 + 2) % bbWords))
    (bbGet rB ((j / 8 + 3) % bbWords)) sa sb false

/-- Superposition through the closing byte loop. -/
theorem bigFinalLoop_xor (fbA fbB : ℕ → ℕ) (rA rB i len : ℕ) :
    ∀ f j cA cB, bigFinalLoop (fXor fbA fbB) (rA ^^^ rB) i len f j (cA ^^^ cB) =
      bigFinalLoop fbA rA i len f j cA ^^^ bigFinalLoop fbB rB i len f j cB := by
  intro f j cA cB
  unfold bigFinalLoop
  rw [cFor_xor (fun j => decide (j < len - i)) 1 (fun a b => a ^^^ b)
    (fun j crc => crcTable ((crc ^^^ fbA j ^^^ bbByte rA ((j + i) % (bbWords * 8))) % 256) ^^^
      crc >>> 8)
    (fun j crc => crcTable ((crc ^^^ fbB j ^^^ bbByte rB ((j + i) % (bbWords * 8))) % 256) ^^^
      crc >>> 8)
    (fun j crc => crcTable ((crc ^^^ fXor fbA fbB j ^^^
      bbByte (rA ^^^ rB) ((j + i) % (bbWords * 8))) % 256) ^^^ crc >>> 8)
    ?_ f j cA cB]
  intro k ca cb
  show crcTable ((ca ^^^ cb ^^^ fXor fbA fbB k ^^^
      bbByte (rA ^^^ rB) ((k + i) % (bbWords * 8))) % 256) ^^^ (ca ^^^ cb) >>> 8 = _
  rw [show fXor fbA fbB k = fbA k ^^^ fbB k from rfl, bbByte_xor,
    xor_mix3 ca cb (fbA k) (fbB k) (bbByte rA ((k + i) % (bbWords * 8)))
      (bbByte rB ((k + i) % (bbWords * 8))),
    xor_mod_256, crcTable_xor, xor_shiftRight,
    xor_mix (crcTable ((ca ^^^ fbA k ^^^ bbByte rA ((k + i) % (bbWords * 8))) % 256))
      (crcTable ((cb ^^^ fbB k ^^^ bbByte rB ((k + i) % (bbWords * 8))) % 256))
      (ca >>> 8) (cb >>> 8)]

theorem bigPhaseA_xor (A B : ℕ → ℕ) : ∀ f i sa sb,
    bigPhaseA (fXor A B) f i (bsXor sa sb) =
      ((bigPhaseA A f i sa).1,
        bsXor (bigPhaseA A f i sa).2 (bigPhaseA B f i sb).2) := by
  intro f i sa sb
  unfold bigPhaseA
  exact cFor_xor _ 256 bsXor (bigStride A 0) (bigStride B 0) (bigStride (fXor A B) 0)
    (fun j sa sb => bigStride_xor A B 0 j sa sb) f i sa sb

theorem bigPhaseB_xor (A B : ℕ → ℕ) : ∀ f i sa sb,
    bigPhaseB (fXor A B) f i (bsXor sa sb) =
      ((bigPhaseB A f i sa).1,
        bsXor (bigPhaseB A f i sa).2 (bigPhaseB B f i sb).2) := by
  intro f i sa sb
  unfold bigPhaseB
  exact cFor_xor _ 256 bsXor (bigStride A 1) (bigStride B 1) (bigStride (fXor A B) 1)
    (fun j sa sb => bigStride_xor A B 1 j sa sb) f i sa sb

theorem bigPhaseC_xor (A B : ℕ → ℕ) (len : ℕ) : ∀ f i sa sb,
    bigPhaseC (fXor A B) len f i (bsXor sa sb) =
      ((bigPhaseC A len f i sa).1,
        bsXor (bigPhaseC A len f i sa).2 (bigPhaseC B len f i sb).2) := by
  intro f i sa sb
  unfold bigPhaseC
  exact cFor_xor _ 256 bsXor (bigStride A 2) (bigStride B 2) (bigStride (fXor A B) 2)
    (fun j sa sb => bigStride_xor A B 2 j sa sb) f i sa sb

theorem bsXor_init (cA cB rA rB : ℕ) :
    (⟨cA ^^^ cB, 0, 0, 0, 0, 0, 0, 0, 0, 0, 0, 0, 0, 0, 0, 0, 0, 0, 0, 0, 0, 0,
        rA ^^^ rB⟩ : BigSt) =
      bsXor ⟨cA, 0, 0, 0, 0, 0, 0, 0, 0, 0, 0, 0, 0, 0, 0, 0, 0, 0, 0, 0, 0, 0, rA⟩
        ⟨cB, 0, 0, 0, 0, 0, 0, 0, 0, 0, 0, 0, 0, 0, 0, 0, 0, 0, 0, 0, 0, 0, rB⟩ := by
  simp [bsXor]

theorem C5x_zero :
    (⟨0, 0, 0, 0, 0⟩ : Chorba5) = C5x ⟨0, 0, 0, 0, 0⟩ ⟨0, 0, 0, 0, 0⟩ := by
  simp [C5x]

theorem bigTailLoop_xor0 (A B : ℕ → ℕ) (len rA rB f i : ℕ) :
    bigTailLoop (fXor A B) len (rA ^^^ rB) f i ⟨0, 0, 0, 0, 0⟩ =
      ((bigTailLoop A len rA f i ⟨0, 0, 0, 0, 0⟩).1,
        C5x (bigTailLoop A len rA f i ⟨0, 0, 0, 0, 0⟩).2
          (bigTailLoop B len rB f i ⟨0, 0, 0, 0, 0⟩).2) := by
  have h := bigTailLoop_xor A B len rA rB f i ⟨0, 0, 0, 0, 0⟩ ⟨0, 0, 0, 0, 0⟩
  rw [← C5x_zero] at h
  exact h

/-- Superposition through `chorba_118960_nondestructive` (register, message
and initial scratch content split jointly). -/
theorem chorba118960Nondestructive_xor (cA cB : ℕ) (A B : ℕ → ℕ) (len rA rB : ℕ) :
    chorba118960Nondestructive (cA ^^^ cB) (fXor A B) len (rA ^^^ rB) =
      chorba118960Nondestructive cA A len rA ^^^
        chorba118960Nondestructive cB B len rB := by
  unfold chorba118960Nondestructive
  dsimp only
  rw [bsXor_init cA cB rA rB]
  have hfC : (bigPhaseC B len (len / 256 + 1) (14880 * 8) (bigPhaseB B 2 (14848 * 8) (bigPhaseA B 465 0 ⟨cB, 0, 0, 0, 0, 0, 0, 0, 0, 0, 0, 0, 0, 0, 0, 0, 0, 0, 0, 0, 0, 0, rB⟩).2).2).1 = (bigPhaseC A len (len / 256 + 1) (14880 * 8) (bigPhaseB A 2 (14848 * 8) (bigPhaseA A 465 0 ⟨cA, 0, 0, 0, 0, 0, 0, 0, 0, 0, 0, 0, 0, 0, 0, 0, 0, 0, 0, 0, 0, 0, rA⟩).2).2).1 := by
    unfold bigPhaseC
    exact cFor_fst_eq _ 256 _ _ (len / 256 + 1) (14880 * 8) _ _
  rw [hfC]
  rw [bigPhaseA_xor A B 465 0 ⟨cA, 0, 0, 0, 0, 0, 0, 0, 0, 0, 0, 0, 0, 0, 0, 0, 0, 0, 0, 0, 0, 0, rA⟩ ⟨cB, 0, 0, 0, 0, 0, 0, 0, 0, 0, 0, 0, 0, 0, 0, 0, 0, 0, 0, 0, 0, 0, rB⟩]
  dsimp only
  rw [bigPhaseB_xor A B 2 (14848 * 8) (bigPhaseA A 465 0 ⟨cA, 0, 0, 0, 0, 0, 0, 0, 0, 0, 0, 0, 0, 0, 0, 0, 0, 0, 0, 0, 0, 0, rA⟩).2 (bigPhaseA B 465 0 ⟨cB, 0, 0, 0, 0, 0, 0, 0, 0, 0, 0, 0, 0, 0, 0, 0, 0, 0, 0, 0, 0, 0, rB⟩).2]
  dsimp only
  rw [bigPhaseC_xor A B len (len / 256 + 1) (14880 * 8) (bigPhaseB A 2 (14848 * 8) (bigPhaseA A 465 0 ⟨cA, 0, 0, 0, 0, 0, 0, 0, 0, 0, 0, 0, 0, 0, 0, 0, 0, 0, 0, 0, 0, 0, rA⟩).2).2 (bigPhaseB B 2 (14848 * 8) (bigPhaseA B 465 0 ⟨cB, 0, 0, 0, 0, 0, 0, 0, 0, 0, 0, 0, 0, 0, 0, 0, 0, 0, 0, 0, 0, 0, rB⟩).2).2]
  dsimp only
  rw [bigDrain_xor (bigPhaseC A len (len / 256 + 1) (14880 * 8) (bigPhaseB A 2 (14848 * 8) (bigPhaseA A 465 0 ⟨cA, 0, 0, 0, 0, 0, 0, 0, 0, 0, 0, 0, 0, 0, 0, 0, 0, 0, 0, 0, 0, 0, rA⟩).2).2).1 (bigPhaseC A len (len / 256 + 1) (14880 * 8) (bigPhaseB A 2 (14848 * 8) (bigPhaseA A 465 0 ⟨cA, 0, 0, 0, 0, 0, 0, 0, 0, 0, 0, 0, 0, 0, 0, 0, 0, 0, 0, 0, 0, 0, rA⟩).2).2).2 (bigPhaseC B len (len / 256 + 1) (14880 * 8) (bigPhaseB B 2 (14848 * 8) (bigPhaseA B 465 0 ⟨cB, 0, 0, 0, 0, 0, 0, 0, 0, 0, 0, 0, 0, 0, 0, 0, 0, 0, 0, 0, 0, 0, rB⟩).2).2).2]
  rw [bigTailLoop_xor0 A B len (bigDrain (bigPhaseC A len (len / 256 + 1) (14880 * 8) (bigPhaseB A 2 (14848 * 8) (bigPhaseA A 465 0 ⟨cA, 0, 0, 0, 0, 0, 0, 0, 0, 0, 0, 0, 0, 0, 0, 0, 0, 0, 0, 0, 0, 0, rA⟩).2).2).1 (bigPhaseC A len (len / 256 + 1) (14880 * 8) (bigPhaseB A 2 (14848 * 8) (bigPhaseA A 465 0 ⟨cA, 0, 0, 0, 0, 0, 0, 0, 0, 0, 0, 0, 0, 0, 0, 0, 0, 0, 0, 0, 0, 0, rA⟩).2).2).2) (bigDrain (bigPhaseC A len (len / 256 + 1) (14880 * 8) (bigPhaseB A 2 (14848 * 8) (bigPhaseA A 465 0 ⟨cA, 0, 0, 0, 0, 0, 0, 0, 0, 0, 0, 0, 0, 0, 0, 0, 0, 0, 0, 0, 0, 0, rA⟩).2).2).1 (bigPhaseC B len (len / 256 + 1) (14880 * 8) (bigPhaseB B 2 (14848 * 8) (bigPhaseA B 465 0 ⟨cB, 0, 0, 0, 0, 0, 0, 0, 0, 0, 0, 0, 0, 0, 0, 0, 0, 0, 0, 0, 0, 0, rB⟩).2).2).2) (len / 32 + 1) (bigPhaseC A len (len / 256 + 1) (14880 * 8) (bigPhaseB A 2 (14848 * 8) (bigPhaseA A 465 0 ⟨cA, 0, 0, 0, 0, 0, 0, 0, 0, 0, 0, 0, 0, 0, 0, 0, 0, 0, 0, 0, 0, 0, rA⟩).2).2).1]
  dsimp only
  have hfT : (bigTailLoop B len (bigDrain (bigPhaseC A len (len / 256 + 1) (14880 * 8) (bigPhaseB A 2 (14848 * 8) (bigPhaseA A 465 0 ⟨cA, 0, 0, 0, 0, 0, 0, 0, 0, 0, 0, 0, 0, 0, 0, 0, 0, 0, 0, 0, 0, 0, rA⟩).2).2).1 (bigPhaseC B len (len / 256 + 1) (14880 * 8) (bigPhaseB B 2 (14848 * 8) (bigPhaseA B 465 0 ⟨cB, 0, 0, 0, 0, 0, 0, 0, 0, 0, 0, 0, 0, 0, 0, 0, 0, 0, 0, 0, 0, 0, rB⟩).2).2).2) (len / 32 + 1) (bigPhaseC A len (len / 256 + 1) (14880 * 8) (bigPhaseB A 2 (14848 * 8) (bigPhaseA A 465 0 ⟨cA, 0, 0, 0, 0, 0, 0, 0, 0, 0, 0, 0, 0, 0, 0, 0, 0, 0, 0, 0, 0, 0, rA⟩).2).2).1 ⟨0, 0, 0, 0, 0⟩).1 = (bigTailLoop A len (bigDrain (bigPhaseC A len (len / 256 + 1) (14880 * 8) (bigPhaseB A 2 (14848 * 8) (bigPhaseA A 465 0 ⟨cA, 0, 0, 0, 0, 0, 0, 0, 0, 0, 0, 0, 0, 0, 0, 0, 0, 0, 0, 0, 0, 0, rA⟩).2).2).1 (bigPhaseC A len (len / 256 + 1) (14880 * 8) (bigPhaseB A 2 (14848 * 8) (bigPhaseA A 465 0 ⟨cA, 0, 0, 0, 0, 0, 0, 0, 0, 0, 0, 0, 0, 0, 0, 0, 0, 0, 0, 0, 0, 0, rA⟩).2).2).2) (len / 32 + 1) (bigPhaseC A len (len / 256 + 1) (14880 * 8) (bigPhaseB A 2 (14848 * 8) (bigPhaseA A 465 0 ⟨cA, 0, 0, 0, 0, 0, 0, 0, 0, 0, 0, 0, 0, 0, 0, 0, 0, 0, 0, 0, 0, 0, rA⟩).2).2).1 ⟨0, 0, 0, 0, 0⟩).1 := by
    unfold bigTailLoop
    exact cFor_fst_eq _ 32 _ _ (len / 32 + 1) _ _ _
  rw [hfT]
  rw [tailBytes_fXor A B (bigTailLoop A len (bigDrain (bigPhaseC A len (len / 256 + 1) (14880 * 8) (bigPhaseB A 2 (14848 * 8) (bigPhaseA A 465 0 ⟨cA, 0, 0, 0, 0, 0, 0, 0, 0, 0, 0, 0, 0, 0, 0, 0, 0, 0, 0, 0, 0, 0, rA⟩).2).2).1 (bigPhaseC A len (len / 256 + 1) (14880 * 8) (bigPhaseB A 2 (14848 * 8) (bigPhaseA A 465 0 ⟨cA, 0, 0, 0, 0, 0, 0, 0, 0, 0, 0, 0, 0, 0, 0, 0, 0, 0, 0, 0, 0, 0, rA⟩).2).2).2) (len / 32 + 1) (bigPhaseC A len (len / 256 + 1) (14880 * 8) (bigPhaseB A 2 (14848 * 8) (bigPhaseA A 465 0 ⟨cA, 0, 0, 0, 0, 0, 0, 0, 0, 0, 0, 0, 0, 0, 0, 0, 0, 0, 0, 0, 0, 0, rA⟩).2).2).1 ⟨0, 0, 0, 0, 0⟩).1 len (bigTailLoop A len (bigDrain (bigPhaseC A len (len / 256 + 1) (14880 * 8) (bigPhaseB A 2 (14848 * 8) (bigPhaseA A 465 0 ⟨cA, 0, 0, 0, 0, 0, 0, 0, 0, 0, 0, 0, 0, 0, 0, 0, 0, 0, 0, 0, 0, 0, rA⟩).2).2).1 (bigPhaseC A len (len / 256 + 1) (14880 * 8) (bigPhaseB A 2 (14848 * 8) (bigPhaseA A 465 0 ⟨cA, 0, 0, 0, 0, 0, 0, 0, 0, 0, 0, 0, 0, 0, 0, 0, 0, 0, 0, 0, 0, 0, rA⟩).2).2).2) (len / 32 + 1) (bigPhaseC A len (len / 256 + 1) (14880 * 8) (bigPhaseB A 2 (14848 * 8) (bigPhaseA A 465 0 ⟨cA, 0, 0, 0, 0, 0, 0, 0, 0, 0, 0, 0, 0, 0, 0, 0, 0, 0, 0, 0, 0, 0, rA⟩).2).2).1 ⟨0, 0, 0, 0, 0⟩).2 (bigTailLoop B len (bigDrain (bigPhaseC A len (len / 256 + 1) (14880 * 8) (bigPhaseB A 2 (14848 * 8) (bigPhaseA A 465 0 ⟨cA, 0, 0, 0, 0, 0, 0, 0, 0, 0, 0, 0, 0, 0, 0, 0, 0, 0, 0, 0, 0, 0, rA⟩).2).2).1 (bigPhaseC B len (len / 256 + 1) (14880 * 8) (bigPhaseB B 2 (14848 * 8) (bigPhaseA B 465 0 ⟨cB, 0, 0, 0, 0, 0, 0, 0, 0, 0, 0, 0, 0, 0, 0, 0, 0, 0, 0, 0, 0, 0, rB⟩).2).2).2) (len / 32 + 1) (bigPhaseC A len (len / 256 + 1) (14880 * 8) (bigPhaseB A 2 (14848 * 8) (bigPhaseA A 465 0 ⟨cA, 0, 0, 0, 0, 0, 0, 0, 0, 0, 0, 0, 0, 0, 0, 0, 0, 0, 0, 0, 0, 0, rA⟩).2).2).1 ⟨0, 0, 0, 0, 0⟩).2]
  have h := bigFinalLoop_xor (tailBytes A (bigTailLoop A len (bigDrain (bigPhaseC A len (len / 256 + 1) (14880 * 8) (bigPhaseB A 2 (14848 * 8) (bigPhaseA A 465 0 ⟨cA, 0, 0, 0, 0, 0, 0, 0, 0, 0, 0, 0, 0, 0, 0, 0, 0, 0, 0, 0, 0, 0, rA⟩).2).2).1 (bigPhaseC A len (len / 256 + 1) (14880 * 8) (bigPhaseB A 2 (14848 * 8) (bigPhaseA A 465 0 ⟨cA, 0, 0, 0, 0, 0, 0, 0, 0, 0, 0, 0, 0, 0, 0, 0, 0, 0, 0, 0, 0, 0, rA⟩).2).2).2) (len / 32 + 1) (bigPhaseC A len (len / 256 + 1) (14880 * 8) (bigPhaseB A 2 (14848 * 8) (bigPhaseA A 465 0 ⟨cA, 0, 0, 0, 0, 0, 0, 0, 0, 0, 0, 0, 0, 0, 0, 0, 0, 0, 0, 0, 0, 0, rA⟩).2).2).1 ⟨0, 0, 0, 0, 0⟩).1 len (bigTailLoop A len (bigDrain (bigPhaseC A len (len / 256 + 1) (14880 * 8) (bigPhaseB A 2 (14848 * 8) (bigPhaseA A 465 0 ⟨cA, 0, 0, 0, 0, 0, 0, 0, 0, 0, 0, 0, 0, 0, 0, 0, 0, 0, 0, 0, 0, 0, rA⟩).2).2).1 (bigPhaseC A len (len / 256 + 1) (14880 * 8) (bigPhaseB A 2 (14848 * 8) (bigPhaseA A 465 0 ⟨cA, 0, 0, 0, 0, 0, 0, 0, 0, 0, 0, 0, 0, 0, 0, 0, 0, 0, 0, 0, 0, 0, rA⟩).2).2).2) (len / 32 + 1) (bigPhaseC A len (len / 256 + 1) (14880 * 8) (bigPhaseB A 2 (14848 * 8) (bigPhaseA A 465 0 ⟨cA, 0, 0, 0, 0, 0, 0, 0, 0, 0, 0, 0, 0, 0, 0, 0, 0, 0, 0, 0, 0, 0, rA⟩).2).2).1 ⟨0, 0, 0, 0, 0⟩).2) (tailBytes B (bigTailLoop A len (bigDrain (bigPhaseC A len (len / 256 + 1) (14880 * 8) (bigPhaseB A 2 (14848 * 8) (bigPhaseA A 465 0 ⟨cA, 0, 0, 0, 0, 0, 0, 0, 0, 0, 0, 0, 0, 0, 0, 0, 0, 0, 0, 0, 0, 0, rA⟩).2).2).1 (bigPhaseC A len (len / 256 + 1) (14880 * 8) (bigPhaseB A 2 (14848 * 8) (bigPhaseA A 465 0 ⟨cA, 0, 0, 0, 0, 0, 0, 0, 0, 0, 0, 0, 0, 0, 0, 0, 0, 0, 0, 0, 0, 0, rA⟩).2).2).2) (len / 32 + 1) (bigPhaseC A len (len / 256 + 1) (14880 * 8) (bigPhaseB A 2 (14848 * 8) (bigPhaseA A 465 0 ⟨cA, 0, 0, 0, 0, 0, 0, 0, 0, 0, 0, 0, 0, 0, 0, 0, 0, 0, 0, 0, 0, 0, rA⟩).2).2).1 ⟨0, 0, 0, 0, 0⟩).1 len (bigTailLoop B len (bigDrain (bigPhaseC A len (len / 256 + 1) (14880 * 8) (bigPhaseB A 2 (14848 * 8) (bigPhaseA A 465 0 ⟨cA, 0, 0, 0, 0, 0, 0, 0, 0, 0, 0, 0, 0, 0, 0, 0, 0, 0, 0, 0, 0, 0, rA⟩).2).2).1 (bigPhaseC B len (len / 256 + 1) (14880 * 8) (bigPhaseB B 2 (14848 * 8) (bigPhaseA B 465 0 ⟨cB, 0, 0, 0, 0, 0, 0, 0, 0, 0, 0, 0, 0, 0, 0, 0, 0, 0, 0, 0, 0, 0, rB⟩).2).2).2) (len / 32 + 1) (bigPhaseC A len (len / 256 + 1) (14880 * 8) (bigPhaseB A 2 (14848 * 8) (bigPhaseA A 465 0 ⟨cA, 0, 0, 0, 0, 0, 0, 0, 0, 0, 0, 0, 0, 0, 0, 0, 0, 0, 0, 0, 0, 0, rA⟩).2).2).1 ⟨0, 0, 0, 0, 0⟩).2) (bigDrain (bigPhaseC A len (len / 256 + 1) (14880 * 8) (bigPhaseB A 2 (14848 * 8) (bigPhaseA A 465 0 ⟨cA, 0, 0, 0, 0, 0, 0, 0, 0, 0, 0, 0, 0, 0, 0, 0, 0, 0, 0, 0, 0, 0, rA⟩).2).2).1 (bigPhaseC A len (len / 256 + 1) (14880 * 8) (bigPhaseB A 2 (14848 * 8) (bigPhaseA A 465 0 ⟨cA, 0, 0, 0, 0, 0, 0, 0, 0, 0, 0, 0, 0, 0, 0, 0, 0, 0, 0, 0, 0, 0, rA⟩).2).2).2) (bigDrain (bigPhaseC A len (len / 256 + 1) (14880 * 8) (bigPhaseB A 2 (14848 * 8) (bigPhaseA A 465 0 ⟨cA, 0, 0, 0, 0, 0, 0, 0, 0, 0, 0, 0, 0, 0, 0, 0, 0, 0, 0, 0, 0, 0, rA⟩).2).2).1 (bigPhaseC B len (len / 256 + 1) (14880 * 8) (bigPhaseB B 2 (14848 * 8) (bigPhaseA B 465 0 ⟨cB, 0, 0, 0, 0, 0, 0, 0, 0, 0, 0, 0, 0, 0, 0, 0, 0, 0, 0, 0, 0, 0, rB⟩).2).2).2) (bigTailLoop A len (bigDrain (bigPhaseC A len (len / 256 + 1) (14880 * 8) (bigPhaseB A 2 (14848 * 8) (bigPhaseA A 465 0 ⟨cA, 0, 0, 0, 0, 0, 0, 0, 0, 0, 0, 0, 0, 0, 0, 0, 0, 0, 0, 0, 0, 0, rA⟩).2).2).1 (bigPhaseC A len (len / 256 + 1) (14880 * 8) (bigPhaseB A 2 (14848 * 8) (bigPhaseA A 465 0 ⟨cA, 0, 0, 0, 0, 0, 0, 0, 0, 0, 0, 0, 0, 0, 0, 0, 0, 0, 0, 0, 0, 0, rA⟩).2).2).2) (len / 32 + 1) (bigPhaseC A len (len / 256 + 1) (14880 * 8) (bigPhaseB A 2 (14848 * 8) (bigPhaseA A 465 0 ⟨cA, 0, 0, 0, 0, 0, 0, 0, 0, 0, 0, 0, 0, 0, 0, 0, 0, 0, 0, 0, 0, 0, rA⟩).2).2).1 ⟨0, 0, 0, 0, 0⟩).1 len 80 0 0 0
  simpa using h

/-- Superposition through the mid-size kernel (spec-modelled as the small
kernel's function). -/
theorem chorba32768Nondestructive_xor (cA cB : ℕ) (A B : ℕ → ℕ) (len : ℕ) :
    chorba32768Nondestructive (cA ^^^ cB) (fXor A B) len =
      chorba32768Nondestructive cA A len ^^^ chorba32768Nondestructive cB B len := by
  unfold chorba32768Nondestructive
  exact chorbaSmallNondestructive_xor cA cB A B len

/-- The conditioning wrapper of `crc32_c` around its kernel pipeline
(restated for the superposition argument). -/
theorem crc32C_eq_raw (crc addr : ℕ) (input : ℕ → ℕ) (len ring0 : ℕ) :
    crc32C crc addr input len ring0 =
      crc32CRaw (crc % 2 ^ 32 ^^^ 0xFFFFFFFF) addr input len ring0 ^^^ 0xFFFFFFFF := rfl

/-- Superposition through the whole kernel pipeline of `crc32_c`: register,
message and initial scratch content split jointly, for every buffer address
and length (the dispatch path is the same on both sides). -/
theorem crc32CRaw_xor (cA cB addr : ℕ) (A B : ℕ → ℕ) (len rA rB : ℕ) :
    crc32CRaw (cA ^^^ cB) addr (fXor A B) len (rA ^^^ rB) =
      crc32CRaw cA addr A len rA ^^^ crc32CRaw cB addr B len rB := by
  have hc2 : (if algnDiff addr ≠ 0 then
        crc32BraidBase (cA ^^^ cB) addr (fXor A B) (algnDiff addr) else cA ^^^ cB) =
      (if algnDiff addr ≠ 0 then crc32BraidBase cA addr A (algnDiff addr) else cA) ^^^
        (if algnDiff addr ≠ 0 then crc32BraidBase cB addr B (algnDiff addr) else cB) := by
    split_ifs with h
    · exact crc32BraidBase_xor cA cB addr A B (algnDiff addr)
    · rfl
  have hal : (fun j => fXor A B (algnDiff addr + j)) =
      fXor (fun j => A (algnDiff addr + j)) (fun j => B (algnDiff addr + j)) := rfl
  unfold crc32CRaw
  dsimp only
  rw [hc2, hal]
  split_ifs <;>
    first
      | exact chorba118960Nondestructive_xor _ _ _ _ _ _ _
      | exact chorba32768Nondestructive_xor _ _ _ _ _
      | exact chorbaSmallNondestructive_xor _ _ _ _ _
      | exact crc32BraidBase_xor _ _ _ _ _ _

theorem xorFinal (x y z f : ℕ) :
    ((x ^^^ y) ^^^ f) ^^^ (z ^^^ f) = (x ^^^ f) ^^^ ((z ^^^ y) ^^^ f) := by
  simp only [Nat.xor_comm, Nat.xor_assoc, xor_left_comm]

/-- C9: the one-shot CRC map is GF(2)-affine in its message argument: for
every pair of equal-length byte sequences `A`, `B` (any buffer address, any
initial scratch content, initial CRC 0, no conditioning beyond the function's
own), `crc(A ⊕ B) ⊕ crc(0^len) = crc(A) ⊕ crc(B)`, where `⊕` is bytewise
XOR of the sequences. -/
theorem crc32C_gf2_affine (addr len ring0 : ℕ) (A B : ℕ → ℕ) :
    crc32C 0 addr (fXor A B) len ring0 ^^^ crc32C 0 addr (fun _ => 0) len ring0 =
      crc32C 0 addr A len ring0 ^^^ crc32C 0 addr B len ring0 := by
  have h1 := crc32CRaw_xor (0 % 2 ^ 32 ^^^ 0xFFFFFFFF) 0 addr A B len ring0 0
  rw [Nat.xor_zero, Nat.xor_zero] at h1
  have hzb : fXor (fun _ => 0) B = B := funext fun j => by simp [fXor]
  have h2 := crc32CRaw_xor (0 % 2 ^ 32 ^^^ 0xFFFFFFFF) 0 addr (fun _ => 0) B len ring0 0
  rw [Nat.xor_zero, Nat.xor_zero, hzb] at h2
  rw [crc32C_eq_raw 0 addr (fXor A B) len ring0,
    crc32C_eq_raw 0 addr (fun _ => 0) len ring0,
    crc32C_eq_raw 0 addr A len ring0, crc32C_eq_raw 0 addr B len ring0,
    h1, h2]
  apply xorFinal
